import Mathlib

/-!
# terraform-provider-migadu: imports, activation, mailbox guards, provider configuration

A shallow embedding of the provider code under `internal/provider`.  Go strings
are Lean strings, the Terraform plugin framework's diagnostics and state are
small explicit data types, and calls to the Migadu API client are recorded in a
call trace next to the response they produce.
-/

set_option autoImplicit false

/-! ## Go standard library: `strings` -/

/-- Segments of a character list between successive occurrences of `sep`. -/
def splitChars (sep : Char) : List Char → List (List Char)
  | [] => [[]]
  | c :: cs =>
    if c = sep then [] :: splitChars sep cs
    else
      match splitChars sep cs with
      | [] => [[c]]
      | seg :: rest => (c :: seg) :: rest

/-- Go `strings.Split(s, sep)` for a separator of one character: the substrings
of `s` between successive occurrences of `sep`, in order. -/
def strings_Split (s : String) (sep : Char) : List String :=
  (splitChars sep s.data).map String.mk

/-- Go `strings.Join(elems, sep)`. -/
def strings_Join : List String → String → String
  | [], _ => ""
  | [a], _ => a
  | a :: b :: rest, sep => a ++ sep ++ strings_Join (b :: rest) sep

/-! ## Plugin framework: diagnostics -/

/-- Severity of a diagnostic (`diag.Severity`). -/
inductive Severity where
  | Error
  | Warning
  deriving DecidableEq, Repr

/-- One diagnostic (`diag.Diagnostic`): severity, summary and detail. -/
structure Diagnostic where
  Severity : Severity
  Summary : String
  Detail : String
  deriving DecidableEq, Repr

/-- The framework's `diag.Diagnostics`, a slice of diagnostics. -/
abbrev Diagnostics := List Diagnostic

/-- Embeds `Diagnostics.Append`: appends each given diagnostic, skipping one that is
already contained. -/
def Diagnostics.Append (diags : Diagnostics) (more : Diagnostics) : Diagnostics :=
  more.foldl (fun acc d => if d ∈ acc then acc else acc ++ [d]) diags

/-- Embeds `Diagnostics.AddError(summary, detail)`. -/
def Diagnostics.AddError (diags : Diagnostics) (summary detail : String) : Diagnostics :=
  Diagnostics.Append diags [⟨Severity.Error, summary, detail⟩]

/-- Embeds `Diagnostics.AddWarning(summary, detail)`. -/
def Diagnostics.AddWarning (diags : Diagnostics) (summary detail : String) : Diagnostics :=
  Diagnostics.Append diags [⟨Severity.Warning, summary, detail⟩]

/-- Embeds `Diagnostics.HasError()`. -/
def Diagnostics.HasError (diags : Diagnostics) : Bool :=
  diags.any (fun d => d.Severity = Severity.Error)

/-! ## Plugin framework: attribute values, schema and state -/

/-- Type of a top-level schema attribute. -/
inductive AttrType where
  | String
  | Bool
  | Int64
  | StringList
  deriving DecidableEq, Repr

/-- Raw value of a top-level attribute. -/
inductive Value where
  | Null
  | Unknown
  | String (s : String)
  | Bool (b : Bool)
  | Int64 (i : Int)
  | StringList (l : List String)
  deriving DecidableEq, Repr

/-- A resource schema: attribute names with their types. -/
abbrev Schema := List (String × AttrType)

/-- The framework's `tfsdk.State`: a schema and a raw object, `none` being the
null object. -/
structure State where
  Schema : Schema
  Raw : Option (List (String × Value))
  deriving DecidableEq, Repr

/-- Test helper `newStateForSchema`: the null object of the schema's type. -/
def newStateForSchema (schema : Schema) : State :=
  { Schema := schema, Raw := none }

/-- Replaces the value stored under `name`, or adds it. -/
def upsert (name : String) (v : Value) : List (String × Value) → List (String × Value)
  | [] => [(name, v)]
  | (k, w) :: rest => if k = name then (name, v) :: rest else (k, w) :: upsert name v rest

/-- Raw value of the root attribute `name`; a null object has only null
attributes. -/
def State.GetAttribute (st : State) (name : String) : Value :=
  match st.Raw with
  | none => Value.Null
  | some obj => (obj.lookup name).getD Value.Null

/-- Test helper `getStateStringAttribute`: reads a root attribute into a Go
string, which fails unless the attribute holds a known string. -/
def getStateStringAttribute (st : State) (attr : String) : Option String :=
  match st.GetAttribute attr with
  | Value.String s => some s
  | _ => none

/-- Embeds `State.SetAttribute(ctx, path.Root(name), val)` for a Go string `val`: the
attribute must exist in the schema and accept a string; otherwise the state is
left as it was and an error diagnostic is returned (detail text abridged). -/
def State.SetAttribute (st : State) (name : String) (val : String) : State × Diagnostics :=
  match st.Schema.lookup name with
  | some AttrType.String =>
    ({ st with Raw := some (upsert name (Value.String val) (st.Raw.getD [])) }, [])
  | some _ =>
    (st, [⟨Severity.Error, "Value Conversion Error", "cannot write a string to " ++ name⟩])
  | none =>
    (st, [⟨Severity.Error, "State Write Error", "no attribute at path " ++ name⟩])

/-! ## Plugin framework: import -/

/-- Embeds `resource.ImportStateRequest`. -/
structure ImportStateRequest where
  ID : String
  deriving DecidableEq, Repr

/-- Embeds `resource.ImportStateResponse`. -/
structure ImportStateResponse where
  State : State
  Diagnostics : Diagnostics
  deriving DecidableEq, Repr

/-- The statement `resp.Diagnostics.Append(resp.State.SetAttribute(ctx, path.Root(name), val)...)`. -/
def ImportStateResponse.SetAttribute (resp : ImportStateResponse) (name val : String) :
    ImportStateResponse :=
  let r := resp.State.SetAttribute name val
  { State := r.1, Diagnostics := Diagnostics.Append resp.Diagnostics r.2 }

/-- The response the framework hands to `ImportState`: the null state of the
resource's schema and no diagnostics. -/
def newImportStateResponse (schema : Schema) : ImportStateResponse :=
  { State := newStateForSchema schema, Diagnostics := [] }

/-- The framework helper `resource.ImportStatePassthroughID(ctx, path.Root(name), req, resp)`:
writes the whole import ID to one attribute.  The helper is not part of this
repository; framework releases differ on an empty ID, the newer ones leaving
the attribute untouched then, which `skipEmptyID` selects.  A root path is
never the empty path, so the helper's missing-path error cannot occur. -/
def ImportStatePassthroughID (skipEmptyID : Bool) (name : String) (req : ImportStateRequest)
    (resp : ImportStateResponse) : ImportStateResponse :=
  if skipEmptyID && req.ID = "" then resp
  else resp.SetAttribute name req.ID

/-! ## Resource schemas (attribute names and types) -/

/-- Attributes of `MailboxResource.Schema`. -/
def MailboxResource.Schema : Schema :=
  [("domain_name", AttrType.String), ("local_part", AttrType.String), ("name", AttrType.String),
   ("password_method", AttrType.String), ("password", AttrType.String),
   ("password_recovery_email", AttrType.String), ("may_send", AttrType.Bool),
   ("may_receive", AttrType.Bool), ("may_access_imap", AttrType.Bool),
   ("may_access_pop3", AttrType.Bool), ("may_access_managesieve", AttrType.Bool),
   ("spam_action", AttrType.String), ("spam_aggressiveness", AttrType.String),
   ("footer_active", AttrType.Bool), ("footer_plain_body", AttrType.String),
   ("footer_html_body", AttrType.String), ("address", AttrType.String),
   ("is_internal", AttrType.Bool), ("storage_usage", AttrType.Int64),
   ("changed_at", AttrType.String), ("last_login_at", AttrType.String)]

/-- Attributes of `AliasResource.Schema`. -/
def AliasResource.Schema : Schema :=
  [("domain_name", AttrType.String), ("local_part", AttrType.String),
   ("destinations", AttrType.StringList), ("address", AttrType.String),
   ("is_internal", AttrType.Bool)]

/-- Attributes of `IdentityResource.Schema`. -/
def IdentityResource.Schema : Schema :=
  [("domain_name", AttrType.String), ("mailbox", AttrType.String),
   ("local_part", AttrType.String), ("name", AttrType.String), ("password", AttrType.String),
   ("may_send", AttrType.Bool), ("may_receive", AttrType.Bool),
   ("may_access_imap", AttrType.Bool), ("may_access_pop3", AttrType.Bool),
   ("may_access_managesieve", AttrType.Bool), ("footer_active", AttrType.Bool),
   ("footer_plain_body", AttrType.String), ("footer_html_body", AttrType.String),
   ("address", AttrType.String)]

/-- Attributes of `RewriteResource.Schema`. -/
def RewriteResource.Schema : Schema :=
  [("domain_name", AttrType.String), ("name", AttrType.String),
   ("local_part_rule", AttrType.String), ("order_num", AttrType.Int64),
   ("destinations", AttrType.StringList)]

/-- Attributes of `DomainResource.Schema`. -/
def DomainResource.Schema : Schema :=
  [("name", AttrType.String), ("state", AttrType.String), ("description", AttrType.String),
   ("tags", AttrType.StringList), ("spam_aggressiveness", AttrType.Int64),
   ("greylisting_enabled", AttrType.Bool), ("mx_proxy_enabled", AttrType.Bool),
   ("hosted_dns", AttrType.Bool), ("sender_denylist", AttrType.StringList),
   ("recipient_denylist", AttrType.StringList), ("catchall_destinations", AttrType.StringList)]

/-- Attributes of `DomainActivationResource.Schema`. -/
def DomainActivationResource.Schema : Schema :=
  [("domain_name", AttrType.String), ("state", AttrType.String)]

/-! ## ImportState of the six resources -/

/-- Embeds `MailboxResource.ImportState`. -/
def MailboxResource.ImportState (req : ImportStateRequest) (resp : ImportStateResponse) :
    ImportStateResponse :=
  let parts := strings_Split req.ID '/'
  if parts.length ≠ 2 then
    { resp with
      Diagnostics := Diagnostics.AddError resp.Diagnostics "Invalid Import ID"
        "Import ID must be in format: domain_name/local_part" }
  else
    let resp := resp.SetAttribute "domain_name" (parts.getD 0 "")
    resp.SetAttribute "local_part" (parts.getD 1 "")

/-- Embeds `AliasResource.ImportState`. -/
def AliasResource.ImportState (req : ImportStateRequest) (resp : ImportStateResponse) :
    ImportStateResponse :=
  let parts := strings_Split req.ID '/'
  if parts.length ≠ 2 then
    { resp with
      Diagnostics := Diagnostics.AddError resp.Diagnostics "Invalid Import ID"
        "Import ID must be in format: domain_name/local_part" }
  else
    let resp := resp.SetAttribute "domain_name" (parts.getD 0 "")
    resp.SetAttribute "local_part" (parts.getD 1 "")

/-- Embeds `IdentityResource.ImportState`. -/
def IdentityResource.ImportState (req : ImportStateRequest) (resp : ImportStateResponse) :
    ImportStateResponse :=
  let parts := strings_Split req.ID '/'
  if parts.length ≠ 3 then
    { resp with
      Diagnostics := Diagnostics.AddError resp.Diagnostics "Invalid Import ID"
        "Import ID must be in format: domain_name/mailbox/local_part" }
  else
    let resp := resp.SetAttribute "domain_name" (parts.getD 0 "")
    let resp := resp.SetAttribute "mailbox" (parts.getD 1 "")
    resp.SetAttribute "local_part" (parts.getD 2 "")

/-- Embeds `RewriteResource.ImportState`. -/
def RewriteResource.ImportState (req : ImportStateRequest) (resp : ImportStateResponse) :
    ImportStateResponse :=
  let parts := strings_Split req.ID '/'
  if parts.length ≠ 2 then
    { resp with
      Diagnostics := Diagnostics.AddError resp.Diagnostics "Invalid Import ID"
        "Import ID must be in format: domain_name/name" }
  else
    let resp := resp.SetAttribute "domain_name" (parts.getD 0 "")
    resp.SetAttribute "name" (parts.getD 1 "")

/-- Embeds `DomainActivationResource.ImportState`: passes the ID through to `domain_name`. -/
def DomainActivationResource.ImportState (skipEmptyID : Bool) (req : ImportStateRequest)
    (resp : ImportStateResponse) : ImportStateResponse :=
  ImportStatePassthroughID skipEmptyID "domain_name" req resp

/-- Embeds `DomainResource.ImportState`: passes the ID through to `name`. -/
def DomainResource.ImportState (skipEmptyID : Bool) (req : ImportStateRequest)
    (resp : ImportStateResponse) : ImportStateResponse :=
  ImportStatePassthroughID skipEmptyID "name" req resp

/-! ## Plugin framework: typed values, plans and responses -/

/-- The framework's `types.String` (`basetypes.StringValue`): null, unknown or a
known string. -/
inductive basetypes.StringValue where
  | Null
  | Unknown
  | Known (value : String)
  deriving DecidableEq, Repr

/-- The framework's `types.Bool` (`basetypes.BoolValue`). -/
inductive basetypes.BoolValue where
  | Null
  | Unknown
  | Known (value : Bool)
  deriving DecidableEq, Repr

/-- The framework's `types.Int64` (`basetypes.Int64Value`). -/
inductive basetypes.Int64Value where
  | Null
  | Unknown
  | Known (value : Int)
  deriving DecidableEq, Repr

/-- Embeds `types.StringValue(s)`. -/
def types.StringValue (s : String) : basetypes.StringValue := basetypes.StringValue.Known s

/-- Embeds `types.BoolValue(b)`. -/
def types.BoolValue (b : Bool) : basetypes.BoolValue := basetypes.BoolValue.Known b

/-- Embeds `types.Int64Value(i)`. -/
def types.Int64Value (i : Int) : basetypes.Int64Value := basetypes.Int64Value.Known i

/-- Embeds `StringValue.IsNull()`. -/
def basetypes.StringValue.IsNull : basetypes.StringValue → Bool
  | basetypes.StringValue.Null => true
  | _ => false

/-- Embeds `StringValue.IsUnknown()`. -/
def basetypes.StringValue.IsUnknown : basetypes.StringValue → Bool
  | basetypes.StringValue.Unknown => true
  | _ => false

/-- Embeds `StringValue.ValueString()`: the known value, or "" for null or unknown. -/
def basetypes.StringValue.ValueString : basetypes.StringValue → String
  | basetypes.StringValue.Known s => s
  | _ => ""

/-- Embeds `BoolValue.ValueBool()`: the known value, or false for null or unknown. -/
def basetypes.BoolValue.ValueBool : basetypes.BoolValue → Bool
  | basetypes.BoolValue.Known b => b
  | _ => false

/-- Raw value of a `types.String`. -/
def basetypes.StringValue.toValue : basetypes.StringValue → Value
  | basetypes.StringValue.Null => Value.Null
  | basetypes.StringValue.Unknown => Value.Unknown
  | basetypes.StringValue.Known s => Value.String s

/-- Raw value of a `types.Bool`. -/
def basetypes.BoolValue.toValue : basetypes.BoolValue → Value
  | basetypes.BoolValue.Null => Value.Null
  | basetypes.BoolValue.Unknown => Value.Unknown
  | basetypes.BoolValue.Known b => Value.Bool b

/-- Raw value of a `types.Int64`. -/
def basetypes.Int64Value.toValue : basetypes.Int64Value → Value
  | basetypes.Int64Value.Null => Value.Null
  | basetypes.Int64Value.Unknown => Value.Unknown
  | basetypes.Int64Value.Known i => Value.Int64 i

/-- The framework's `tfsdk.Plan` as the resource methods see it: what
`req.Plan.Get(ctx, &data)` yields, the populated model and the diagnostics of
the decoding. -/
structure Plan (M : Type) where
  data : M
  diags : Diagnostics

/-- Embeds `resource.CreateRequest`. -/
structure CreateRequest (M : Type) where
  Plan : Plan M

/-- Embeds `resource.UpdateRequest` (the plan is all the update methods read). -/
structure UpdateRequest (M : Type) where
  Plan : Plan M

/-- Embeds `resource.CreateResponse`. -/
structure CreateResponse where
  State : State
  Diagnostics : Diagnostics
  deriving DecidableEq, Repr

/-- Embeds `resource.UpdateResponse`. -/
structure UpdateResponse where
  State : State
  Diagnostics : Diagnostics
  deriving DecidableEq, Repr

/-- Embeds `State.Set(ctx, &data)` for a model whose fields are framework values of
the schema's attribute types: the raw object becomes the model's object, and
no diagnostic arises. -/
def State.Set (st : State) (obj : List (String × Value)) : State × Diagnostics :=
  ({ st with Raw := some obj }, [])

/-! ## The Migadu API client (`migadu-go`), as this provider uses it -/

/-- Result of `GetDomainDiagnostics`: the issues found for each DNS record kind. -/
structure migadu.DomainDiagnostics where
  MX : List String
  SPF : List String
  DKIM : List String
  DMARC : List String
  deriving DecidableEq, Repr

/-- The fields of `migadu.Domain` that the domain and domain activation
resources use.  A Go slice is an optional list, `none` being the nil slice;
the fields after `State` default to their Go zero values. -/
structure migadu.Domain where
  Name : String
  State : String
  Description : String := ""
  Tags : Option (List String) := none
  SpamAggressiveness : Int := 0
  GreylistingEnabled : Bool := false
  MXProxyEnabled : Bool := false
  HostedDNS : Bool := false
  SenderDenylist : Option (List String) := none
  RecipientDenylist : Option (List String) := none
  CatchallDestinations : Option (List String) := none
  deriving DecidableEq, Repr

/-- The fields of `migadu.Alias` that the alias resource uses; `Destinations`
is a Go slice, `none` being nil. -/
structure migadu.Alias where
  LocalPart : String
  Destinations : Option (List String)
  Address : String
  IsInternal : Bool
  deriving DecidableEq, Repr

/-- The fields of `migadu.Rewrite` that the rewrite resource uses;
`Destinations` is a Go slice, `none` being nil. -/
structure migadu.Rewrite where
  Name : String
  LocalPartRule : String
  OrderNum : Int
  Destinations : Option (List String)
  deriving DecidableEq, Repr

/-- The fields of `migadu.Mailbox` that the mailbox resource uses.
`StorageUsage` is a float in the client library; the resource only uses
`int64(StorageUsage)`, which is what the field holds here. -/
structure migadu.Mailbox where
  LocalPart : String
  Name : String
  PasswordMethod : String
  Password : String
  PasswordRecoveryEmail : String
  MaySend : Bool
  MayReceive : Bool
  MayAccessImap : Bool
  MayAccessPop3 : Bool
  MayAccessManagesieve : Bool
  SpamAction : String
  SpamAggressiveness : String
  FooterActive : Bool
  FooterPlainBody : String
  FooterHTMLBody : String
  Address : String
  IsInternal : Bool
  StorageUsage : Int
  ChangedAt : String
  LastLoginAt : String
  deriving DecidableEq, Repr

/-- An outgoing call to the API client, with the domain name it is made for. -/
inductive ApiCall where
  | GetDomainDiagnostics (domainName : String)
  | ActivateDomain (domainName : String)
  | NewMailbox (domainName : String) (mailbox : migadu.Mailbox)
  | UpdateMailbox (domainName : String) (mailbox : migadu.Mailbox)
  | GetDomain (domainName : String)
  | NewAlias (domainName : String) (body : migadu.Alias)
  | GetAlias (domainName : String) (localPart : String)
  | UpdateAlias (domainName : String) (body : migadu.Alias)
  | DeleteAlias (domainName : String) (localPart : String)
  | GetRewrite (domainName : String) (name : String)
  deriving DecidableEq, Repr

/-- The client methods used below; each returns its result or the message of
the Go error. -/
structure migadu.Client where
  GetDomainDiagnostics : String → Except String migadu.DomainDiagnostics
  ActivateDomain : String → Except String migadu.Domain
  NewMailbox : String → migadu.Mailbox → Except String migadu.Mailbox
  UpdateMailbox : String → migadu.Mailbox → Except String migadu.Mailbox
  GetDomain : String → Except String migadu.Domain
  NewAlias : String → migadu.Alias → Except String migadu.Alias
  GetAlias : String → String → Except String migadu.Alias
  UpdateAlias : String → migadu.Alias → Except String migadu.Alias
  DeleteAlias : String → String → Except String Unit
  GetRewrite : String → String → Except String migadu.Rewrite

/-! ## Domain activation -/

/-- Embeds `DomainActivationResourceModel`. -/
structure DomainActivationResourceModel where
  DomainName : basetypes.StringValue
  State : basetypes.StringValue
  deriving DecidableEq, Repr

/-- The raw object of a `DomainActivationResourceModel`, by its `tfsdk` tags. -/
def DomainActivationResourceModel.toObject (m : DomainActivationResourceModel) :
    List (String × Value) :=
  [("domain_name", m.DomainName.toValue), ("state", m.State.toValue)]

/-- The `issues` slice that `DomainActivationResource.Create` builds from the
diagnostics: one entry per non-empty list, appended in the order MX, SPF,
DKIM, DMARC. -/
def DomainActivationResource.issues (diag : migadu.DomainDiagnostics) : List String :=
  let issues : List String := []
  let issues := if diag.MX.length > 0 then issues ++ ["MX: " ++ strings_Join diag.MX "; "]
    else issues
  let issues := if diag.SPF.length > 0 then issues ++ ["SPF: " ++ strings_Join diag.SPF "; "]
    else issues
  let issues := if diag.DKIM.length > 0 then issues ++ ["DKIM: " ++ strings_Join diag.DKIM "; "]
    else issues
  let issues := if diag.DMARC.length > 0 then
      issues ++ ["DMARC: " ++ strings_Join diag.DMARC "; "]
    else issues
  issues

/-- Embeds `DomainActivationResource.Create`, returning the response and the API calls
made, in order. -/
def DomainActivationResource.Create (client : migadu.Client)
    (req : CreateRequest DomainActivationResourceModel) (resp : CreateResponse) :
    CreateResponse × List ApiCall :=
  let data := req.Plan.data
  let resp := { resp with Diagnostics := Diagnostics.Append resp.Diagnostics req.Plan.diags }
  if resp.Diagnostics.HasError then (resp, [])
  else
    let name := data.DomainName.ValueString
    match client.GetDomainDiagnostics name with
    | Except.error err =>
      ({ resp with
          Diagnostics := Diagnostics.AddError resp.Diagnostics "Client Error"
            ("Unable to get domain diagnostics, got error: " ++ err) },
        [ApiCall.GetDomainDiagnostics name])
    | Except.ok diag =>
      let issues := DomainActivationResource.issues diag
      if issues.length > 0 then
        ({ resp with
            Diagnostics := Diagnostics.AddError resp.Diagnostics "DNS Validation Failed"
              ("DNS records are not valid:\n" ++ strings_Join issues "\n") },
          [ApiCall.GetDomainDiagnostics name])
      else
        match client.ActivateDomain name with
        | Except.error err =>
          ({ resp with
              Diagnostics := Diagnostics.AddError resp.Diagnostics "Client Error"
                ("Unable to activate domain, got error: " ++ err) },
            [ApiCall.GetDomainDiagnostics name, ApiCall.ActivateDomain name])
        | Except.ok domain =>
          let data := { data with State := types.StringValue domain.State }
          let r := resp.State.Set data.toObject
          ({ State := r.1, Diagnostics := Diagnostics.Append resp.Diagnostics r.2 },
            [ApiCall.GetDomainDiagnostics name, ApiCall.ActivateDomain name])

/-- The error detail as the specification words it: the labelled lists in the
order MX, SPF, DKIM, DMARC, the empty ones dropped, each as the label, ": " and
its messages joined with "; ". -/
def specIssueLines (diag : migadu.DomainDiagnostics) : List String :=
  ([("MX", diag.MX), ("SPF", diag.SPF), ("DKIM", diag.DKIM), ("DMARC", diag.DMARC)].filter
      (fun p => p.2 ≠ [])).map
    (fun p => p.1 ++ ": " ++ strings_Join p.2 "; ")

/-- The whole error detail as the specification words it. -/
def specDetail (diag : migadu.DomainDiagnostics) : String :=
  "DNS records are not valid:\n" ++ strings_Join (specIssueLines diag) "\n"

/-- How many of the four issue lists are non-empty. -/
def nonEmptyLists (diag : migadu.DomainDiagnostics) : Nat :=
  (if diag.MX ≠ [] then 1 else 0) + (if diag.SPF ≠ [] then 1 else 0) +
    (if diag.DKIM ≠ [] then 1 else 0) + (if diag.DMARC ≠ [] then 1 else 0)

/-! ## Mailbox resource -/

/-- Embeds `MailboxResourceModel`. -/
structure MailboxResourceModel where
  DomainName : basetypes.StringValue
  LocalPart : basetypes.StringValue
  Name : basetypes.StringValue
  PasswordMethod : basetypes.StringValue
  Password : basetypes.StringValue
  PasswordRecoveryEmail : basetypes.StringValue
  MaySend : basetypes.BoolValue
  MayReceive : basetypes.BoolValue
  MayAccessImap : basetypes.BoolValue
  MayAccessPop3 : basetypes.BoolValue
  MayAccessManageSieve : basetypes.BoolValue
  SpamAction : basetypes.StringValue
  SpamAggressiveness : basetypes.StringValue
  FooterActive : basetypes.BoolValue
  FooterPlainBody : basetypes.StringValue
  FooterHTMLBody : basetypes.StringValue
  Address : basetypes.StringValue
  IsInternal : basetypes.BoolValue
  StorageUsage : basetypes.Int64Value
  ChangedAt : basetypes.StringValue
  LastLoginAt : basetypes.StringValue
  deriving DecidableEq, Repr

/-- The raw object of a `MailboxResourceModel`, by its `tfsdk` tags. -/
def MailboxResourceModel.toObject (m : MailboxResourceModel) : List (String × Value) :=
  [("domain_name", m.DomainName.toValue), ("local_part", m.LocalPart.toValue),
   ("name", m.Name.toValue), ("password_method", m.PasswordMethod.toValue),
   ("password", m.Password.toValue),
   ("password_recovery_email", m.PasswordRecoveryEmail.toValue),
   ("may_send", m.MaySend.toValue), ("may_receive", m.MayReceive.toValue),
   ("may_access_imap", m.MayAccessImap.toValue), ("may_access_pop3", m.MayAccessPop3.toValue),
   ("may_access_managesieve", m.MayAccessManageSieve.toValue),
   ("spam_action", m.SpamAction.toValue), ("spam_aggressiveness", m.SpamAggressiveness.toValue),
   ("footer_active", m.FooterActive.toValue), ("footer_plain_body", m.FooterPlainBody.toValue),
   ("footer_html_body", m.FooterHTMLBody.toValue), ("address", m.Address.toValue),
   ("is_internal", m.IsInternal.toValue), ("storage_usage", m.StorageUsage.toValue),
   ("changed_at", m.ChangedAt.toValue), ("last_login_at", m.LastLoginAt.toValue)]

/-- The seven keys of the `valid` map in `validateMailboxSpam`. -/
def validMailboxSpamLevels : List String :=
  ["strictest", "stricter", "strict", "default", "permissive", "more permissive",
   "most permissive"]

/-- Embeds `validateMailboxSpam(level)`: `none` for a nil error, otherwise the error's
message.  `quote` is Go's `%q` formatting of a string. -/
def validateMailboxSpam (quote : String → String) (level : String) : Option String :=
  if level ∉ validMailboxSpamLevels then
    some ("invalid mailbox spam_aggressiveness " ++ quote level ++
      ": must be one of strictest, stricter, strict, default, permissive, " ++
      "\"more permissive\", \"most permissive\"")
  else none

/-- The request body that `MailboxResource.Create` and `Update` build from the
plan; `passwordMethod` is the method to send, "" when the field is left unset. -/
def MailboxResource.requestBody (data : MailboxResourceModel) (passwordMethod : String) :
    migadu.Mailbox :=
  { LocalPart := data.LocalPart.ValueString
    Name := data.Name.ValueString
    PasswordMethod := passwordMethod
    Password :=
      if !data.Password.IsNull && !data.Password.IsUnknown then data.Password.ValueString
      else ""
    PasswordRecoveryEmail := data.PasswordRecoveryEmail.ValueString
    MaySend := data.MaySend.ValueBool
    MayReceive := data.MayReceive.ValueBool
    MayAccessImap := data.MayAccessImap.ValueBool
    MayAccessPop3 := data.MayAccessPop3.ValueBool
    MayAccessManagesieve := data.MayAccessManageSieve.ValueBool
    SpamAction := data.SpamAction.ValueString
    SpamAggressiveness := data.SpamAggressiveness.ValueString
    FooterActive := data.FooterActive.ValueBool
    FooterPlainBody := data.FooterPlainBody.ValueString
    FooterHTMLBody := data.FooterHTMLBody.ValueString
    Address := ""
    IsInternal := false
    StorageUsage := 0
    ChangedAt := ""
    LastLoginAt := "" }

/-- Embeds `MailboxResource.Create`, returning the response and the API calls made. -/
def MailboxResource.Create (quote : String → String) (client : migadu.Client)
    (req : CreateRequest MailboxResourceModel) (resp : CreateResponse) :
    CreateResponse × List ApiCall :=
  let data := req.Plan.data
  let resp := { resp with Diagnostics := Diagnostics.Append resp.Diagnostics req.Plan.diags }
  if resp.Diagnostics.HasError then (resp, [])
  else
    let passwordMethod :=
      if !data.PasswordMethod.IsNull && !data.PasswordMethod.IsUnknown then
        data.PasswordMethod.ValueString
      else "invitation"
    if passwordMethod = "password" && data.Password.IsNull then
      ({ resp with
          Diagnostics := Diagnostics.AddError resp.Diagnostics "Missing Password"
            "When password_method is 'password', the password field must be provided." }, [])
    else
      match validateMailboxSpam quote data.SpamAggressiveness.ValueString with
      | some err =>
        ({ resp with
            Diagnostics := Diagnostics.AddError resp.Diagnostics "Invalid spam_aggressiveness"
              err }, [])
      | none =>
        let mailbox := MailboxResource.requestBody data passwordMethod
        let domain := data.DomainName.ValueString
        match client.NewMailbox domain mailbox with
        | Except.error err =>
          ({ resp with
              Diagnostics := Diagnostics.AddError resp.Diagnostics "Client Error"
                ("Unable to create mailbox, got error: " ++ err) },
            [ApiCall.NewMailbox domain mailbox])
        | Except.ok created =>
          let data := { data with
            PasswordMethod := types.StringValue passwordMethod
            Address := types.StringValue created.Address
            IsInternal := types.BoolValue created.IsInternal
            StorageUsage := types.Int64Value created.StorageUsage
            ChangedAt := types.StringValue created.ChangedAt
            LastLoginAt := types.StringValue created.LastLoginAt }
          let r := resp.State.Set data.toObject
          ({ State := r.1, Diagnostics := Diagnostics.Append resp.Diagnostics r.2 },
            [ApiCall.NewMailbox domain mailbox])

/-- Embeds `MailboxResource.Update`, returning the response and the API calls made. -/
def MailboxResource.Update (quote : String → String) (client : migadu.Client)
    (req : UpdateRequest MailboxResourceModel) (resp : UpdateResponse) :
    UpdateResponse × List ApiCall :=
  let data := req.Plan.data
  let resp := { resp with Diagnostics := Diagnostics.Append resp.Diagnostics req.Plan.diags }
  if resp.Diagnostics.HasError then (resp, [])
  else
    let passwordMethodIsSet := !data.PasswordMethod.IsNull && !data.PasswordMethod.IsUnknown
    if passwordMethodIsSet && data.PasswordMethod.ValueString = "password"
        && data.Password.IsNull then
      ({ resp with
          Diagnostics := Diagnostics.AddError resp.Diagnostics "Missing Password"
            "When password_method is 'password', the password field must be provided." }, [])
    else
      match validateMailboxSpam quote data.SpamAggressiveness.ValueString with
      | some err =>
        ({ resp with
            Diagnostics := Diagnostics.AddError resp.Diagnostics "Invalid spam_aggressiveness"
              err }, [])
      | none =>
        let mailbox := MailboxResource.requestBody data
          (if passwordMethodIsSet then data.PasswordMethod.ValueString else "")
        let domain := data.DomainName.ValueString
        match client.UpdateMailbox domain mailbox with
        | Except.error err =>
          ({ resp with
              Diagnostics := Diagnostics.AddError resp.Diagnostics "Client Error"
                ("Unable to update mailbox, got error: " ++ err) },
            [ApiCall.UpdateMailbox domain mailbox])
        | Except.ok updated =>
          let data := { data with
            Address := types.StringValue updated.Address
            IsInternal := types.BoolValue updated.IsInternal
            StorageUsage := types.Int64Value updated.StorageUsage }
          let r := resp.State.Set data.toObject
          ({ State := r.1, Diagnostics := Diagnostics.Append resp.Diagnostics r.2 },
            [ApiCall.UpdateMailbox domain mailbox])

/-! ## Plugin framework: lists, prior state and delete -/

/-- The framework's `types.List` of strings (`basetypes.ListValue`). -/
inductive basetypes.ListValue where
  | Null
  | Unknown
  | Known (elements : List String)
  deriving DecidableEq, Repr

/-- Raw value of a `types.List` of strings. -/
def basetypes.ListValue.toValue : basetypes.ListValue → Value
  | basetypes.ListValue.Null => Value.Null
  | basetypes.ListValue.Unknown => Value.Unknown
  | basetypes.ListValue.Known l => Value.StringList l

/-- The prior state as the resource methods see it: what
`req.State.Get(ctx, &data)` yields, the populated model and the diagnostics of
the decoding. -/
structure PriorState (M : Type) where
  data : M
  diags : Diagnostics

/-- Embeds `resource.DeleteRequest`. -/
structure DeleteRequest (M : Type) where
  State : PriorState M

/-- Embeds `resource.DeleteResponse`. -/
structure DeleteResponse where
  State : State
  Diagnostics : Diagnostics
  deriving DecidableEq, Repr

/-! ## Domain resource: delete -/

/-- Embeds `DomainResourceModel`. -/
structure DomainResourceModel where
  Name : basetypes.StringValue
  State : basetypes.StringValue
  Description : basetypes.StringValue
  Tags : basetypes.ListValue
  SpamAggressiveness : basetypes.Int64Value
  GreylistingEnabled : basetypes.BoolValue
  MXProxyEnabled : basetypes.BoolValue
  HostedDNS : basetypes.BoolValue
  SenderDenylist : basetypes.ListValue
  RecipientDenylist : basetypes.ListValue
  CatchallDestinations : basetypes.ListValue
  deriving DecidableEq, Repr

/-- Embeds `DomainResource.Delete`, returning the response and the API calls
made: it decodes the prior state and adds a warning; the client is not used. -/
def DomainResource.Delete (_client : migadu.Client) (req : DeleteRequest DomainResourceModel)
    (resp : DeleteResponse) : DeleteResponse × List ApiCall :=
  let resp := { resp with Diagnostics := Diagnostics.Append resp.Diagnostics req.State.diags }
  if resp.Diagnostics.HasError then (resp, [])
  else
    ({ resp with
        Diagnostics := Diagnostics.AddWarning resp.Diagnostics "Domain Deletion Not Supported"
          ("The Migadu API does not support domain deletion. Remove this resource from " ++
           "state manually or contact Migadu support to delete the domain.") }, [])

/-! ## Domain activation: update and delete -/

/-- Embeds `DomainActivationResource.Update`, whose body is empty. -/
def DomainActivationResource.Update (_client : migadu.Client)
    (_req : UpdateRequest DomainActivationResourceModel) (resp : UpdateResponse) :
    UpdateResponse × List ApiCall :=
  (resp, [])

/-- Embeds `DomainActivationResource.Delete`, whose body is empty. -/
def DomainActivationResource.Delete (_client : migadu.Client)
    (_req : DeleteRequest DomainActivationResourceModel) (resp : DeleteResponse) :
    DeleteResponse × List ApiCall :=
  (resp, [])

/-! ## Provider configuration -/

/-- Embeds `MigaduProviderModel`. -/
structure MigaduProviderModel where
  Username : basetypes.StringValue
  APIKey : basetypes.StringValue
  deriving DecidableEq, Repr

/-- The provider configuration as `Configure` sees it: what
`req.Config.Get(ctx, &config)` yields, the populated model and the diagnostics
of the decoding. -/
structure Config (M : Type) where
  data : M
  diags : Diagnostics

/-- Embeds `provider.ConfigureRequest`. -/
structure ConfigureRequest where
  Config : Config MigaduProviderModel

/-- Embeds `provider.ConfigureResponse`: the diagnostics and the two values
handed on to data sources and resources, `none` being nil. -/
structure ConfigureResponse where
  Diagnostics : Diagnostics
  DataSourceData : Option migadu.Client
  ResourceData : Option migadu.Client

/-- What `MigaduProvider.Configure` asks of its surroundings: an environment
variable read, or the creation of the API client from credentials. -/
inductive ProviderCall where
  | Getenv (name : String)
  | New (username : String) (apiKey : String)
  deriving DecidableEq, Repr

/-- Detail of the error "Unknown Migadu Username". -/
def MigaduProvider.unknownUsernameDetail : String :=
  "The provider cannot create the Migadu API client as there is an unknown configuration value for the Migadu username. " ++
  "Either target apply the source of the value first, set the value statically in the configuration, or use the MIGADU_USERNAME environment variable."

/-- Detail of the error "Unknown Migadu API Key". -/
def MigaduProvider.unknownAPIKeyDetail : String :=
  "The provider cannot create the Migadu API client as there is an unknown configuration value for the Migadu API key. " ++
  "Either target apply the source of the value first, set the value statically in the configuration, or use the MIGADU_API_KEY environment variable."

/-- Detail of the error "Missing Migadu Username". -/
def MigaduProvider.missingUsernameDetail : String :=
  "The provider cannot create the Migadu API client as there is a missing or empty value for the Migadu username. " ++
  "Set the username value in the configuration or use the MIGADU_USERNAME environment variable. " ++
  "If either is already set, ensure the value is not empty."

/-- Detail of the error "Missing Migadu API Key". -/
def MigaduProvider.missingAPIKeyDetail : String :=
  "The provider cannot create the Migadu API client as there is a missing or empty value for the Migadu API key. " ++
  "Set the api_key value in the configuration or use the MIGADU_API_KEY environment variable. " ++
  "If either is already set, ensure the value is not empty."

/-- Embeds `MigaduProvider.Configure`, returning the response and, in order, the
environment reads and client creations made.  `getenv` is `os.Getenv` (""
for an unset variable) and `migaduNew` is `migadu.New`, giving the client or
the message of its error. -/
def MigaduProvider.Configure (getenv : String → String)
    (migaduNew : String → String → Except String migadu.Client)
    (req : ConfigureRequest) (resp : ConfigureResponse) :
    ConfigureResponse × List ProviderCall :=
  let config := req.Config.data
  let resp := { resp with Diagnostics := Diagnostics.Append resp.Diagnostics req.Config.diags }
  if resp.Diagnostics.HasError then (resp, [])
  else
    let username := config.Username.ValueString
    let apiKey := config.APIKey.ValueString
    let resp :=
      if config.Username.IsUnknown then
        { resp with
          Diagnostics := Diagnostics.AddError resp.Diagnostics "Unknown Migadu Username"
            MigaduProvider.unknownUsernameDetail }
      else resp
    let resp :=
      if config.APIKey.IsUnknown then
        { resp with
          Diagnostics := Diagnostics.AddError resp.Diagnostics "Unknown Migadu API Key"
            MigaduProvider.unknownAPIKeyDetail }
      else resp
    if resp.Diagnostics.HasError then (resp, [])
    else
      let reads1 := if username = "" then [ProviderCall.Getenv "MIGADU_USERNAME"] else []
      let username := if username = "" then getenv "MIGADU_USERNAME" else username
      let reads2 := if apiKey = "" then [ProviderCall.Getenv "MIGADU_API_KEY"] else []
      let apiKey := if apiKey = "" then getenv "MIGADU_API_KEY" else apiKey
      let resp :=
        if username = "" then
          { resp with
            Diagnostics := Diagnostics.AddError resp.Diagnostics "Missing Migadu Username"
              MigaduProvider.missingUsernameDetail }
        else resp
      let resp :=
        if apiKey = "" then
          { resp with
            Diagnostics := Diagnostics.AddError resp.Diagnostics "Missing Migadu API Key"
              MigaduProvider.missingAPIKeyDetail }
        else resp
      if resp.Diagnostics.HasError then (resp, reads1 ++ reads2)
      else
        match migaduNew username apiKey with
        | Except.error err =>
          ({ resp with
              Diagnostics := Diagnostics.AddError resp.Diagnostics
                "Unable to Create Migadu API Client"
                ("An unexpected error occurred when creating the Migadu API client. " ++
                 "If the error is not clear, please contact the provider developers.\n\n" ++
                 "Migadu Client Error: " ++ err) },
            reads1 ++ reads2 ++ [ProviderCall.New username apiKey])
        | Except.ok client =>
          ({ resp with DataSourceData := some client, ResourceData := some client },
            reads1 ++ reads2 ++ [ProviderCall.New username apiKey])

/-- The credential as the specification words it: the configuration value
when it is non-empty, otherwise the value of the environment variable `name`
(null and unknown configuration values read as ""). -/
def effectiveCredential (getenv : String → String) (configured : basetypes.StringValue)
    (name : String) : String :=
  if configured.ValueString = "" then getenv name else configured.ValueString

/-! ## Plugin framework: list conversions and read -/

/-- The framework's `types.ListValueFrom(ctx, types.StringType, elements)` for a
Go string slice: a nil slice becomes the null list and any other slice the
known list of its elements; no diagnostic arises for strings.  The function
is not part of this repository; `normalizeStringSlice` exists because of the
nil case. -/
def types.ListValueFrom (elements : Option (List String)) : basetypes.ListValue × Diagnostics :=
  match elements with
  | none => (basetypes.ListValue.Null, [])
  | some l => (basetypes.ListValue.Known l, [])

/-- The framework's `ListValue.ElementsAs(ctx, &target, false)` for a Go string
slice target: a null list gives the nil slice, a known list its elements, and
an unknown list an error diagnostic (detail text abridged). -/
def basetypes.ListValue.ElementsAs : basetypes.ListValue → Option (List String) × Diagnostics
  | basetypes.ListValue.Null => (none, [])
  | basetypes.ListValue.Known l => (some l, [])
  | basetypes.ListValue.Unknown =>
    (none, [⟨Severity.Error, "Value Conversion Error",
      "Received unknown value, however the target type cannot handle unknown values."⟩])

/-- Embeds `resource.ReadRequest`. -/
structure ReadRequest (M : Type) where
  State : PriorState M

/-- Embeds `resource.ReadResponse`. -/
structure ReadResponse where
  State : State
  Diagnostics : Diagnostics
  deriving DecidableEq, Repr

/-! ## Domain resource: read -/

/-- Embeds `normalizeStringSlice`: nil becomes the empty slice, any other slice
is returned as it is. -/
def normalizeStringSlice (values : Option (List String)) : Option (List String) :=
  match values with
  | none => some []
  | some l => some l

/-- The raw object of a `DomainResourceModel`, by its `tfsdk` tags. -/
def DomainResourceModel.toObject (m : DomainResourceModel) : List (String × Value) :=
  [("name", m.Name.toValue), ("state", m.State.toValue),
   ("description", m.Description.toValue), ("tags", m.Tags.toValue),
   ("spam_aggressiveness", m.SpamAggressiveness.toValue),
   ("greylisting_enabled", m.GreylistingEnabled.toValue),
   ("mx_proxy_enabled", m.MXProxyEnabled.toValue), ("hosted_dns", m.HostedDNS.toValue),
   ("sender_denylist", m.SenderDenylist.toValue),
   ("recipient_denylist", m.RecipientDenylist.toValue),
   ("catchall_destinations", m.CatchallDestinations.toValue)]

/-- Embeds `DomainResource.Read`, returning the response and the API calls made. -/
def DomainResource.Read (client : migadu.Client) (req : ReadRequest DomainResourceModel)
    (resp : ReadResponse) : ReadResponse × List ApiCall :=
  let data := req.State.data
  let resp := { resp with Diagnostics := Diagnostics.Append resp.Diagnostics req.State.diags }
  if resp.Diagnostics.HasError then (resp, [])
  else
    let name := data.Name.ValueString
    match client.GetDomain name with
    | Except.error err =>
      ({ resp with
          Diagnostics := Diagnostics.AddError resp.Diagnostics "Client Error"
            ("Unable to read domain, got error: " ++ err) },
        [ApiCall.GetDomain name])
    | Except.ok retrieved =>
      let data := { data with
        State := types.StringValue retrieved.State
        Description := types.StringValue retrieved.Description
        SpamAggressiveness := types.Int64Value retrieved.SpamAggressiveness
        GreylistingEnabled := types.BoolValue retrieved.GreylistingEnabled
        MXProxyEnabled := types.BoolValue retrieved.MXProxyEnabled
        HostedDNS := types.BoolValue retrieved.HostedDNS }
      let tags := types.ListValueFrom (normalizeStringSlice retrieved.Tags)
      let resp := { resp with Diagnostics := Diagnostics.Append resp.Diagnostics tags.2 }
      let data := { data with Tags := tags.1 }
      let senderDenylist := types.ListValueFrom (normalizeStringSlice retrieved.SenderDenylist)
      let resp := { resp with
        Diagnostics := Diagnostics.Append resp.Diagnostics senderDenylist.2 }
      let data := { data with SenderDenylist := senderDenylist.1 }
      let recipientDenylist :=
        types.ListValueFrom (normalizeStringSlice retrieved.RecipientDenylist)
      let resp := { resp with
        Diagnostics := Diagnostics.Append resp.Diagnostics recipientDenylist.2 }
      let data := { data with RecipientDenylist := recipientDenylist.1 }
      let catchallDestinations :=
        types.ListValueFrom (normalizeStringSlice retrieved.CatchallDestinations)
      let resp := { resp with
        Diagnostics := Diagnostics.Append resp.Diagnostics catchallDestinations.2 }
      let data := { data with CatchallDestinations := catchallDestinations.1 }
      let r := resp.State.Set data.toObject
      ({ State := r.1, Diagnostics := Diagnostics.Append resp.Diagnostics r.2 },
        [ApiCall.GetDomain name])

/-! ## Alias resource -/

/-- Embeds `AliasResourceModel`. -/
structure AliasResourceModel where
  DomainName : basetypes.StringValue
  LocalPart : basetypes.StringValue
  Destinations : basetypes.ListValue
  Address : basetypes.StringValue
  IsInternal : basetypes.BoolValue
  deriving DecidableEq, Repr

/-- The raw object of an `AliasResourceModel`, by its `tfsdk` tags. -/
def AliasResourceModel.toObject (m : AliasResourceModel) : List (String × Value) :=
  [("domain_name", m.DomainName.toValue), ("local_part", m.LocalPart.toValue),
   ("destinations", m.Destinations.toValue), ("address", m.Address.toValue),
   ("is_internal", m.IsInternal.toValue)]

/-- Embeds `AliasResource.Create`, returning the response and the API calls made. -/
def AliasResource.Create (client : migadu.Client) (req : CreateRequest AliasResourceModel)
    (resp : CreateResponse) : CreateResponse × List ApiCall :=
  let data := req.Plan.data
  let resp := { resp with Diagnostics := Diagnostics.Append resp.Diagnostics req.Plan.diags }
  if resp.Diagnostics.HasError then (resp, [])
  else
    let destinations := data.Destinations.ElementsAs
    let resp := { resp with Diagnostics := Diagnostics.Append resp.Diagnostics destinations.2 }
    if resp.Diagnostics.HasError then (resp, [])
    else
      let body : migadu.Alias :=
        { LocalPart := data.LocalPart.ValueString, Destinations := destinations.1,
          Address := "", IsInternal := false }
      let domain := data.DomainName.ValueString
      match client.NewAlias domain body with
      | Except.error err =>
        ({ resp with
            Diagnostics := Diagnostics.AddError resp.Diagnostics "Client Error"
              ("Unable to create alias, got error: " ++ err) },
          [ApiCall.NewAlias domain body])
      | Except.ok created =>
        let data := { data with
          Address := types.StringValue created.Address
          IsInternal := types.BoolValue created.IsInternal }
        let r := resp.State.Set data.toObject
        ({ State := r.1, Diagnostics := Diagnostics.Append resp.Diagnostics r.2 },
          [ApiCall.NewAlias domain body])

/-- Embeds `AliasResource.Read`, returning the response and the API calls made. -/
def AliasResource.Read (client : migadu.Client) (req : ReadRequest AliasResourceModel)
    (resp : ReadResponse) : ReadResponse × List ApiCall :=
  let data := req.State.data
  let resp := { resp with Diagnostics := Diagnostics.Append resp.Diagnostics req.State.diags }
  if resp.Diagnostics.HasError then (resp, [])
  else
    let domain := data.DomainName.ValueString
    let localPart := data.LocalPart.ValueString
    match client.GetAlias domain localPart with
    | Except.error err =>
      ({ resp with
          Diagnostics := Diagnostics.AddError resp.Diagnostics "Client Error"
            ("Unable to read alias, got error: " ++ err) },
        [ApiCall.GetAlias domain localPart])
    | Except.ok found =>
      let destinations := types.ListValueFrom found.Destinations
      let resp := { resp with Diagnostics := Diagnostics.Append resp.Diagnostics destinations.2 }
      if resp.Diagnostics.HasError then (resp, [ApiCall.GetAlias domain localPart])
      else
        let data := { data with
          Destinations := destinations.1
          Address := types.StringValue found.Address
          IsInternal := types.BoolValue found.IsInternal }
        let r := resp.State.Set data.toObject
        ({ State := r.1, Diagnostics := Diagnostics.Append resp.Diagnostics r.2 },
          [ApiCall.GetAlias domain localPart])

/-- Embeds `AliasResource.Update`, returning the response and the API calls made. -/
def AliasResource.Update (client : migadu.Client) (req : UpdateRequest AliasResourceModel)
    (resp : UpdateResponse) : UpdateResponse × List ApiCall :=
  let data := req.Plan.data
  let resp := { resp with Diagnostics := Diagnostics.Append resp.Diagnostics req.Plan.diags }
  if resp.Diagnostics.HasError then (resp, [])
  else
    let destinations := data.Destinations.ElementsAs
    let resp := { resp with Diagnostics := Diagnostics.Append resp.Diagnostics destinations.2 }
    if resp.Diagnostics.HasError then (resp, [])
    else
      let body : migadu.Alias :=
        { LocalPart := data.LocalPart.ValueString, Destinations := destinations.1,
          Address := "", IsInternal := false }
      let domain := data.DomainName.ValueString
      match client.UpdateAlias domain body with
      | Except.error err =>
        ({ resp with
            Diagnostics := Diagnostics.AddError resp.Diagnostics "Client Error"
              ("Unable to update alias, got error: " ++ err) },
          [ApiCall.UpdateAlias domain body])
      | Except.ok updated =>
        let data := { data with
          Address := types.StringValue updated.Address
          IsInternal := types.BoolValue updated.IsInternal }
        let r := resp.State.Set data.toObject
        ({ State := r.1, Diagnostics := Diagnostics.Append resp.Diagnostics r.2 },
          [ApiCall.UpdateAlias domain body])

/-- Embeds `AliasResource.Delete`, returning the response and the API calls made. -/
def AliasResource.Delete (client : migadu.Client) (req : DeleteRequest AliasResourceModel)
    (resp : DeleteResponse) : DeleteResponse × List ApiCall :=
  let data := req.State.data
  let resp := { resp with Diagnostics := Diagnostics.Append resp.Diagnostics req.State.diags }
  if resp.Diagnostics.HasError then (resp, [])
  else
    let domain := data.DomainName.ValueString
    let localPart := data.LocalPart.ValueString
    match client.DeleteAlias domain localPart with
    | Except.error err =>
      ({ resp with
          Diagnostics := Diagnostics.AddError resp.Diagnostics "Client Error"
            ("Unable to delete alias, got error: " ++ err) },
        [ApiCall.DeleteAlias domain localPart])
    | Except.ok _ => (resp, [ApiCall.DeleteAlias domain localPart])

/-! ## Rewrite resource: read -/

/-- Embeds `RewriteResourceModel`. -/
structure RewriteResourceModel where
  DomainName : basetypes.StringValue
  Name : basetypes.StringValue
  LocalPartRule : basetypes.StringValue
  OrderNum : basetypes.Int64Value
  Destinations : basetypes.ListValue
  deriving DecidableEq, Repr

/-- The raw object of a `RewriteResourceModel`, by its `tfsdk` tags. -/
def RewriteResourceModel.toObject (m : RewriteResourceModel) : List (String × Value) :=
  [("domain_name", m.DomainName.toValue), ("name", m.Name.toValue),
   ("local_part_rule", m.LocalPartRule.toValue), ("order_num", m.OrderNum.toValue),
   ("destinations", m.Destinations.toValue)]

/-- Embeds `RewriteResource.Read`, returning the response and the API calls made. -/
def RewriteResource.Read (client : migadu.Client) (req : ReadRequest RewriteResourceModel)
    (resp : ReadResponse) : ReadResponse × List ApiCall :=
  let data := req.State.data
  let resp := { resp with Diagnostics := Diagnostics.Append resp.Diagnostics req.State.diags }
  if resp.Diagnostics.HasError then (resp, [])
  else
    let domain := data.DomainName.ValueString
    let name := data.Name.ValueString
    match client.GetRewrite domain name with
    | Except.error err =>
      ({ resp with
          Diagnostics := Diagnostics.AddError resp.Diagnostics "Client Error"
            ("Unable to read rewrite, got error: " ++ err) },
        [ApiCall.GetRewrite domain name])
    | Except.ok rewrite =>
      let data := { data with
        LocalPartRule := types.StringValue rewrite.LocalPartRule
        OrderNum := types.Int64Value rewrite.OrderNum }
      let destinations := types.ListValueFrom rewrite.Destinations
      let resp := { resp with Diagnostics := Diagnostics.Append resp.Diagnostics destinations.2 }
      let data := { data with Destinations := destinations.1 }
      let r := resp.State.Set data.toObject
      ({ State := r.1, Diagnostics := Diagnostics.Append resp.Diagnostics r.2 },
        [ApiCall.GetRewrite domain name])

/-! ## Metadata: type names -/

/-- Embeds `resource.MetadataRequest` and `datasource.MetadataRequest`. -/
structure MetadataRequest where
  ProviderTypeName : String
  deriving DecidableEq, Repr

/-- Embeds `resource.MetadataResponse` and `datasource.MetadataResponse`. -/
structure MetadataResponse where
  TypeName : String
  deriving DecidableEq, Repr

/-- Embeds `DomainResource.Metadata`. -/
def DomainResource.Metadata (req : MetadataRequest) (resp : MetadataResponse) : MetadataResponse :=
  { resp with TypeName := req.ProviderTypeName ++ "_domain" }

/-- Embeds `DomainActivationResource.Metadata`. -/
def DomainActivationResource.Metadata (req : MetadataRequest) (resp : MetadataResponse) : MetadataResponse :=
  { resp with TypeName := req.ProviderTypeName ++ "_domain_activation" }

/-- Embeds `MailboxResource.Metadata`. -/
def MailboxResource.Metadata (req : MetadataRequest) (resp : MetadataResponse) : MetadataResponse :=
  { resp with TypeName := req.ProviderTypeName ++ "_mailbox" }

/-- Embeds `AliasResource.Metadata`. -/
def AliasResource.Metadata (req : MetadataRequest) (resp : MetadataResponse) : MetadataResponse :=
  { resp with TypeName := req.ProviderTypeName ++ "_alias" }

/-- Embeds `IdentityResource.Metadata`. -/
def IdentityResource.Metadata (req : MetadataRequest) (resp : MetadataResponse) : MetadataResponse :=
  { resp with TypeName := req.ProviderTypeName ++ "_identity" }

/-- Embeds `RewriteResource.Metadata`. -/
def RewriteResource.Metadata (req : MetadataRequest) (resp : MetadataResponse) : MetadataResponse :=
  { resp with TypeName := req.ProviderTypeName ++ "_rewrite" }

/-- Embeds `DomainDataSource.Metadata`. -/
def DomainDataSource.Metadata (req : MetadataRequest) (resp : MetadataResponse) : MetadataResponse :=
  { resp with TypeName := req.ProviderTypeName ++ "_domain" }

/-- Embeds `DomainsDataSource.Metadata`. -/
def DomainsDataSource.Metadata (req : MetadataRequest) (resp : MetadataResponse) : MetadataResponse :=
  { resp with TypeName := req.ProviderTypeName ++ "_domains" }

/-- Embeds `MailboxDataSource.Metadata`. -/
def MailboxDataSource.Metadata (req : MetadataRequest) (resp : MetadataResponse) : MetadataResponse :=
  { resp with TypeName := req.ProviderTypeName ++ "_mailbox" }

/-- Embeds `MailboxesDataSource.Metadata`. -/
def MailboxesDataSource.Metadata (req : MetadataRequest) (resp : MetadataResponse) : MetadataResponse :=
  { resp with TypeName := req.ProviderTypeName ++ "_mailboxes" }

/-- Embeds `AliasDataSource.Metadata`. -/
def AliasDataSource.Metadata (req : MetadataRequest) (resp : MetadataResponse) : MetadataResponse :=
  { resp with TypeName := req.ProviderTypeName ++ "_alias" }

/-- Embeds `AliasesDataSource.Metadata`. -/
def AliasesDataSource.Metadata (req : MetadataRequest) (resp : MetadataResponse) : MetadataResponse :=
  { resp with TypeName := req.ProviderTypeName ++ "_aliases" }

/-- Embeds `IdentityDataSource.Metadata`. -/
def IdentityDataSource.Metadata (req : MetadataRequest) (resp : MetadataResponse) : MetadataResponse :=
  { resp with TypeName := req.ProviderTypeName ++ "_identity" }

/-- Embeds `IdentitiesDataSource.Metadata`. -/
def IdentitiesDataSource.Metadata (req : MetadataRequest) (resp : MetadataResponse) : MetadataResponse :=
  { resp with TypeName := req.ProviderTypeName ++ "_identities" }

/-- Embeds `RewriteDataSource.Metadata`. -/
def RewriteDataSource.Metadata (req : MetadataRequest) (resp : MetadataResponse) : MetadataResponse :=
  { resp with TypeName := req.ProviderTypeName ++ "_rewrite" }

/-- Embeds `RewritesDataSource.Metadata`. -/
def RewritesDataSource.Metadata (req : MetadataRequest) (resp : MetadataResponse) : MetadataResponse :=
  { resp with TypeName := req.ProviderTypeName ++ "_rewrites" }

/-- Embeds `ForwardingsDataSource.Metadata`. -/
def ForwardingsDataSource.Metadata (req : MetadataRequest) (resp : MetadataResponse) : MetadataResponse :=
  { resp with TypeName := req.ProviderTypeName ++ "_forwardings" }

/-- Embeds `DomainDiagnosticsDataSource.Metadata`. -/
def DomainDiagnosticsDataSource.Metadata (req : MetadataRequest) (resp : MetadataResponse) : MetadataResponse :=
  { resp with TypeName := req.ProviderTypeName ++ "_domain_diagnostics" }

/-- Embeds `DomainDNSRecordsDataSource.Metadata`. -/
def DomainDNSRecordsDataSource.Metadata (req : MetadataRequest) (resp : MetadataResponse) : MetadataResponse :=
  { resp with TypeName := req.ProviderTypeName ++ "_domain_dns_records" }

/-- The `Metadata` methods of the resources that `MigaduProvider.Resources`
returns, in its order. -/
def MigaduProvider.Resources : List (MetadataRequest → MetadataResponse → MetadataResponse) :=
  [DomainResource.Metadata, DomainActivationResource.Metadata, MailboxResource.Metadata,
   AliasResource.Metadata, IdentityResource.Metadata, RewriteResource.Metadata]

/-- The `Metadata` methods of the data sources that `MigaduProvider.DataSources`
returns, in its order. -/
def MigaduProvider.DataSources : List (MetadataRequest → MetadataResponse → MetadataResponse) :=
  [DomainDataSource.Metadata,
   DomainsDataSource.Metadata,
   MailboxDataSource.Metadata,
   MailboxesDataSource.Metadata,
   AliasDataSource.Metadata,
   AliasesDataSource.Metadata,
   IdentityDataSource.Metadata,
   IdentitiesDataSource.Metadata,
   RewriteDataSource.Metadata,
   RewritesDataSource.Metadata,
   ForwardingsDataSource.Metadata,
   DomainDiagnosticsDataSource.Metadata,
   DomainDNSRecordsDataSource.Metadata]

/-! ## Data source schemas -/

/-- Kind of a data source schema attribute. -/
inductive AttributeKind where
  | String
  | Bool
  | Int64
  | Float64
  | List
  | ListNested
  deriving DecidableEq, Repr

/-- An attribute of the object nested in a `ListNestedAttribute`, with its
three flags (an unset flag is false). -/
structure NestedAttribute where
  Name : String
  Kind : AttributeKind
  Required : Bool
  Optional : Bool
  Computed : Bool
  deriving DecidableEq, Repr

/-- A top-level attribute of a data source schema, with its three flags and,
for a `ListNestedAttribute`, the attributes of its nested object. -/
structure DataSourceAttribute where
  Name : String
  Kind : AttributeKind
  Required : Bool
  Optional : Bool
  Computed : Bool
  NestedAttributes : List NestedAttribute
  deriving DecidableEq, Repr

/-- Attributes of `DomainDataSource.Schema`. -/
def DomainDataSource.Schema : List DataSourceAttribute :=
  [⟨"name", AttributeKind.String, true, false, false, []⟩,
   ⟨"state", AttributeKind.String, false, false, true, []⟩,
   ⟨"description", AttributeKind.String, false, false, true, []⟩,
   ⟨"tags", AttributeKind.List, false, false, true, []⟩,
   ⟨"spam_aggressiveness", AttributeKind.Int64, false, false, true, []⟩,
   ⟨"greylisting_enabled", AttributeKind.Bool, false, false, true, []⟩,
   ⟨"mx_proxy_enabled", AttributeKind.Bool, false, false, true, []⟩,
   ⟨"hosted_dns", AttributeKind.Bool, false, false, true, []⟩,
   ⟨"sender_denylist", AttributeKind.List, false, false, true, []⟩,
   ⟨"recipient_denylist", AttributeKind.List, false, false, true, []⟩,
   ⟨"catchall_destinations", AttributeKind.List, false, false, true, []⟩]

/-- The configuration attributes `DomainDataSource.Read` passes to the API client. -/
def DomainDataSource.lookupKeys : List String :=
  ["name"]

/-- Attributes of `DomainsDataSource.Schema`. -/
def DomainsDataSource.Schema : List DataSourceAttribute :=
  [⟨"domains", AttributeKind.ListNested, false, false, true,
       [⟨"name", AttributeKind.String, false, false, true⟩,
        ⟨"state", AttributeKind.String, false, false, true⟩,
        ⟨"description", AttributeKind.String, false, false, true⟩,
        ⟨"spam_aggressiveness", AttributeKind.Int64, false, false, true⟩,
        ⟨"greylisting_enabled", AttributeKind.Bool, false, false, true⟩,
        ⟨"mx_proxy_enabled", AttributeKind.Bool, false, false, true⟩,
        ⟨"hosted_dns", AttributeKind.Bool, false, false, true⟩]⟩]

/-- The configuration attributes `DomainsDataSource.Read` passes to the API client. -/
def DomainsDataSource.lookupKeys : List String :=
  []

/-- Attributes of `MailboxDataSource.Schema`. -/
def MailboxDataSource.Schema : List DataSourceAttribute :=
  [⟨"domain_name", AttributeKind.String, true, false, false, []⟩,
   ⟨"local_part", AttributeKind.String, true, false, false, []⟩,
   ⟨"name", AttributeKind.String, false, false, true, []⟩,
   ⟨"address", AttributeKind.String, false, false, true, []⟩,
   ⟨"is_internal", AttributeKind.Bool, false, false, true, []⟩,
   ⟨"may_send", AttributeKind.Bool, false, false, true, []⟩,
   ⟨"may_receive", AttributeKind.Bool, false, false, true, []⟩,
   ⟨"may_access_imap", AttributeKind.Bool, false, false, true, []⟩,
   ⟨"may_access_pop3", AttributeKind.Bool, false, false, true, []⟩,
   ⟨"may_access_managesieve", AttributeKind.Bool, false, false, true, []⟩,
   ⟨"storage_usage", AttributeKind.Float64, false, false, true, []⟩,
   ⟨"changed_at", AttributeKind.String, false, false, true, []⟩,
   ⟨"last_login_at", AttributeKind.String, false, false, true, []⟩]

/-- The configuration attributes `MailboxDataSource.Read` passes to the API client. -/
def MailboxDataSource.lookupKeys : List String :=
  ["domain_name", "local_part"]

/-- Attributes of `MailboxesDataSource.Schema`. -/
def MailboxesDataSource.Schema : List DataSourceAttribute :=
  [⟨"domain_name", AttributeKind.String, true, false, false, []⟩,
   ⟨"mailboxes", AttributeKind.ListNested, false, false, true,
       [⟨"local_part", AttributeKind.String, false, false, true⟩,
        ⟨"name", AttributeKind.String, false, false, true⟩,
        ⟨"address", AttributeKind.String, false, false, true⟩,
        ⟨"is_internal", AttributeKind.Bool, false, false, true⟩,
        ⟨"may_send", AttributeKind.Bool, false, false, true⟩,
        ⟨"may_receive", AttributeKind.Bool, false, false, true⟩,
        ⟨"may_access_imap", AttributeKind.Bool, false, false, true⟩,
        ⟨"may_access_pop3", AttributeKind.Bool, false, false, true⟩,
        ⟨"may_access_managesieve", AttributeKind.Bool, false, false, true⟩,
        ⟨"storage_usage", AttributeKind.Float64, false, false, true⟩,
        ⟨"changed_at", AttributeKind.String, false, false, true⟩,
        ⟨"last_login_at", AttributeKind.String, false, false, true⟩]⟩]

/-- The configuration attributes `MailboxesDataSource.Read` passes to the API client. -/
def MailboxesDataSource.lookupKeys : List String :=
  ["domain_name"]

/-- Attributes of `AliasDataSource.Schema`. -/
def AliasDataSource.Schema : List DataSourceAttribute :=
  [⟨"domain_name", AttributeKind.String, true, false, false, []⟩,
   ⟨"local_part", AttributeKind.String, true, false, false, []⟩,
   ⟨"address", AttributeKind.String, false, false, true, []⟩,
   ⟨"destinations", AttributeKind.List, false, false, true, []⟩,
   ⟨"is_internal", AttributeKind.Bool, false, false, true, []⟩]

/-- The configuration attributes `AliasDataSource.Read` passes to the API client. -/
def AliasDataSource.lookupKeys : List String :=
  ["domain_name", "local_part"]

/-- Attributes of `AliasesDataSource.Schema`. -/
def AliasesDataSource.Schema : List DataSourceAttribute :=
  [⟨"domain_name", AttributeKind.String, true, false, false, []⟩,
   ⟨"aliases", AttributeKind.ListNested, false, false, true,
       [⟨"local_part", AttributeKind.String, false, false, true⟩,
        ⟨"address", AttributeKind.String, false, false, true⟩,
        ⟨"destinations", AttributeKind.List, false, false, true⟩,
        ⟨"is_internal", AttributeKind.Bool, false, false, true⟩]⟩]

/-- The configuration attributes `AliasesDataSource.Read` passes to the API client. -/
def AliasesDataSource.lookupKeys : List String :=
  ["domain_name"]

/-- Attributes of `IdentityDataSource.Schema`. -/
def IdentityDataSource.Schema : List DataSourceAttribute :=
  [⟨"domain_name", AttributeKind.String, true, false, false, []⟩,
   ⟨"mailbox", AttributeKind.String, true, false, false, []⟩,
   ⟨"local_part", AttributeKind.String, true, false, false, []⟩,
   ⟨"name", AttributeKind.String, false, false, true, []⟩,
   ⟨"address", AttributeKind.String, false, false, true, []⟩,
   ⟨"may_send", AttributeKind.Bool, false, false, true, []⟩,
   ⟨"may_receive", AttributeKind.Bool, false, false, true, []⟩,
   ⟨"may_access_imap", AttributeKind.Bool, false, false, true, []⟩,
   ⟨"may_access_pop3", AttributeKind.Bool, false, false, true, []⟩,
   ⟨"may_access_managesieve", AttributeKind.Bool, false, false, true, []⟩,
   ⟨"footer_active", AttributeKind.Bool, false, false, true, []⟩,
   ⟨"footer_plain_body", AttributeKind.String, false, false, true, []⟩,
   ⟨"footer_html_body", AttributeKind.String, false, false, true, []⟩]

/-- The configuration attributes `IdentityDataSource.Read` passes to the API client. -/
def IdentityDataSource.lookupKeys : List String :=
  ["domain_name", "mailbox", "local_part"]

/-- Attributes of `IdentitiesDataSource.Schema`. -/
def IdentitiesDataSource.Schema : List DataSourceAttribute :=
  [⟨"domain_name", AttributeKind.String, true, false, false, []⟩,
   ⟨"mailbox", AttributeKind.String, true, false, false, []⟩,
   ⟨"identities", AttributeKind.ListNested, false, false, true,
       [⟨"local_part", AttributeKind.String, false, false, true⟩,
        ⟨"name", AttributeKind.String, false, false, true⟩,
        ⟨"address", AttributeKind.String, false, false, true⟩,
        ⟨"may_send", AttributeKind.Bool, false, false, true⟩,
        ⟨"may_receive", AttributeKind.Bool, false, false, true⟩,
        ⟨"may_access_imap", AttributeKind.Bool, false, false, true⟩,
        ⟨"may_access_pop3", AttributeKind.Bool, false, false, true⟩,
        ⟨"may_access_managesieve", AttributeKind.Bool, false, false, true⟩]⟩]

/-- The configuration attributes `IdentitiesDataSource.Read` passes to the API client. -/
def IdentitiesDataSource.lookupKeys : List String :=
  ["domain_name", "mailbox"]

/-- Attributes of `RewriteDataSource.Schema`. -/
def RewriteDataSource.Schema : List DataSourceAttribute :=
  [⟨"domain_name", AttributeKind.String, true, false, false, []⟩,
   ⟨"name", AttributeKind.String, true, false, false, []⟩,
   ⟨"local_part_rule", AttributeKind.String, false, false, true, []⟩,
   ⟨"order_num", AttributeKind.Int64, false, false, true, []⟩,
   ⟨"destinations", AttributeKind.List, false, false, true, []⟩]

/-- The configuration attributes `RewriteDataSource.Read` passes to the API client. -/
def RewriteDataSource.lookupKeys : List String :=
  ["domain_name", "name"]

/-- Attributes of `RewritesDataSource.Schema`. -/
def RewritesDataSource.Schema : List DataSourceAttribute :=
  [⟨"domain_name", AttributeKind.String, true, false, false, []⟩,
   ⟨"rewrites", AttributeKind.ListNested, false, false, true,
       [⟨"name", AttributeKind.String, false, false, true⟩,
        ⟨"local_part_rule", AttributeKind.String, false, false, true⟩,
        ⟨"order_num", AttributeKind.Int64, false, false, true⟩,
        ⟨"destinations", AttributeKind.List, false, false, true⟩]⟩]

/-- The configuration attributes `RewritesDataSource.Read` passes to the API client. -/
def RewritesDataSource.lookupKeys : List String :=
  ["domain_name"]

/-- Attributes of `ForwardingsDataSource.Schema`. -/
def ForwardingsDataSource.Schema : List DataSourceAttribute :=
  [⟨"domain_name", AttributeKind.String, true, false, false, []⟩,
   ⟨"mailbox", AttributeKind.String, true, false, false, []⟩,
   ⟨"forwardings", AttributeKind.ListNested, false, false, true,
       [⟨"address", AttributeKind.String, false, false, true⟩,
        ⟨"blocked_at", AttributeKind.String, false, false, true⟩,
        ⟨"confirmation_sent_at", AttributeKind.String, false, false, true⟩,
        ⟨"confirmed_at", AttributeKind.String, false, false, true⟩,
        ⟨"expires_on", AttributeKind.String, false, false, true⟩,
        ⟨"is_active", AttributeKind.Bool, false, false, true⟩,
        ⟨"remove_upon_expiry", AttributeKind.Bool, false, false, true⟩]⟩]

/-- The configuration attributes `ForwardingsDataSource.Read` passes to the API client. -/
def ForwardingsDataSource.lookupKeys : List String :=
  ["domain_name", "mailbox"]

/-- Attributes of `DomainDiagnosticsDataSource.Schema`. -/
def DomainDiagnosticsDataSource.Schema : List DataSourceAttribute :=
  [⟨"domain_name", AttributeKind.String, true, false, false, []⟩,
   ⟨"mx", AttributeKind.List, false, false, true, []⟩,
   ⟨"spf", AttributeKind.List, false, false, true, []⟩,
   ⟨"dkim", AttributeKind.List, false, false, true, []⟩,
   ⟨"dmarc", AttributeKind.List, false, false, true, []⟩]

/-- The configuration attributes `DomainDiagnosticsDataSource.Read` passes to the API client. -/
def DomainDiagnosticsDataSource.lookupKeys : List String :=
  ["domain_name"]

/-- Attributes of `DomainDNSRecordsDataSource.Schema`. -/
def DomainDNSRecordsDataSource.Schema : List DataSourceAttribute :=
  [⟨"domain_name", AttributeKind.String, true, false, false, []⟩,
   ⟨"records", AttributeKind.ListNested, false, false, true,
       [⟨"type", AttributeKind.String, false, false, true⟩,
        ⟨"name", AttributeKind.String, false, false, true⟩,
        ⟨"value", AttributeKind.String, false, false, true⟩,
        ⟨"priority", AttributeKind.Int64, false, false, true⟩,
        ⟨"ttl", AttributeKind.Int64, false, false, true⟩]⟩]

/-- The configuration attributes `DomainDNSRecordsDataSource.Read` passes to the API client. -/
def DomainDNSRecordsDataSource.lookupKeys : List String :=
  ["domain_name"]

/-- The thirteen data sources of `MigaduProvider.DataSources`, in its order:
type name suffix, lookup keys and schema. -/
def dataSourceSchemas : List (String × List String × List DataSourceAttribute) :=
  [("_domain", DomainDataSource.lookupKeys, DomainDataSource.Schema),
   ("_domains", DomainsDataSource.lookupKeys, DomainsDataSource.Schema),
   ("_mailbox", MailboxDataSource.lookupKeys, MailboxDataSource.Schema),
   ("_mailboxes", MailboxesDataSource.lookupKeys, MailboxesDataSource.Schema),
   ("_alias", AliasDataSource.lookupKeys, AliasDataSource.Schema),
   ("_aliases", AliasesDataSource.lookupKeys, AliasesDataSource.Schema),
   ("_identity", IdentityDataSource.lookupKeys, IdentityDataSource.Schema),
   ("_identities", IdentitiesDataSource.lookupKeys, IdentitiesDataSource.Schema),
   ("_rewrite", RewriteDataSource.lookupKeys, RewriteDataSource.Schema),
   ("_rewrites", RewritesDataSource.lookupKeys, RewritesDataSource.Schema),
   ("_forwardings", ForwardingsDataSource.lookupKeys, ForwardingsDataSource.Schema),
   ("_domain_diagnostics", DomainDiagnosticsDataSource.lookupKeys, DomainDiagnosticsDataSource.Schema),
   ("_domain_dns_records", DomainDNSRecordsDataSource.lookupKeys, DomainDNSRecordsDataSource.Schema)]

/-- The four attribute names that serve as lookup keys. -/
def lookupKeyNames : List String := ["domain_name", "local_part", "mailbox", "name"]

/-! ## Sample inputs -/

/-- A client whose diagnostics report two MX issues and one DKIM issue, and
whose other calls fail. -/
def sampleClientWithIssues : migadu.Client :=
  { GetDomainDiagnostics := fun _ =>
      Except.ok { MX := ["a", "b"], SPF := [], DKIM := ["c"], DMARC := [] }
    ActivateDomain := fun _ => Except.error "unreachable"
    NewMailbox := fun _ _ => Except.error "unreachable"
    UpdateMailbox := fun _ _ => Except.error "unreachable"
    GetDomain := fun _ => Except.error "unreachable"
    NewAlias := fun _ _ => Except.error "unreachable"
    GetAlias := fun _ _ => Except.error "unreachable"
    UpdateAlias := fun _ _ => Except.error "unreachable"
    DeleteAlias := fun _ _ => Except.error "unreachable"
    GetRewrite := fun _ _ => Except.error "unreachable" }

/-- A plan that activates "example.com". -/
def sampleActivationRequest : CreateRequest DomainActivationResourceModel :=
  { Plan :=
      { data := { DomainName := basetypes.StringValue.Known "example.com",
                  State := basetypes.StringValue.Unknown },
        diags := [] } }

/-- The response handed to `Create` of the domain activation resource. -/
def sampleActivationResponse : CreateResponse :=
  { State := newStateForSchema DomainActivationResource.Schema, Diagnostics := [] }

/-- A mailbox plan with the schema defaults, a recovery email and the given
spam aggressiveness. -/
def sampleMailboxModel (spam : String) : MailboxResourceModel :=
  { DomainName := basetypes.StringValue.Known "example.com"
    LocalPart := basetypes.StringValue.Known "admin"
    Name := basetypes.StringValue.Known ""
    PasswordMethod := basetypes.StringValue.Unknown
    Password := basetypes.StringValue.Null
    PasswordRecoveryEmail := basetypes.StringValue.Known "owner@example.org"
    MaySend := basetypes.BoolValue.Known true
    MayReceive := basetypes.BoolValue.Known true
    MayAccessImap := basetypes.BoolValue.Known true
    MayAccessPop3 := basetypes.BoolValue.Known true
    MayAccessManageSieve := basetypes.BoolValue.Known true
    SpamAction := basetypes.StringValue.Known "folder"
    SpamAggressiveness := basetypes.StringValue.Known spam
    FooterActive := basetypes.BoolValue.Known false
    FooterPlainBody := basetypes.StringValue.Known ""
    FooterHTMLBody := basetypes.StringValue.Known ""
    Address := basetypes.StringValue.Unknown
    IsInternal := basetypes.BoolValue.Unknown
    StorageUsage := basetypes.Int64Value.Unknown
    ChangedAt := basetypes.StringValue.Unknown
    LastLoginAt := basetypes.StringValue.Unknown }

/-- The response handed to `Create` of the mailbox resource. -/
def sampleMailboxResponse : CreateResponse :=
  { State := newStateForSchema MailboxResource.Schema, Diagnostics := [] }

/-- The prior state of the repository's domain delete test: "example.com" with
every other attribute null. -/
def sampleDomainModel : DomainResourceModel :=
  { Name := basetypes.StringValue.Known "example.com"
    State := basetypes.StringValue.Null
    Description := basetypes.StringValue.Null
    Tags := basetypes.ListValue.Null
    SpamAggressiveness := basetypes.Int64Value.Null
    GreylistingEnabled := basetypes.BoolValue.Null
    MXProxyEnabled := basetypes.BoolValue.Null
    HostedDNS := basetypes.BoolValue.Null
    SenderDenylist := basetypes.ListValue.Null
    RecipientDenylist := basetypes.ListValue.Null
    CatchallDestinations := basetypes.ListValue.Null }

/-- A client that accepts every mailbox: `NewMailbox` and `UpdateMailbox`
return the mailbox they were sent with its address filled in. -/
def sampleClientAccepting : migadu.Client :=
  { GetDomainDiagnostics := fun _ => Except.ok { MX := [], SPF := [], DKIM := [], DMARC := [] }
    ActivateDomain := fun name => Except.ok { Name := name, State := "active" }
    NewMailbox := fun domain mailbox =>
      Except.ok { mailbox with Address := mailbox.LocalPart ++ "@" ++ domain }
    UpdateMailbox := fun domain mailbox =>
      Except.ok { mailbox with Address := mailbox.LocalPart ++ "@" ++ domain }
    GetDomain := fun name => Except.ok { Name := name, State := "active" }
    NewAlias := fun domain body =>
      Except.ok { body with Address := body.LocalPart ++ "@" ++ domain }
    GetAlias := fun domain localPart =>
      Except.ok { LocalPart := localPart, Destinations := none,
                  Address := localPart ++ "@" ++ domain, IsInternal := false }
    UpdateAlias := fun domain body =>
      Except.ok { body with Address := body.LocalPart ++ "@" ++ domain }
    DeleteAlias := fun _ _ => Except.ok ()
    GetRewrite := fun _ name =>
      Except.ok { Name := name, LocalPartRule := "*", OrderNum := 0, Destinations := none } }

/-- The plan of the repository's password validation test: method "password",
no password, spam aggressiveness "moderate". -/
def samplePasswordPlanModel : MailboxResourceModel :=
  { DomainName := basetypes.StringValue.Known "example.com"
    LocalPart := basetypes.StringValue.Known "admin"
    Name := basetypes.StringValue.Known "Admin"
    PasswordMethod := basetypes.StringValue.Known "password"
    Password := basetypes.StringValue.Null
    PasswordRecoveryEmail := basetypes.StringValue.Null
    MaySend := basetypes.BoolValue.Known true
    MayReceive := basetypes.BoolValue.Known true
    MayAccessImap := basetypes.BoolValue.Known true
    MayAccessPop3 := basetypes.BoolValue.Known true
    MayAccessManageSieve := basetypes.BoolValue.Known true
    SpamAction := basetypes.StringValue.Known "folder"
    SpamAggressiveness := basetypes.StringValue.Known "moderate"
    FooterActive := basetypes.BoolValue.Known false
    FooterPlainBody := basetypes.StringValue.Null
    FooterHTMLBody := basetypes.StringValue.Null
    Address := basetypes.StringValue.Null
    IsInternal := basetypes.BoolValue.Null
    StorageUsage := basetypes.Int64Value.Null
    ChangedAt := basetypes.StringValue.Null
    LastLoginAt := basetypes.StringValue.Null }

/-- The response handed to `Update` of the mailbox resource in the tests. -/
def sampleMailboxUpdateResponse : UpdateResponse :=
  { State := newStateForSchema MailboxResource.Schema, Diagnostics := [] }

/-- A create plan with no password method (so "invitation"), an empty recovery
email and no password. -/
def sampleInvitationNoRecovery : MailboxResourceModel :=
  { sampleMailboxModel "default" with
    PasswordRecoveryEmail := basetypes.StringValue.Known "" }

/-- A create plan with method "invitation" and a password set. -/
def sampleInvitationWithPassword : MailboxResourceModel :=
  { sampleMailboxModel "default" with
    PasswordMethod := basetypes.StringValue.Known "invitation"
    Password := basetypes.StringValue.Known "secret" }

/-- The environment of the provider test "env fallback". -/
def sampleGetenv (name : String) : String :=
  if name = "MIGADU_USERNAME" then "admin@example.com"
  else if name = "MIGADU_API_KEY" then "env-api-key"
  else ""

/-- An environment in which no variable is set. -/
def emptyGetenv (_name : String) : String := ""

/-- A `migadu.New` that always succeeds. -/
def sampleNew (_username _apiKey : String) : Except String migadu.Client :=
  Except.ok sampleClientAccepting

/-- The response handed to `MigaduProvider.Configure`: nothing set. -/
def sampleConfigureResponse : ConfigureResponse :=
  { Diagnostics := [], DataSourceData := none, ResourceData := none }

/-- A provider configuration that decodes cleanly to the given values. -/
def sampleConfigureRequest (username apiKey : basetypes.StringValue) : ConfigureRequest :=
  { Config := { data := { Username := username, APIKey := apiKey }, diags := [] } }

/-- A prior alias state for "info" at "example.com" with one destination. -/
def sampleAliasModel : AliasResourceModel :=
  { DomainName := basetypes.StringValue.Known "example.com"
    LocalPart := basetypes.StringValue.Known "info"
    Destinations := basetypes.ListValue.Known ["admin@example.com"]
    Address := basetypes.StringValue.Known "info@example.com"
    IsInternal := basetypes.BoolValue.Known false }

/-- A prior rewrite state for the rule "catch" at "example.com". -/
def sampleRewriteModel : RewriteResourceModel :=
  { DomainName := basetypes.StringValue.Known "example.com"
    Name := basetypes.StringValue.Known "catch"
    LocalPartRule := basetypes.StringValue.Known "*"
    OrderNum := basetypes.Int64Value.Known 0
    Destinations := basetypes.ListValue.Known ["admin@example.com"] }

/-- A client whose every call fails with the message "boom". -/
def sampleClientFailing : migadu.Client :=
  { GetDomainDiagnostics := fun _ => Except.error "boom"
    ActivateDomain := fun _ => Except.error "boom"
    NewMailbox := fun _ _ => Except.error "boom"
    UpdateMailbox := fun _ _ => Except.error "boom"
    GetDomain := fun _ => Except.error "boom"
    NewAlias := fun _ _ => Except.error "boom"
    GetAlias := fun _ _ => Except.error "boom"
    UpdateAlias := fun _ _ => Except.error "boom"
    DeleteAlias := fun _ _ => Except.error "boom"
    GetRewrite := fun _ _ => Except.error "boom" }

/-- A create plan whose `spam_aggressiveness` is null. -/
def sampleNullSpamModel : MailboxResourceModel :=
  { sampleMailboxModel "default" with SpamAggressiveness := basetypes.StringValue.Null }

/-! ## Facts about splitting -/

theorem splitChars_ne_nil (sep : Char) (l : List Char) : splitChars sep l ≠ [] := by
  induction l with
  | nil => simp [splitChars]
  | cons c cs ih =>
    unfold splitChars
    split
    · simp
    · split <;> simp

theorem splitChars_length (sep : Char) (l : List Char) :
    (splitChars sep l).length = l.count sep + 1 := by
  induction l with
  | nil => simp [splitChars]
  | cons c cs ih =>
    unfold splitChars
    by_cases h : c = sep
    · subst h
      simp [ih]
    · have hc : (c == sep) = false := by simpa using h
      rw [if_neg h, List.count_cons, hc]
      cases hs : splitChars sep cs with
      | nil => exact absurd hs (splitChars_ne_nil sep cs)
      | cons seg rest =>
        rw [hs] at ih
        simpa using ih

theorem splitChars_of_not_mem (sep : Char) (l : List Char) (h : sep ∉ l) :
    splitChars sep l = [l] := by
  induction l with
  | nil => simp [splitChars]
  | cons c cs ih =>
    have hc : c ≠ sep := fun e => h (by simp [e])
    have hcs : sep ∉ cs := fun e => h (by simp [e])
    unfold splitChars
    rw [if_neg hc, ih hcs]

theorem splitChars_append_sep (sep : Char) (a b : List Char) (h : sep ∉ a) :
    splitChars sep (a ++ sep :: b) = a :: splitChars sep b := by
  induction a with
  | nil => simp [splitChars]
  | cons c cs ih =>
    have hc : c ≠ sep := fun e => h (by simp [e])
    have hcs : sep ∉ cs := fun e => h (by simp [e])
    have e : splitChars sep (c :: (cs ++ sep :: b)) =
        (match splitChars sep (cs ++ sep :: b) with
          | [] => [[c]]
          | seg :: rest => (c :: seg) :: rest) := by
      simp only [splitChars, if_neg hc]
    rw [List.cons_append, e, ih hcs]

theorem strings_Split_length (s : String) (sep : Char) :
    (strings_Split s sep).length = s.data.count sep + 1 := by
  simp [strings_Split, splitChars_length]

theorem strings_Split_of_not_mem (s : String) (sep : Char) (h : sep ∉ s.data) :
    strings_Split s sep = [s] := by
  simp [strings_Split, splitChars_of_not_mem sep s.data h]

theorem strings_Split_two (d l : String) (hd : '/' ∉ d.data) (hl : '/' ∉ l.data) :
    strings_Split (d ++ "/" ++ l) '/' = [d, l] := by
  have e : (d ++ "/" ++ l).data = d.data ++ '/' :: l.data := by
    simp [String.data_append]
  simp [strings_Split, e, splitChars_append_sep '/' _ _ hd, splitChars_of_not_mem '/' _ hl]

theorem strings_Split_three (d m l : String) (hd : '/' ∉ d.data) (hm : '/' ∉ m.data)
    (hl : '/' ∉ l.data) :
    strings_Split (d ++ "/" ++ m ++ "/" ++ l) '/' = [d, m, l] := by
  have e : (d ++ "/" ++ m ++ "/" ++ l).data = d.data ++ '/' :: (m.data ++ '/' :: l.data) := by
    simp [String.data_append]
  simp [strings_Split, e, splitChars_append_sep '/' _ _ hd, splitChars_append_sep '/' _ _ hm,
    splitChars_of_not_mem '/' _ hl]

/-! ## Facts about diagnostics and state writes -/

theorem Diagnostics.Append_nil (diags : Diagnostics) : Diagnostics.Append diags [] = diags := rfl

theorem Diagnostics.AddError_nil (summary detail : String) :
    Diagnostics.AddError [] summary detail = [⟨Severity.Error, summary, detail⟩] := by
  simp [Diagnostics.AddError, Diagnostics.Append]

theorem SetAttribute_string (resp : ImportStateResponse) (name val : String)
    (h : resp.State.Schema.lookup name = some AttrType.String) :
    resp.SetAttribute name val =
      { State := { Schema := resp.State.Schema,
                   Raw := some (upsert name (Value.String val) (resp.State.Raw.getD [])) },
        Diagnostics := resp.Diagnostics } := by
  simp [ImportStateResponse.SetAttribute, State.SetAttribute, h, Diagnostics.Append]

theorem import_two_attributes (schema : Schema) (k1 k2 a b : String)
    (h1 : schema.lookup k1 = some AttrType.String) (h2 : schema.lookup k2 = some AttrType.String)
    (hne : k1 ≠ k2) :
    ((newImportStateResponse schema).SetAttribute k1 a).SetAttribute k2 b =
      { State := { Schema := schema,
                   Raw := some [(k1, Value.String a), (k2, Value.String b)] },
        Diagnostics := [] } := by
  rw [SetAttribute_string (newImportStateResponse schema) k1 a h1]
  rw [SetAttribute_string _ k2 b h2]
  simp [newImportStateResponse, newStateForSchema, upsert, hne]

theorem import_three_attributes (schema : Schema) (k1 k2 k3 a b c : String)
    (h1 : schema.lookup k1 = some AttrType.String) (h2 : schema.lookup k2 = some AttrType.String)
    (h3 : schema.lookup k3 = some AttrType.String)
    (h12 : k1 ≠ k2) (h13 : k1 ≠ k3) (h23 : k2 ≠ k3) :
    (((newImportStateResponse schema).SetAttribute k1 a).SetAttribute k2 b).SetAttribute k3 c =
      { State := { Schema := schema,
                   Raw := some [(k1, Value.String a), (k2, Value.String b), (k3, Value.String c)] },
        Diagnostics := [] } := by
  rw [SetAttribute_string (newImportStateResponse schema) k1 a h1]
  rw [SetAttribute_string _ k2 b h2]
  rw [SetAttribute_string _ k3 c h3]
  simp [newImportStateResponse, newStateForSchema, upsert, h12, h13, h23]

/-! ## Import identifiers of the mailbox, alias, identity and rewrite resources -/

/-- C1: on the response the framework supplies (null state, no diagnostics),
`MailboxResource.ImportState` and `AliasResource.ImportState` succeed exactly
when splitting the ID on "/" yields exactly 2 segments; then they add
no diagnostic and store the first segment in `domain_name` and the second in
`local_part`; otherwise the only diagnostic is the error "Invalid Import ID"
with the fixed detail, and the state is left as it was. -/
theorem C1_mailbox_alias_import_two_segments (s : String) :
    (((MailboxResource.ImportState ⟨s⟩
          (newImportStateResponse MailboxResource.Schema)).Diagnostics.HasError = false ↔
        (strings_Split s '/').length = 2) ∧
      ((strings_Split s '/').length = 2 →
        (MailboxResource.ImportState ⟨s⟩
            (newImportStateResponse MailboxResource.Schema)).Diagnostics = [] ∧
        getStateStringAttribute (MailboxResource.ImportState ⟨s⟩
            (newImportStateResponse MailboxResource.Schema)).State "domain_name" =
          (strings_Split s '/')[0]? ∧
        getStateStringAttribute (MailboxResource.ImportState ⟨s⟩
            (newImportStateResponse MailboxResource.Schema)).State "local_part" =
          (strings_Split s '/')[1]?) ∧
      ((strings_Split s '/').length ≠ 2 →
        MailboxResource.ImportState ⟨s⟩ (newImportStateResponse MailboxResource.Schema) =
          { State := newStateForSchema MailboxResource.Schema,
            Diagnostics := [⟨Severity.Error, "Invalid Import ID",
              "Import ID must be in format: domain_name/local_part"⟩] })) ∧
    (((AliasResource.ImportState ⟨s⟩
          (newImportStateResponse AliasResource.Schema)).Diagnostics.HasError = false ↔
        (strings_Split s '/').length = 2) ∧
      ((strings_Split s '/').length = 2 →
        (AliasResource.ImportState ⟨s⟩
            (newImportStateResponse AliasResource.Schema)).Diagnostics = [] ∧
        getStateStringAttribute (AliasResource.ImportState ⟨s⟩
            (newImportStateResponse AliasResource.Schema)).State "domain_name" =
          (strings_Split s '/')[0]? ∧
        getStateStringAttribute (AliasResource.ImportState ⟨s⟩
            (newImportStateResponse AliasResource.Schema)).State "local_part" =
          (strings_Split s '/')[1]?) ∧
      ((strings_Split s '/').length ≠ 2 →
        AliasResource.ImportState ⟨s⟩ (newImportStateResponse AliasResource.Schema) =
          { State := newStateForSchema AliasResource.Schema,
            Diagnostics := [⟨Severity.Error, "Invalid Import ID",
              "Import ID must be in format: domain_name/local_part"⟩] })) := by
  have hm1 : MailboxResource.Schema.lookup "domain_name" = some AttrType.String := by decide
  have hm2 : MailboxResource.Schema.lookup "local_part" = some AttrType.String := by decide
  have ha1 : AliasResource.Schema.lookup "domain_name" = some AttrType.String := by decide
  have ha2 : AliasResource.Schema.lookup "local_part" = some AttrType.String := by decide
  have hne : "domain_name" ≠ "local_part" := by decide
  by_cases h : (strings_Split s '/').length = 2
  · obtain ⟨a, b, hab⟩ := List.length_eq_two.mp h
    have em : MailboxResource.ImportState ⟨s⟩ (newImportStateResponse MailboxResource.Schema) =
        { State := { Schema := MailboxResource.Schema,
                     Raw := some [("domain_name", Value.String a), ("local_part", Value.String b)] },
          Diagnostics := [] } := by
      simp only [MailboxResource.ImportState, hab]
      simpa using import_two_attributes MailboxResource.Schema _ _ a b hm1 hm2 hne
    have ea : AliasResource.ImportState ⟨s⟩ (newImportStateResponse AliasResource.Schema) =
        { State := { Schema := AliasResource.Schema,
                     Raw := some [("domain_name", Value.String a), ("local_part", Value.String b)] },
          Diagnostics := [] } := by
      simp only [AliasResource.ImportState, hab]
      simpa using import_two_attributes AliasResource.Schema _ _ a b ha1 ha2 hne
    rw [em, ea, hab]
    simp [Diagnostics.HasError, getStateStringAttribute, State.GetAttribute, List.lookup]
  · have em : MailboxResource.ImportState ⟨s⟩ (newImportStateResponse MailboxResource.Schema) =
        { State := newStateForSchema MailboxResource.Schema,
          Diagnostics := [⟨Severity.Error, "Invalid Import ID",
            "Import ID must be in format: domain_name/local_part"⟩] } := by
      simp [MailboxResource.ImportState, h, newImportStateResponse, Diagnostics.AddError_nil]
    have ea : AliasResource.ImportState ⟨s⟩ (newImportStateResponse AliasResource.Schema) =
        { State := newStateForSchema AliasResource.Schema,
          Diagnostics := [⟨Severity.Error, "Invalid Import ID",
            "Import ID must be in format: domain_name/local_part"⟩] } := by
      simp [AliasResource.ImportState, h, newImportStateResponse, Diagnostics.AddError_nil]
    rw [em, ea]
    simp [Diagnostics.HasError, h]

/-- C2: on the response the framework supplies (null state, no diagnostics),
`IdentityResource.ImportState` succeeds exactly when splitting the ID
on "/" yields exactly 3 segments; then it stores them, in order, in
`domain_name`, `mailbox` and `local_part`; otherwise (as for
"example.com/admin") the only diagnostic is the error "Invalid Import ID" with
the fixed detail, and the state is left as it was. -/
theorem C2_identity_import_three_segments (s : String) :
    ((IdentityResource.ImportState ⟨s⟩
          (newImportStateResponse IdentityResource.Schema)).Diagnostics.HasError = false ↔
        (strings_Split s '/').length = 3) ∧
    ((strings_Split s '/').length = 3 →
      (IdentityResource.ImportState ⟨s⟩
          (newImportStateResponse IdentityResource.Schema)).Diagnostics = [] ∧
      getStateStringAttribute (IdentityResource.ImportState ⟨s⟩
          (newImportStateResponse IdentityResource.Schema)).State "domain_name" =
        (strings_Split s '/')[0]? ∧
      getStateStringAttribute (IdentityResource.ImportState ⟨s⟩
          (newImportStateResponse IdentityResource.Schema)).State "mailbox" =
        (strings_Split s '/')[1]? ∧
      getStateStringAttribute (IdentityResource.ImportState ⟨s⟩
          (newImportStateResponse IdentityResource.Schema)).State "local_part" =
        (strings_Split s '/')[2]?) ∧
    ((strings_Split s '/').length ≠ 3 →
      IdentityResource.ImportState ⟨s⟩ (newImportStateResponse IdentityResource.Schema) =
        { State := newStateForSchema IdentityResource.Schema,
          Diagnostics := [⟨Severity.Error, "Invalid Import ID",
            "Import ID must be in format: domain_name/mailbox/local_part"⟩] }) ∧
    IdentityResource.ImportState ⟨"example.com/admin"⟩
        (newImportStateResponse IdentityResource.Schema) =
      { State := newStateForSchema IdentityResource.Schema,
        Diagnostics := [⟨Severity.Error, "Invalid Import ID",
          "Import ID must be in format: domain_name/mailbox/local_part"⟩] } := by
  have h1 : IdentityResource.Schema.lookup "domain_name" = some AttrType.String := by decide
  have h2 : IdentityResource.Schema.lookup "mailbox" = some AttrType.String := by decide
  have h3 : IdentityResource.Schema.lookup "local_part" = some AttrType.String := by decide
  have h12 : "domain_name" ≠ "mailbox" := by decide
  have h13 : "domain_name" ≠ "local_part" := by decide
  have h23 : "mailbox" ≠ "local_part" := by decide
  refine ⟨?_, ?_, ?_, by decide⟩
  all_goals
    by_cases h : (strings_Split s '/').length = 3
    · obtain ⟨a, b, c, habc⟩ := List.length_eq_three.mp h
      have e : IdentityResource.ImportState ⟨s⟩ (newImportStateResponse IdentityResource.Schema) =
          { State := { Schema := IdentityResource.Schema,
                       Raw := some [("domain_name", Value.String a), ("mailbox", Value.String b),
                         ("local_part", Value.String c)] },
            Diagnostics := [] } := by
        simp only [IdentityResource.ImportState, habc]
        simpa using import_three_attributes IdentityResource.Schema _ _ _ a b c h1 h2 h3 h12 h13 h23
      rw [e, habc]
      simp [Diagnostics.HasError, getStateStringAttribute, State.GetAttribute, List.lookup]
    · have e : IdentityResource.ImportState ⟨s⟩ (newImportStateResponse IdentityResource.Schema) =
          { State := newStateForSchema IdentityResource.Schema,
            Diagnostics := [⟨Severity.Error, "Invalid Import ID",
              "Import ID must be in format: domain_name/mailbox/local_part"⟩] } := by
        simp [IdentityResource.ImportState, h, newImportStateResponse, Diagnostics.AddError_nil]
      rw [e]
      simp [Diagnostics.HasError, h]

/-- C3: on the response the framework supplies (null state, no diagnostics),
`RewriteResource.ImportState` succeeds exactly when splitting the ID on
"/" yields exactly 2 segments; then it stores the first in `domain_name` and
the second in `name`; otherwise (as for "example.com") the only diagnostic is
the error "Invalid Import ID" with the fixed detail, and the state is left as
it was. -/
theorem C3_rewrite_import_two_segments (s : String) :
    ((RewriteResource.ImportState ⟨s⟩
          (newImportStateResponse RewriteResource.Schema)).Diagnostics.HasError = false ↔
        (strings_Split s '/').length = 2) ∧
    ((strings_Split s '/').length = 2 →
      (RewriteResource.ImportState ⟨s⟩
          (newImportStateResponse RewriteResource.Schema)).Diagnostics = [] ∧
      getStateStringAttribute (RewriteResource.ImportState ⟨s⟩
          (newImportStateResponse RewriteResource.Schema)).State "domain_name" =
        (strings_Split s '/')[0]? ∧
      getStateStringAttribute (RewriteResource.ImportState ⟨s⟩
          (newImportStateResponse RewriteResource.Schema)).State "name" =
        (strings_Split s '/')[1]?) ∧
    ((strings_Split s '/').length ≠ 2 →
      RewriteResource.ImportState ⟨s⟩ (newImportStateResponse RewriteResource.Schema) =
        { State := newStateForSchema RewriteResource.Schema,
          Diagnostics := [⟨Severity.Error, "Invalid Import ID",
            "Import ID must be in format: domain_name/name"⟩] }) ∧
    RewriteResource.ImportState ⟨"example.com"⟩
        (newImportStateResponse RewriteResource.Schema) =
      { State := newStateForSchema RewriteResource.Schema,
        Diagnostics := [⟨Severity.Error, "Invalid Import ID",
          "Import ID must be in format: domain_name/name"⟩] } := by
  have h1 : RewriteResource.Schema.lookup "domain_name" = some AttrType.String := by decide
  have h2 : RewriteResource.Schema.lookup "name" = some AttrType.String := by decide
  have hne : "domain_name" ≠ "name" := by decide
  refine ⟨?_, ?_, ?_, by decide⟩
  all_goals
    by_cases h : (strings_Split s '/').length = 2
    · obtain ⟨a, b, hab⟩ := List.length_eq_two.mp h
      have e : RewriteResource.ImportState ⟨s⟩ (newImportStateResponse RewriteResource.Schema) =
          { State := { Schema := RewriteResource.Schema,
                       Raw := some [("domain_name", Value.String a), ("name", Value.String b)] },
            Diagnostics := [] } := by
        simp only [RewriteResource.ImportState, hab]
        simpa using import_two_attributes RewriteResource.Schema _ _ a b h1 h2 hne
      rw [e, hab]
      simp [Diagnostics.HasError, getStateStringAttribute, State.GetAttribute, List.lookup]
    · have e : RewriteResource.ImportState ⟨s⟩ (newImportStateResponse RewriteResource.Schema) =
          { State := newStateForSchema RewriteResource.Schema,
            Diagnostics := [⟨Severity.Error, "Invalid Import ID",
              "Import ID must be in format: domain_name/name"⟩] } := by
        simp [RewriteResource.ImportState, h, newImportStateResponse, Diagnostics.AddError_nil]
      rw [e]
      simp [Diagnostics.HasError, h]

/-! ## Pass-through import of the domain and domain activation resources -/

theorem passthrough_diagnostics (skipEmptyID : Bool) (schema : Schema) (name s : String)
    (h : schema.lookup name = some AttrType.String) :
    (ImportStatePassthroughID skipEmptyID name ⟨s⟩ (newImportStateResponse schema)).Diagnostics
      = [] := by
  unfold ImportStatePassthroughID
  split
  · rfl
  · rw [SetAttribute_string (newImportStateResponse schema) name s h]
    rfl

theorem passthrough_state (skipEmptyID : Bool) (schema : Schema) (name s : String)
    (h : schema.lookup name = some AttrType.String) (hs : s ≠ "" ∨ skipEmptyID = false) :
    (ImportStatePassthroughID skipEmptyID name ⟨s⟩ (newImportStateResponse schema)).State
      = { Schema := schema, Raw := some [(name, Value.String s)] } := by
  have hc : ¬ ((skipEmptyID && decide (s = "")) = true) := by
    rcases hs with hs | hs
    · simp [hs]
    · simp [hs]
  unfold ImportStatePassthroughID
  rw [if_neg hc, SetAttribute_string (newImportStateResponse schema) name s h]
  simp [newImportStateResponse, newStateForSchema, upsert]

/-- C4, the claim refuted: the ID "example.com" has one segment, not two, and
`DomainActivationResource.ImportState` accepts it without any diagnostic,
storing it in `domain_name`. -/
theorem C4_one_segment_id_accepted :
    (strings_Split "example.com" '/').length = 1 ∧
    DomainActivationResource.ImportState true ⟨"example.com"⟩
        (newImportStateResponse DomainActivationResource.Schema) =
      { State := { Schema := DomainActivationResource.Schema,
                   Raw := some [("domain_name", Value.String "example.com")] },
        Diagnostics := [] } ∧
    DomainActivationResource.ImportState false ⟨"example.com"⟩
        (newImportStateResponse DomainActivationResource.Schema) =
      { State := { Schema := DomainActivationResource.Schema,
                   Raw := some [("domain_name", Value.String "example.com")] },
        Diagnostics := [] } := by
  decide

/-- C4 as amended: `DomainActivationResource.ImportState` checks no segment
count; for every ID it adds no diagnostic, and it stores the whole ID in
`domain_name` (an empty ID included, unless the framework skips empty IDs). -/
theorem C4_domain_activation_import_passthrough (skipEmptyID : Bool) (s : String) :
    (DomainActivationResource.ImportState skipEmptyID ⟨s⟩
        (newImportStateResponse DomainActivationResource.Schema)).Diagnostics = [] ∧
    (s ≠ "" ∨ skipEmptyID = false →
      getStateStringAttribute (DomainActivationResource.ImportState skipEmptyID ⟨s⟩
        (newImportStateResponse DomainActivationResource.Schema)).State "domain_name" = some s) := by
  have h : DomainActivationResource.Schema.lookup "domain_name" = some AttrType.String := by
    decide
  refine ⟨passthrough_diagnostics skipEmptyID _ _ s h, fun hs => ?_⟩
  unfold DomainActivationResource.ImportState
  rw [passthrough_state skipEmptyID _ _ s h hs]
  simp [getStateStringAttribute, State.GetAttribute, List.lookup]

/-- C5, the claim refuted: the ID "example.com/admin" contains "/" and has two
segments, and `DomainResource.ImportState` accepts it without any diagnostic,
storing it whole in `name`. -/
theorem C5_id_with_slash_accepted :
    (strings_Split "example.com/admin" '/').length = 2 ∧
    DomainResource.ImportState true ⟨"example.com/admin"⟩
        (newImportStateResponse DomainResource.Schema) =
      { State := { Schema := DomainResource.Schema,
                   Raw := some [("name", Value.String "example.com/admin")] },
        Diagnostics := [] } ∧
    DomainResource.ImportState false ⟨"example.com/admin"⟩
        (newImportStateResponse DomainResource.Schema) =
      { State := { Schema := DomainResource.Schema,
                   Raw := some [("name", Value.String "example.com/admin")] },
        Diagnostics := [] } := by
  decide

/-- C5 as amended: `DomainResource.ImportState` checks no segment count; an ID
that contains "/" (so has more than one segment) gets no diagnostic and is
stored whole in `name`. -/
theorem C5_domain_import_keeps_slashes (skipEmptyID : Bool) (s : String) (hs : '/' ∈ s.data) :
    (strings_Split s '/').length ≠ 1 ∧
    (DomainResource.ImportState skipEmptyID ⟨s⟩
        (newImportStateResponse DomainResource.Schema)).Diagnostics = [] ∧
    getStateStringAttribute (DomainResource.ImportState skipEmptyID ⟨s⟩
        (newImportStateResponse DomainResource.Schema)).State "name" = some s := by
  have h : DomainResource.Schema.lookup "name" = some AttrType.String := by decide
  have hne : s ≠ "" := by
    intro e
    rw [e] at hs
    simp at hs
  refine ⟨?_, passthrough_diagnostics skipEmptyID _ _ s h, ?_⟩
  · rw [strings_Split_length]
    have := List.count_pos_iff.mpr hs
    omega
  · unfold DomainResource.ImportState
    rw [passthrough_state skipEmptyID _ _ s h (Or.inl hne)]
    simp [getStateStringAttribute, State.GetAttribute, List.lookup]

/-- C5 as amended, at the sample ID "a/b". -/
theorem C5_domain_import_keeps_slashes_witness :
    '/' ∈ "a/b".data ∧
    ((strings_Split "a/b" '/').length ≠ 1 ∧
      (DomainResource.ImportState true ⟨"a/b"⟩
        (newImportStateResponse DomainResource.Schema)).Diagnostics = [] ∧
      getStateStringAttribute (DomainResource.ImportState true ⟨"a/b"⟩
        (newImportStateResponse DomainResource.Schema)).State "name" = some "a/b") :=
  ⟨by decide, C5_domain_import_keeps_slashes true "a/b" (by decide)⟩

/-- C6, the claim refuted at the empty import ID: "" contains no "/", yet with a
framework helper that skips an empty ID `DomainResource.ImportState` writes
nothing, so `name` stays unset instead of holding "". -/
theorem C6_empty_id_leaves_name_unset :
    '/' ∉ "".data ∧
    DomainResource.ImportState true ⟨""⟩ (newImportStateResponse DomainResource.Schema) =
      { State := { Schema := DomainResource.Schema, Raw := none }, Diagnostics := [] } ∧
    (DomainResource.ImportState true ⟨""⟩
        (newImportStateResponse DomainResource.Schema)).State.GetAttribute "name" = Value.Null ∧
    getStateStringAttribute (DomainResource.ImportState true ⟨""⟩
        (newImportStateResponse DomainResource.Schema)).State "name" ≠ some "" := by
  decide

/-- C6 as amended: for an import ID `s` without "/" (one segment),
`DomainResource.ImportState` adds no diagnostic and leaves every attribute
other than `name` null; it stores exactly `s` in `name` when `s` is not empty
(or the framework does not skip empty IDs), and writes nothing at all for the
empty ID when the framework skips it. -/
theorem C6_domain_import_sets_nonempty_name (skipEmptyID : Bool) (s : String)
    (hs : '/' ∉ s.data) :
    strings_Split s '/' = [s] ∧
    (DomainResource.ImportState skipEmptyID ⟨s⟩
        (newImportStateResponse DomainResource.Schema)).Diagnostics = [] ∧
    (s ≠ "" ∨ skipEmptyID = false →
      getStateStringAttribute (DomainResource.ImportState skipEmptyID ⟨s⟩
        (newImportStateResponse DomainResource.Schema)).State "name" = some s) ∧
    (s = "" ∧ skipEmptyID = true →
      DomainResource.ImportState skipEmptyID ⟨s⟩
        (newImportStateResponse DomainResource.Schema) =
          newImportStateResponse DomainResource.Schema) ∧
    ∀ a : String, a ≠ "name" →
      (DomainResource.ImportState skipEmptyID ⟨s⟩
        (newImportStateResponse DomainResource.Schema)).State.GetAttribute a = Value.Null := by
  have h : DomainResource.Schema.lookup "name" = some AttrType.String := by decide
  refine ⟨strings_Split_of_not_mem s '/' hs, passthrough_diagnostics skipEmptyID _ _ s h,
    fun he => ?_, fun he => ?_, fun a ha => ?_⟩
  · unfold DomainResource.ImportState
    rw [passthrough_state skipEmptyID _ _ s h he]
    simp [getStateStringAttribute, State.GetAttribute, List.lookup]
  · simp [DomainResource.ImportState, ImportStatePassthroughID, he.1, he.2]
  · by_cases he : s ≠ "" ∨ skipEmptyID = false
    · unfold DomainResource.ImportState
      rw [passthrough_state skipEmptyID _ _ s h he]
      have hb : (a == "name") = false := by simpa using ha
      simp [State.GetAttribute, List.lookup, hb]
    · have h1 : s = "" := by
        by_contra hne
        exact he (Or.inl hne)
      have h2 : skipEmptyID = true := by
        cases skipEmptyID
        · exact absurd (Or.inr rfl) he
        · rfl
      simp [DomainResource.ImportState, ImportStatePassthroughID, h1, h2,
        newImportStateResponse, newStateForSchema, State.GetAttribute]

/-- C6 as amended at the ID "example.com" of the domain resource's import test. -/
theorem C6_domain_import_sets_nonempty_name_witness :
    '/' ∉ "example.com".data ∧
    (strings_Split "example.com" '/' = ["example.com"] ∧
      (DomainResource.ImportState true ⟨"example.com"⟩
        (newImportStateResponse DomainResource.Schema)).Diagnostics = [] ∧
      ("example.com" ≠ "" ∨ true = false →
        getStateStringAttribute (DomainResource.ImportState true ⟨"example.com"⟩
          (newImportStateResponse DomainResource.Schema)).State "name" = some "example.com") ∧
      ("example.com" = "" ∧ true = true →
        DomainResource.ImportState true ⟨"example.com"⟩
          (newImportStateResponse DomainResource.Schema) =
            newImportStateResponse DomainResource.Schema) ∧
      ∀ a : String, a ≠ "name" →
        (DomainResource.ImportState true ⟨"example.com"⟩
          (newImportStateResponse DomainResource.Schema)).State.GetAttribute a = Value.Null) :=
  ⟨by decide, C6_domain_import_sets_nonempty_name true "example.com" (by decide)⟩

/-! ## Import round trip -/

theorem mailbox_ImportState_of_split (s a b : String)
    (h : strings_Split s '/' = [a, b]) :
    MailboxResource.ImportState ⟨s⟩ (newImportStateResponse MailboxResource.Schema) =
      { State := { Schema := MailboxResource.Schema,
                   Raw := some [("domain_name", Value.String a), ("local_part", Value.String b)] },
        Diagnostics := [] } := by
  simp only [MailboxResource.ImportState, h]
  simpa using import_two_attributes MailboxResource.Schema "domain_name" "local_part" a b
    (by decide) (by decide) (by decide)

theorem alias_ImportState_of_split (s a b : String)
    (h : strings_Split s '/' = [a, b]) :
    AliasResource.ImportState ⟨s⟩ (newImportStateResponse AliasResource.Schema) =
      { State := { Schema := AliasResource.Schema,
                   Raw := some [("domain_name", Value.String a), ("local_part", Value.String b)] },
        Diagnostics := [] } := by
  simp only [AliasResource.ImportState, h]
  simpa using import_two_attributes AliasResource.Schema "domain_name" "local_part" a b
    (by decide) (by decide) (by decide)

theorem identity_ImportState_of_split (s a b c : String)
    (h : strings_Split s '/' = [a, b, c]) :
    IdentityResource.ImportState ⟨s⟩ (newImportStateResponse IdentityResource.Schema) =
      { State := { Schema := IdentityResource.Schema,
                   Raw := some [("domain_name", Value.String a), ("mailbox", Value.String b),
                     ("local_part", Value.String c)] },
        Diagnostics := [] } := by
  simp only [IdentityResource.ImportState, h]
  simpa using import_three_attributes IdentityResource.Schema "domain_name" "mailbox"
    "local_part" a b c (by decide) (by decide) (by decide) (by decide) (by decide) (by decide)

/-- C7: import round trip.  For `d`, `m`, `l` without "/", importing
`d/l` as a mailbox or an alias succeeds with `domain_name = d` and
`local_part = l`, and importing `d/m/l` as an identity succeeds with
`domain_name = d`, `mailbox = m` and `local_part = l`. -/
theorem C7_import_id_round_trip (d m l : String) (hd : '/' ∉ d.data) (hm : '/' ∉ m.data)
    (hl : '/' ∉ l.data) :
    ((MailboxResource.ImportState ⟨d ++ "/" ++ l⟩
          (newImportStateResponse MailboxResource.Schema)).Diagnostics = [] ∧
      getStateStringAttribute (MailboxResource.ImportState ⟨d ++ "/" ++ l⟩
          (newImportStateResponse MailboxResource.Schema)).State "domain_name" = some d ∧
      getStateStringAttribute (MailboxResource.ImportState ⟨d ++ "/" ++ l⟩
          (newImportStateResponse MailboxResource.Schema)).State "local_part" = some l) ∧
    ((AliasResource.ImportState ⟨d ++ "/" ++ l⟩
          (newImportStateResponse AliasResource.Schema)).Diagnostics = [] ∧
      getStateStringAttribute (AliasResource.ImportState ⟨d ++ "/" ++ l⟩
          (newImportStateResponse AliasResource.Schema)).State "domain_name" = some d ∧
      getStateStringAttribute (AliasResource.ImportState ⟨d ++ "/" ++ l⟩
          (newImportStateResponse AliasResource.Schema)).State "local_part" = some l) ∧
    ((IdentityResource.ImportState ⟨d ++ "/" ++ m ++ "/" ++ l⟩
          (newImportStateResponse IdentityResource.Schema)).Diagnostics = [] ∧
      getStateStringAttribute (IdentityResource.ImportState ⟨d ++ "/" ++ m ++ "/" ++ l⟩
          (newImportStateResponse IdentityResource.Schema)).State "domain_name" = some d ∧
      getStateStringAttribute (IdentityResource.ImportState ⟨d ++ "/" ++ m ++ "/" ++ l⟩
          (newImportStateResponse IdentityResource.Schema)).State "mailbox" = some m ∧
      getStateStringAttribute (IdentityResource.ImportState ⟨d ++ "/" ++ m ++ "/" ++ l⟩
          (newImportStateResponse IdentityResource.Schema)).State "local_part" = some l) := by
  rw [mailbox_ImportState_of_split _ d l (strings_Split_two d l hd hl),
    alias_ImportState_of_split _ d l (strings_Split_two d l hd hl),
    identity_ImportState_of_split _ d m l (strings_Split_three d m l hd hm hl)]
  simp [getStateStringAttribute, State.GetAttribute, List.lookup]

/-- C7 at the sample identity ID "example.com/admin/sales". -/
theorem C7_import_id_round_trip_witness :
    getStateStringAttribute (IdentityResource.ImportState ⟨"example.com" ++ "/" ++ "admin" ++ "/" ++ "sales"⟩
        (newImportStateResponse IdentityResource.Schema)).State "mailbox" = some "admin" :=
  (C7_import_id_round_trip "example.com" "admin" "sales" (by decide) (by decide)
    (by decide)).2.2.2.2.1

/-! ## Domain activation: DNS validation -/

theorem Diagnostics.HasError_append_list (a b : Diagnostics) :
    Diagnostics.HasError (a ++ b) = (Diagnostics.HasError a || Diagnostics.HasError b) := by
  simp [Diagnostics.HasError, List.any_append]

theorem Diagnostics.HasError_Append (a b : Diagnostics) :
    Diagnostics.HasError (Diagnostics.Append a b) =
      (Diagnostics.HasError a || Diagnostics.HasError b) := by
  induction b generalizing a with
  | nil => simp [Diagnostics.Append, Diagnostics.HasError]
  | cons d ds ih =>
    have step : Diagnostics.Append a (d :: ds) =
        Diagnostics.Append (if d ∈ a then a else a ++ [d]) ds := by
      simp [Diagnostics.Append]
    rw [step, ih]
    by_cases hd : d ∈ a
    · rw [if_pos hd]
      by_cases he : d.Severity = Severity.Error
      · have ha : Diagnostics.HasError a = true := by
          simp only [Diagnostics.HasError, List.any_eq_true]
          exact ⟨d, hd, by simpa using he⟩
        simp [ha]
      · simp [Diagnostics.HasError, he]
    · rw [if_neg hd, Diagnostics.HasError_append_list]
      simp [Diagnostics.HasError, Bool.or_assoc]

theorem Diagnostics.AddError_of_no_error (diags : Diagnostics) (summary detail : String)
    (h : Diagnostics.HasError diags = false) :
    Diagnostics.AddError diags summary detail = diags ++ [⟨Severity.Error, summary, detail⟩] := by
  have hn : (⟨Severity.Error, summary, detail⟩ : Diagnostic) ∉ diags := by
    intro hm
    have : Diagnostics.HasError diags = true := by
      simp only [Diagnostics.HasError, List.any_eq_true]
      exact ⟨_, hm, by simp⟩
    rw [h] at this
    exact Bool.false_ne_true this
  simp [Diagnostics.AddError, Diagnostics.Append, hn]

theorem DomainActivationResource.issues_eq_spec (diag : migadu.DomainDiagnostics) :
    DomainActivationResource.issues diag = specIssueLines diag := by
  rcases diag with ⟨mx, spf, dkim, dmarc⟩
  cases mx <;> cases spf <;> cases dkim <;> cases dmarc <;>
    simp [DomainActivationResource.issues, specIssueLines]

theorem specIssueLines_length (diag : migadu.DomainDiagnostics) :
    (specIssueLines diag).length = nonEmptyLists diag := by
  rcases diag with ⟨mx, spf, dkim, dmarc⟩
  cases mx <;> cases spf <;> cases dkim <;> cases dmarc <;>
    simp [specIssueLines, nonEmptyLists]

theorem nonEmptyLists_pos_iff (diag : migadu.DomainDiagnostics) :
    0 < nonEmptyLists diag ↔
      (diag.MX ≠ [] ∨ diag.SPF ≠ [] ∨ diag.DKIM ≠ [] ∨ diag.DMARC ≠ []) := by
  rcases diag with ⟨mx, spf, dkim, dmarc⟩
  cases mx <;> cases spf <;> cases dkim <;> cases dmarc <;> simp [nonEmptyLists]

theorem nonEmptyLists_le_four (diag : migadu.DomainDiagnostics) : nonEmptyLists diag ≤ 4 := by
  unfold nonEmptyLists
  split <;> split <;> split <;> split <;> omega

theorem DomainActivationResource.Create_of_issues (client : migadu.Client)
    (req : CreateRequest DomainActivationResourceModel) (resp : CreateResponse)
    (diag : migadu.DomainDiagnostics)
    (h0 : resp.Diagnostics.HasError = false) (hp : req.Plan.diags.HasError = false)
    (hd : client.GetDomainDiagnostics req.Plan.data.DomainName.ValueString = Except.ok diag)
    (hi : 0 < nonEmptyLists diag) :
    DomainActivationResource.Create client req resp =
      ({ State := resp.State,
         Diagnostics := Diagnostics.Append resp.Diagnostics req.Plan.diags ++
           [⟨Severity.Error, "DNS Validation Failed", specDetail diag⟩] },
        [ApiCall.GetDomainDiagnostics req.Plan.data.DomainName.ValueString]) := by
  have hne : Diagnostics.HasError (Diagnostics.Append resp.Diagnostics req.Plan.diags) = false := by
    rw [Diagnostics.HasError_Append, h0, hp]
    rfl
  have hlen : (DomainActivationResource.issues diag).length > 0 := by
    rw [DomainActivationResource.issues_eq_spec, specIssueLines_length]
    exact hi
  simp only [DomainActivationResource.Create, hne, hd, hlen, if_true, Bool.false_eq_true,
    if_false]
  rw [Diagnostics.AddError_of_no_error _ _ _ hne, DomainActivationResource.issues_eq_spec]
  rfl

theorem DomainActivationResource.Create_calls_of_no_issues (client : migadu.Client)
    (req : CreateRequest DomainActivationResourceModel) (resp : CreateResponse)
    (diag : migadu.DomainDiagnostics)
    (h0 : resp.Diagnostics.HasError = false) (hp : req.Plan.diags.HasError = false)
    (hd : client.GetDomainDiagnostics req.Plan.data.DomainName.ValueString = Except.ok diag)
    (hi : nonEmptyLists diag = 0) :
    (DomainActivationResource.Create client req resp).2 =
      [ApiCall.GetDomainDiagnostics req.Plan.data.DomainName.ValueString,
       ApiCall.ActivateDomain req.Plan.data.DomainName.ValueString] := by
  have hne : Diagnostics.HasError (Diagnostics.Append resp.Diagnostics req.Plan.diags) = false := by
    rw [Diagnostics.HasError_Append, h0, hp]
    rfl
  have hlen : ¬ (DomainActivationResource.issues diag).length > 0 := by
    rw [DomainActivationResource.issues_eq_spec, specIssueLines_length, hi]
    exact Nat.lt_irrefl 0
  simp only [DomainActivationResource.Create, hne, hd, hlen, Bool.false_eq_true, if_false]
  cases client.ActivateDomain req.Plan.data.DomainName.ValueString <;> rfl

/-- C8: when the plan decodes and `GetDomainDiagnostics` returns a result
without error, `DomainActivationResource.Create` aborts with the error
"DNS Validation Failed", without calling `ActivateDomain` and without writing
state, exactly when at least one of the MX, SPF, DKIM, DMARC lists is
non-empty; when all four are empty it goes on to call `ActivateDomain` for the
same domain name. -/
theorem C8_dns_issues_abort_activation (client : migadu.Client)
    (req : CreateRequest DomainActivationResourceModel) (resp : CreateResponse)
    (diag : migadu.DomainDiagnostics)
    (h0 : resp.Diagnostics.HasError = false) (hp : req.Plan.diags.HasError = false)
    (hd : client.GetDomainDiagnostics req.Plan.data.DomainName.ValueString = Except.ok diag) :
    (((∃ d ∈ (DomainActivationResource.Create client req resp).1.Diagnostics,
          d.Severity = Severity.Error ∧ d.Summary = "DNS Validation Failed") ∧
        (∀ n, ApiCall.ActivateDomain n ∉ (DomainActivationResource.Create client req resp).2) ∧
        (DomainActivationResource.Create client req resp).1.State = resp.State) ↔
      (diag.MX ≠ [] ∨ diag.SPF ≠ [] ∨ diag.DKIM ≠ [] ∨ diag.DMARC ≠ [])) ∧
    ((diag.MX ≠ [] ∨ diag.SPF ≠ [] ∨ diag.DKIM ≠ [] ∨ diag.DMARC ≠ []) →
      (DomainActivationResource.Create client req resp).2 =
        [ApiCall.GetDomainDiagnostics req.Plan.data.DomainName.ValueString] ∧
      ∃ detail, (DomainActivationResource.Create client req resp).1.Diagnostics =
        Diagnostics.Append resp.Diagnostics req.Plan.diags ++
          [⟨Severity.Error, "DNS Validation Failed", detail⟩]) ∧
    ((diag.MX = [] ∧ diag.SPF = [] ∧ diag.DKIM = [] ∧ diag.DMARC = []) →
      (DomainActivationResource.Create client req resp).2 =
        [ApiCall.GetDomainDiagnostics req.Plan.data.DomainName.ValueString,
         ApiCall.ActivateDomain req.Plan.data.DomainName.ValueString]) := by
  by_cases hi : 0 < nonEmptyLists diag
  · have hex := (nonEmptyLists_pos_iff diag).mp hi
    rw [DomainActivationResource.Create_of_issues client req resp diag h0 hp hd hi]
    refine ⟨⟨fun _ => hex, fun _ => ⟨⟨_, List.mem_append_right _ (List.mem_singleton_self _),
      rfl, rfl⟩, ?_, rfl⟩⟩, fun _ => ⟨rfl, specDetail diag, rfl⟩, ?_⟩
    · intro n hn
      simp at hn
    · rintro ⟨h1, h2, h3, h4⟩
      rcases hex with h | h | h | h
      · exact absurd h1 h
      · exact absurd h2 h
      · exact absurd h3 h
      · exact absurd h4 h
  · have hnone : ¬ (diag.MX ≠ [] ∨ diag.SPF ≠ [] ∨ diag.DKIM ≠ [] ∨ diag.DMARC ≠ []) :=
      fun h => hi ((nonEmptyLists_pos_iff diag).mpr h)
    have hz : nonEmptyLists diag = 0 := Nat.eq_zero_of_not_pos hi
    have hc := DomainActivationResource.Create_calls_of_no_issues client req resp diag h0 hp hd hz
    refine ⟨⟨?_, fun h => absurd h hnone⟩, fun h => absurd h hnone, fun _ => hc⟩
    rintro ⟨_, hcall, _⟩
    exact absurd (by rw [hc]; simp) (hcall req.Plan.data.DomainName.ValueString)

/-- C8 at a sample input: two MX issues and one DKIM issue abort the activation
of "example.com" after the single diagnostics call. -/
theorem C8_dns_issues_abort_activation_witness :
    (DomainActivationResource.Create sampleClientWithIssues sampleActivationRequest
        sampleActivationResponse).2 = [ApiCall.GetDomainDiagnostics "example.com"] ∧
    ∃ detail, (DomainActivationResource.Create sampleClientWithIssues sampleActivationRequest
        sampleActivationResponse).1.Diagnostics =
      Diagnostics.Append sampleActivationResponse.Diagnostics sampleActivationRequest.Plan.diags ++
        [⟨Severity.Error, "DNS Validation Failed", detail⟩] :=
  (C8_dns_issues_abort_activation sampleClientWithIssues sampleActivationRequest
    sampleActivationResponse { MX := ["a", "b"], SPF := [], DKIM := ["c"], DMARC := [] }
    (by decide) (by decide) rfl).2.1 (Or.inl (by decide))

/-- C9: the detail of the "DNS Validation Failed" error is
"DNS records are not valid:\n" followed by one entry per non-empty list, in the
order MX, SPF, DKIM, DMARC, each the label, ": " and the list's messages joined
with "; ", the entries joined with "\n"; the number of entries is the number of
non-empty lists, between 1 and 4. -/
theorem C9_dns_validation_detail (client : migadu.Client)
    (req : CreateRequest DomainActivationResourceModel) (resp : CreateResponse)
    (diag : migadu.DomainDiagnostics)
    (h0 : resp.Diagnostics.HasError = false) (hp : req.Plan.diags.HasError = false)
    (hd : client.GetDomainDiagnostics req.Plan.data.DomainName.ValueString = Except.ok diag) :
    DomainActivationResource.issues diag = specIssueLines diag ∧
    ∀ d ∈ (DomainActivationResource.Create client req resp).1.Diagnostics,
      d.Severity = Severity.Error → d.Summary = "DNS Validation Failed" →
        d.Detail = specDetail diag ∧
        (DomainActivationResource.issues diag).length = nonEmptyLists diag ∧
        1 ≤ nonEmptyLists diag ∧ nonEmptyLists diag ≤ 4 := by
  refine ⟨DomainActivationResource.issues_eq_spec diag, ?_⟩
  have hne : Diagnostics.HasError (Diagnostics.Append resp.Diagnostics req.Plan.diags) = false := by
    rw [Diagnostics.HasError_Append, h0, hp]
    rfl
  have hold : ∀ d ∈ Diagnostics.Append resp.Diagnostics req.Plan.diags,
      d.Severity ≠ Severity.Error := by
    intro d hm he
    have : Diagnostics.HasError (Diagnostics.Append resp.Diagnostics req.Plan.diags) = true := by
      simp only [Diagnostics.HasError, List.any_eq_true]
      exact ⟨d, hm, by simpa using he⟩
    rw [hne] at this
    exact Bool.false_ne_true this
  intro d hm hsev hsum
  by_cases hi : 0 < nonEmptyLists diag
  · rw [DomainActivationResource.Create_of_issues client req resp diag h0 hp hd hi] at hm
    rcases List.mem_append.mp hm with hm | hm
    · exact absurd hsev (hold d hm)
    · rw [List.mem_singleton.mp hm, DomainActivationResource.issues_eq_spec,
        specIssueLines_length]
      exact ⟨rfl, rfl, hi, nonEmptyLists_le_four diag⟩
  · exfalso
    have hlen : ¬ (DomainActivationResource.issues diag).length > 0 := by
      rw [DomainActivationResource.issues_eq_spec, specIssueLines_length]
      exact hi
    simp only [DomainActivationResource.Create, hne, hd, hlen, Bool.false_eq_true, if_false]
      at hm
    cases hact : client.ActivateDomain req.Plan.data.DomainName.ValueString with
    | error err =>
      rw [hact] at hm
      simp only [Diagnostics.AddError_of_no_error _ _ _ hne] at hm
      rcases List.mem_append.mp hm with hm | hm
      · exact hold d hm hsev
      · rw [List.mem_singleton.mp hm] at hsum
        have hsum2 : "Client Error" = "DNS Validation Failed" := hsum
        exact absurd hsum2 (by decide)
    | ok domain =>
      rw [hact] at hm
      simp only [State.Set, Diagnostics.Append_nil] at hm
      exact hold d hm hsev

/-- C9 at the example of the claim: MX = [a, b] and DKIM = [c] give the detail
"DNS records are not valid:\nMX: a; b\nDKIM: c". -/
theorem C9_dns_validation_detail_witness :
    (DomainActivationResource.Create sampleClientWithIssues sampleActivationRequest
        sampleActivationResponse).1.Diagnostics =
      [⟨Severity.Error, "DNS Validation Failed",
        "DNS records are not valid:\nMX: a; b\nDKIM: c"⟩] ∧
    ("DNS records are not valid:\nMX: a; b\nDKIM: c" =
        specDetail { MX := ["a", "b"], SPF := [], DKIM := ["c"], DMARC := [] } ∧
      (DomainActivationResource.issues
        { MX := ["a", "b"], SPF := [], DKIM := ["c"], DMARC := [] }).length =
        nonEmptyLists { MX := ["a", "b"], SPF := [], DKIM := ["c"], DMARC := [] } ∧
      1 ≤ nonEmptyLists { MX := ["a", "b"], SPF := [], DKIM := ["c"], DMARC := [] } ∧
      nonEmptyLists { MX := ["a", "b"], SPF := [], DKIM := ["c"], DMARC := [] } ≤ 4) :=
  ⟨by decide,
    (C9_dns_validation_detail sampleClientWithIssues sampleActivationRequest
      sampleActivationResponse { MX := ["a", "b"], SPF := [], DKIM := ["c"], DMARC := [] }
      (by decide) (by decide) rfl).2
      ⟨Severity.Error, "DNS Validation Failed", "DNS records are not valid:\nMX: a; b\nDKIM: c"⟩
      (by decide) rfl rfl⟩

/-! ## Mailbox spam aggressiveness -/

theorem validateMailboxSpam_eq_none_iff (quote : String → String) (level : String) :
    validateMailboxSpam quote level = none ↔ level ∈ validMailboxSpamLevels := by
  unfold validateMailboxSpam
  split <;> simp_all

theorem MailboxResource.create_guard_passes (pm pw : basetypes.StringValue)
    (hg : ¬ (pm = basetypes.StringValue.Known "password" ∧ pw = basetypes.StringValue.Null)) :
    (decide ((if (!pm.IsNull && !pm.IsUnknown) = true then pm.ValueString else "invitation")
      = "password") && pw.IsNull) = false := by
  cases pm <;> cases pw <;>
    simp_all [basetypes.StringValue.IsNull, basetypes.StringValue.IsUnknown,
      basetypes.StringValue.ValueString]

theorem MailboxResource.update_guard_passes (pm pw : basetypes.StringValue)
    (hg : ¬ (pm = basetypes.StringValue.Known "password" ∧ pw = basetypes.StringValue.Null)) :
    (!pm.IsNull && !pm.IsUnknown && decide (pm.ValueString = "password") && pw.IsNull)
      = false := by
  cases pm <;> cases pw <;>
    simp_all [basetypes.StringValue.IsNull, basetypes.StringValue.IsUnknown,
      basetypes.StringValue.ValueString]

theorem MailboxResource.Create_invalid_spam (quote : String → String) (client : migadu.Client)
    (req : CreateRequest MailboxResourceModel) (resp : CreateResponse) (err : String)
    (h0 : resp.Diagnostics.HasError = false) (hp : req.Plan.diags.HasError = false)
    (hg : ¬ (req.Plan.data.PasswordMethod = basetypes.StringValue.Known "password" ∧
      req.Plan.data.Password = basetypes.StringValue.Null))
    (hv : validateMailboxSpam quote req.Plan.data.SpamAggressiveness.ValueString = some err) :
    MailboxResource.Create quote client req resp =
      ({ State := resp.State,
         Diagnostics := Diagnostics.Append resp.Diagnostics req.Plan.diags ++
           [⟨Severity.Error, "Invalid spam_aggressiveness", err⟩] }, []) := by
  have hne : Diagnostics.HasError (Diagnostics.Append resp.Diagnostics req.Plan.diags) = false := by
    rw [Diagnostics.HasError_Append, h0, hp]
    rfl
  simp only [MailboxResource.Create, hne, MailboxResource.create_guard_passes _ _ hg, hv,
    Bool.false_eq_true, if_false]
  rw [Diagnostics.AddError_of_no_error _ _ _ hne]

theorem MailboxResource.Update_invalid_spam (quote : String → String) (client : migadu.Client)
    (req : UpdateRequest MailboxResourceModel) (resp : UpdateResponse) (err : String)
    (h0 : resp.Diagnostics.HasError = false) (hp : req.Plan.diags.HasError = false)
    (hg : ¬ (req.Plan.data.PasswordMethod = basetypes.StringValue.Known "password" ∧
      req.Plan.data.Password = basetypes.StringValue.Null))
    (hv : validateMailboxSpam quote req.Plan.data.SpamAggressiveness.ValueString = some err) :
    MailboxResource.Update quote client req resp =
      ({ State := resp.State,
         Diagnostics := Diagnostics.Append resp.Diagnostics req.Plan.diags ++
           [⟨Severity.Error, "Invalid spam_aggressiveness", err⟩] }, []) := by
  have hne : Diagnostics.HasError (Diagnostics.Append resp.Diagnostics req.Plan.diags) = false := by
    rw [Diagnostics.HasError_Append, h0, hp]
    rfl
  simp only [MailboxResource.Update, hne, MailboxResource.update_guard_passes _ _ hg, hv,
    Bool.false_eq_true, if_false]
  rw [Diagnostics.AddError_of_no_error _ _ _ hne]

/-- C10: `validateMailboxSpam(level)` returns no error exactly when `level` is
one of the seven strings "strictest", "stricter", "strict", "default",
"permissive", "more permissive", "most permissive" (an exact match, so neither
"" nor "Default" passes); and when it returns an error, `MailboxResource.Create`
and `Update` stop with the error "Invalid spam_aggressiveness" carrying that
message, make no API call and leave the state as it was. -/
theorem C10_spam_aggressiveness_validation (quote : String → String) (level : String) :
    (validateMailboxSpam quote level = none ↔
      (level = "strictest" ∨ level = "stricter" ∨ level = "strict" ∨ level = "default" ∨
        level = "permissive" ∨ level = "more permissive" ∨ level = "most permissive")) ∧
    validateMailboxSpam quote "" ≠ none ∧
    validateMailboxSpam quote "Default" ≠ none ∧
    (∀ (client : migadu.Client) (req : CreateRequest MailboxResourceModel)
        (resp : CreateResponse) (err : String),
      resp.Diagnostics.HasError = false → req.Plan.diags.HasError = false →
      ¬ (req.Plan.data.PasswordMethod = basetypes.StringValue.Known "password" ∧
        req.Plan.data.Password = basetypes.StringValue.Null) →
      req.Plan.data.SpamAggressiveness.ValueString = level →
      validateMailboxSpam quote level = some err →
      MailboxResource.Create quote client req resp =
        ({ State := resp.State,
           Diagnostics := Diagnostics.Append resp.Diagnostics req.Plan.diags ++
             [⟨Severity.Error, "Invalid spam_aggressiveness", err⟩] }, [])) ∧
    (∀ (client : migadu.Client) (req : UpdateRequest MailboxResourceModel)
        (resp : UpdateResponse) (err : String),
      resp.Diagnostics.HasError = false → req.Plan.diags.HasError = false →
      ¬ (req.Plan.data.PasswordMethod = basetypes.StringValue.Known "password" ∧
        req.Plan.data.Password = basetypes.StringValue.Null) →
      req.Plan.data.SpamAggressiveness.ValueString = level →
      validateMailboxSpam quote level = some err →
      MailboxResource.Update quote client req resp =
        ({ State := resp.State,
           Diagnostics := Diagnostics.Append resp.Diagnostics req.Plan.diags ++
             [⟨Severity.Error, "Invalid spam_aggressiveness", err⟩] }, [])) := by
  refine ⟨?_, ?_, ?_, ?_, ?_⟩
  · rw [validateMailboxSpam_eq_none_iff]
    simp [validMailboxSpamLevels]
  · simp [validateMailboxSpam, validMailboxSpamLevels]
  · simp [validateMailboxSpam, validMailboxSpamLevels]
  · intro client req resp err h0 hp hg hl hv
    exact MailboxResource.Create_invalid_spam quote client req resp err h0 hp hg (hl ▸ hv)
  · intro client req resp err h0 hp hg hl hv
    exact MailboxResource.Update_invalid_spam quote client req resp err h0 hp hg (hl ▸ hv)

/-- C10 at a sample input: a plan with spam aggressiveness "moderate" is
rejected by `Create` before any API call. -/
theorem C10_spam_aggressiveness_validation_witness :
    MailboxResource.Create (fun s => s) sampleClientWithIssues
        { Plan := { data := sampleMailboxModel "moderate", diags := [] } }
        sampleMailboxResponse =
      ({ State := sampleMailboxResponse.State,
         Diagnostics := Diagnostics.Append sampleMailboxResponse.Diagnostics [] ++
           [⟨Severity.Error, "Invalid spam_aggressiveness",
             "invalid mailbox spam_aggressiveness moderate: must be one of strictest, " ++
             "stricter, strict, default, permissive, \"more permissive\", \"most permissive\""⟩] },
        []) :=
  (C10_spam_aggressiveness_validation (fun s => s) "moderate").2.2.2.1 sampleClientWithIssues
    { Plan := { data := sampleMailboxModel "moderate", diags := [] } } sampleMailboxResponse _
    (by decide) (by decide) (by decide) rfl (by decide)

/-! ## More facts about diagnostics -/

theorem Diagnostics.not_mem_of_no_error (diags : Diagnostics) (summary detail : String)
    (h : Diagnostics.HasError diags = false) :
    (⟨Severity.Error, summary, detail⟩ : Diagnostic) ∉ diags := by
  intro hm
  have : Diagnostics.HasError diags = true := by
    simp only [Diagnostics.HasError, List.any_eq_true]
    exact ⟨_, hm, by simp⟩
  rw [h] at this
  exact Bool.false_ne_true this

theorem Diagnostics.severity_of_no_error (diags : Diagnostics)
    (h : Diagnostics.HasError diags = false) (d : Diagnostic) (hm : d ∈ diags) :
    d.Severity ≠ Severity.Error := by
  intro he
  have : Diagnostics.HasError diags = true := by
    simp only [Diagnostics.HasError, List.any_eq_true]
    exact ⟨d, hm, by simpa using he⟩
  rw [h] at this
  exact Bool.false_ne_true this

theorem Diagnostics.Append_singleton_of_not_mem (diags : Diagnostics) (d : Diagnostic)
    (h : d ∉ diags) : Diagnostics.Append diags [d] = diags ++ [d] := by
  simp [Diagnostics.Append, h]

theorem Diagnostics.Append_singleton_of_mem (diags : Diagnostics) (d : Diagnostic)
    (h : d ∈ diags) : Diagnostics.Append diags [d] = diags := by
  simp [Diagnostics.Append, h]

theorem Diagnostics.HasError_AddError (diags : Diagnostics) (summary detail : String) :
    Diagnostics.HasError (Diagnostics.AddError diags summary detail) = true := by
  rw [Diagnostics.AddError, Diagnostics.HasError_Append]
  simp [Diagnostics.HasError]

theorem Diagnostics.no_error_of_Append (a b : Diagnostics)
    (h : Diagnostics.HasError (Diagnostics.Append a b) = false) :
    Diagnostics.HasError a = false ∧ Diagnostics.HasError b = false := by
  rw [Diagnostics.HasError_Append] at h
  cases ha : Diagnostics.HasError a <;> cases hb : Diagnostics.HasError b <;> simp_all

/-! ## Domain deletion, and update and delete of a domain activation -/

/-- C19: when the prior state decodes without error (and the incoming
diagnostics do not already carry the warning), `DomainResource.Delete` makes
no API call, ends without error, leaves the state as it was and adds exactly
one diagnostic, the warning "Domain Deletion Not Supported". -/
theorem C19_domain_delete_only_warns (client : migadu.Client)
    (req : DeleteRequest DomainResourceModel) (resp : DeleteResponse)
    (h0 : resp.Diagnostics.HasError = false) (hp : req.State.diags.HasError = false)
    (hw : ∀ d ∈ Diagnostics.Append resp.Diagnostics req.State.diags,
      d.Summary ≠ "Domain Deletion Not Supported") :
    (DomainResource.Delete client req resp).2 = [] ∧
    (DomainResource.Delete client req resp).1.Diagnostics.HasError = false ∧
    (DomainResource.Delete client req resp).1.State = resp.State ∧
    (DomainResource.Delete client req resp).1.Diagnostics =
      Diagnostics.Append resp.Diagnostics req.State.diags ++
        [⟨Severity.Warning, "Domain Deletion Not Supported",
          "The Migadu API does not support domain deletion. Remove this resource from " ++
          "state manually or contact Migadu support to delete the domain."⟩] ∧
    ((DomainResource.Delete client req resp).1.Diagnostics.filter
      (fun d => d.Summary = "Domain Deletion Not Supported")).length = 1 := by
  have hne : Diagnostics.HasError (Diagnostics.Append resp.Diagnostics req.State.diags) = false := by
    rw [Diagnostics.HasError_Append, h0, hp]
    rfl
  have hnm : (⟨Severity.Warning, "Domain Deletion Not Supported",
      "The Migadu API does not support domain deletion. Remove this resource from " ++
      "state manually or contact Migadu support to delete the domain."⟩ : Diagnostic) ∉
      Diagnostics.Append resp.Diagnostics req.State.diags := fun hm => hw _ hm rfl
  have hf : (Diagnostics.Append resp.Diagnostics req.State.diags).filter
      (fun d => d.Summary = "Domain Deletion Not Supported") = [] := by
    rw [List.filter_eq_nil_iff]
    intro d hd
    simpa using hw d hd
  have e : DomainResource.Delete client req resp =
      ({ State := resp.State,
         Diagnostics := Diagnostics.Append resp.Diagnostics req.State.diags ++
           [⟨Severity.Warning, "Domain Deletion Not Supported",
             "The Migadu API does not support domain deletion. Remove this resource from " ++
             "state manually or contact Migadu support to delete the domain."⟩] }, []) := by
    simp only [DomainResource.Delete, hne, Bool.false_eq_true, if_false,
      Diagnostics.AddWarning]
    rw [Diagnostics.Append_singleton_of_not_mem _ _ hnm]
  rw [e]
  refine ⟨rfl, ?_, rfl, rfl, ?_⟩
  · rw [Diagnostics.HasError_append_list, hne]
    simp [Diagnostics.HasError]
  · rw [List.filter_append, hf]
    simp

/-- C19 at the input of the repository's delete test: a fresh response and a
cleanly decoded state for "example.com". -/
theorem C19_domain_delete_only_warns_witness :
    (DomainResource.Delete sampleClientWithIssues
        { State := { data := sampleDomainModel, diags := [] } }
        { State := newStateForSchema DomainResource.Schema, Diagnostics := [] }).2 = [] ∧
    (DomainResource.Delete sampleClientWithIssues
        { State := { data := sampleDomainModel, diags := [] } }
        { State := newStateForSchema DomainResource.Schema,
          Diagnostics := [] }).1.Diagnostics.HasError = false :=
  have h := C19_domain_delete_only_warns sampleClientWithIssues
    { State := { data := sampleDomainModel, diags := [] } }
    { State := newStateForSchema DomainResource.Schema, Diagnostics := [] }
    (by decide) (by decide) (by decide)
  ⟨h.1, h.2.1⟩

/-- C20: `DomainActivationResource.Update` and `DomainActivationResource.Delete`
make no API call and return the response exactly as they received it, so they
add no diagnostic and do not touch the state. -/
theorem C20_activation_update_delete_do_nothing (client : migadu.Client)
    (ureq : UpdateRequest DomainActivationResourceModel) (uresp : UpdateResponse)
    (dreq : DeleteRequest DomainActivationResourceModel) (dresp : DeleteResponse) :
    (DomainActivationResource.Update client ureq uresp).2 = [] ∧
    (DomainActivationResource.Update client ureq uresp).1 = uresp ∧
    (DomainActivationResource.Delete client dreq dresp).2 = [] ∧
    (DomainActivationResource.Delete client dreq dresp).1 = dresp :=
  ⟨rfl, rfl, rfl, rfl⟩

/-! ## Mailbox password guard and password method -/

theorem MailboxResource.Create_decode_error (quote : String → String) (client : migadu.Client)
    (req : CreateRequest MailboxResourceModel) (resp : CreateResponse)
    (h : Diagnostics.HasError (Diagnostics.Append resp.Diagnostics req.Plan.diags) = true) :
    MailboxResource.Create quote client req resp =
      ({ State := resp.State,
         Diagnostics := Diagnostics.Append resp.Diagnostics req.Plan.diags }, []) := by
  simp only [MailboxResource.Create, h, if_true]

theorem MailboxResource.Create_missing_password (quote : String → String)
    (client : migadu.Client) (req : CreateRequest MailboxResourceModel) (resp : CreateResponse)
    (hne : Diagnostics.HasError (Diagnostics.Append resp.Diagnostics req.Plan.diags) = false)
    (hpm : req.Plan.data.PasswordMethod = basetypes.StringValue.Known "password")
    (hpw : req.Plan.data.Password = basetypes.StringValue.Null) :
    MailboxResource.Create quote client req resp =
      ({ State := resp.State,
         Diagnostics := Diagnostics.Append resp.Diagnostics req.Plan.diags ++
           [⟨Severity.Error, "Missing Password",
             "When password_method is 'password', the password field must be provided."⟩] },
        []) := by
  simp only [MailboxResource.Create, hne, hpm, hpw, basetypes.StringValue.IsNull,
    basetypes.StringValue.IsUnknown, basetypes.StringValue.ValueString, Bool.false_eq_true,
    if_false, Bool.not_false, Bool.and_self, if_true, decide_True]
  rw [Diagnostics.AddError_of_no_error _ _ _ hne]

theorem MailboxResource.Create_client_error (quote : String → String) (client : migadu.Client)
    (req : CreateRequest MailboxResourceModel) (resp : CreateResponse) (err : String)
    (hne : Diagnostics.HasError (Diagnostics.Append resp.Diagnostics req.Plan.diags) = false)
    (hg : ¬ (req.Plan.data.PasswordMethod = basetypes.StringValue.Known "password" ∧
      req.Plan.data.Password = basetypes.StringValue.Null))
    (hv : validateMailboxSpam quote req.Plan.data.SpamAggressiveness.ValueString = none)
    (hc : client.NewMailbox req.Plan.data.DomainName.ValueString
      (MailboxResource.requestBody req.Plan.data
        (if (!req.Plan.data.PasswordMethod.IsNull && !req.Plan.data.PasswordMethod.IsUnknown)
            = true then req.Plan.data.PasswordMethod.ValueString else "invitation"))
      = Except.error err) :
    MailboxResource.Create quote client req resp =
      ({ State := resp.State,
         Diagnostics := Diagnostics.Append resp.Diagnostics req.Plan.diags ++
           [⟨Severity.Error, "Client Error", "Unable to create mailbox, got error: " ++ err⟩] },
        [ApiCall.NewMailbox req.Plan.data.DomainName.ValueString
          (MailboxResource.requestBody req.Plan.data
            (if (!req.Plan.data.PasswordMethod.IsNull &&
                !req.Plan.data.PasswordMethod.IsUnknown) = true
              then req.Plan.data.PasswordMethod.ValueString else "invitation"))]) := by
  simp only [MailboxResource.Create, hne, MailboxResource.create_guard_passes _ _ hg, hv, hc,
    Bool.false_eq_true, if_false]
  rw [Diagnostics.AddError_of_no_error _ _ _ hne]

theorem MailboxResource.Create_success (quote : String → String) (client : migadu.Client)
    (req : CreateRequest MailboxResourceModel) (resp : CreateResponse)
    (created : migadu.Mailbox)
    (hne : Diagnostics.HasError (Diagnostics.Append resp.Diagnostics req.Plan.diags) = false)
    (hg : ¬ (req.Plan.data.PasswordMethod = basetypes.StringValue.Known "password" ∧
      req.Plan.data.Password = basetypes.StringValue.Null))
    (hv : validateMailboxSpam quote req.Plan.data.SpamAggressiveness.ValueString = none)
    (hc : client.NewMailbox req.Plan.data.DomainName.ValueString
      (MailboxResource.requestBody req.Plan.data
        (if (!req.Plan.data.PasswordMethod.IsNull && !req.Plan.data.PasswordMethod.IsUnknown)
            = true then req.Plan.data.PasswordMethod.ValueString else "invitation"))
      = Except.ok created) :
    MailboxResource.Create quote client req resp =
      ({ State :=
           { Schema := resp.State.Schema,
             Raw := some (MailboxResourceModel.toObject
               { req.Plan.data with
                 PasswordMethod := types.StringValue
                   (if (!req.Plan.data.PasswordMethod.IsNull &&
                       !req.Plan.data.PasswordMethod.IsUnknown) = true
                     then req.Plan.data.PasswordMethod.ValueString else "invitation")
                 Address := types.StringValue created.Address
                 IsInternal := types.BoolValue created.IsInternal
                 StorageUsage := types.Int64Value created.StorageUsage
                 ChangedAt := types.StringValue created.ChangedAt
                 LastLoginAt := types.StringValue created.LastLoginAt }) },
         Diagnostics := Diagnostics.Append resp.Diagnostics req.Plan.diags },
        [ApiCall.NewMailbox req.Plan.data.DomainName.ValueString
          (MailboxResource.requestBody req.Plan.data
            (if (!req.Plan.data.PasswordMethod.IsNull &&
                !req.Plan.data.PasswordMethod.IsUnknown) = true
              then req.Plan.data.PasswordMethod.ValueString else "invitation"))]) := by
  simp only [MailboxResource.Create, hne, MailboxResource.create_guard_passes _ _ hg, hv, hc,
    Bool.false_eq_true, if_false, State.Set, Diagnostics.Append_nil]

theorem MailboxResource.Create_no_missing_password (quote : String → String)
    (client : migadu.Client) (req : CreateRequest MailboxResourceModel) (resp : CreateResponse)
    (h0 : resp.Diagnostics.HasError = false) (hp : req.Plan.diags.HasError = false)
    (hg : ¬ (req.Plan.data.PasswordMethod = basetypes.StringValue.Known "password" ∧
      req.Plan.data.Password = basetypes.StringValue.Null)) :
    ∀ d ∈ (MailboxResource.Create quote client req resp).1.Diagnostics,
      d.Severity = Severity.Error → d.Summary ≠ "Missing Password" := by
  have hne : Diagnostics.HasError (Diagnostics.Append resp.Diagnostics req.Plan.diags) = false := by
    rw [Diagnostics.HasError_Append, h0, hp]
    rfl
  intro d hm hsev hsum
  cases hv : validateMailboxSpam quote req.Plan.data.SpamAggressiveness.ValueString with
  | some err =>
    rw [MailboxResource.Create_invalid_spam quote client req resp err h0 hp hg hv] at hm
    rcases List.mem_append.mp hm with hm | hm
    · exact Diagnostics.severity_of_no_error _ hne d hm hsev
    · rw [List.mem_singleton.mp hm] at hsum
      have h2 : "Invalid spam_aggressiveness" = "Missing Password" := hsum
      exact absurd h2 (by decide)
  | none =>
    cases hc : client.NewMailbox req.Plan.data.DomainName.ValueString
        (MailboxResource.requestBody req.Plan.data
          (if (!req.Plan.data.PasswordMethod.IsNull && !req.Plan.data.PasswordMethod.IsUnknown)
              = true then req.Plan.data.PasswordMethod.ValueString else "invitation")) with
    | error err =>
      rw [MailboxResource.Create_client_error quote client req resp err hne hg hv hc] at hm
      rcases List.mem_append.mp hm with hm | hm
      · exact Diagnostics.severity_of_no_error _ hne d hm hsev
      · rw [List.mem_singleton.mp hm] at hsum
        have h2 : "Client Error" = "Missing Password" := hsum
        exact absurd h2 (by decide)
    | ok created =>
      rw [MailboxResource.Create_success quote client req resp created hne hg hv hc] at hm
      exact Diagnostics.severity_of_no_error _ hne d hm hsev

/-- C11: for a create plan that decodes, with `password_method` the known value
"password": when `password` is null, `MailboxResource.Create` stops with the
error "Missing Password", makes no API call (so no `NewMailbox`) and leaves
the state as it was; when `password` is a known value, no error with summary
"Missing Password" is added. -/
theorem C11_create_requires_password (quote : String → String) (client : migadu.Client)
    (req : CreateRequest MailboxResourceModel) (resp : CreateResponse)
    (h0 : resp.Diagnostics.HasError = false) (hp : req.Plan.diags.HasError = false)
    (hpm : req.Plan.data.PasswordMethod = basetypes.StringValue.Known "password") :
    (req.Plan.data.Password = basetypes.StringValue.Null →
      MailboxResource.Create quote client req resp =
        ({ State := resp.State,
           Diagnostics := Diagnostics.Append resp.Diagnostics req.Plan.diags ++
             [⟨Severity.Error, "Missing Password",
               "When password_method is 'password', the password field must be provided."⟩] },
          [])) ∧
    (∀ p : String, req.Plan.data.Password = basetypes.StringValue.Known p →
      ∀ d ∈ (MailboxResource.Create quote client req resp).1.Diagnostics,
        d.Severity = Severity.Error → d.Summary ≠ "Missing Password") := by
  have hne : Diagnostics.HasError (Diagnostics.Append resp.Diagnostics req.Plan.diags) = false := by
    rw [Diagnostics.HasError_Append, h0, hp]
    rfl
  refine ⟨fun hpw => MailboxResource.Create_missing_password quote client req resp hne hpm hpw,
    fun p hpw => ?_⟩
  apply MailboxResource.Create_no_missing_password quote client req resp h0 hp
  rintro ⟨_, hnull⟩
  rw [hpw] at hnull
  exact basetypes.StringValue.noConfusion hnull

/-- C11 at the plan of the repository's password validation test. -/
theorem C11_create_requires_password_witness :
    MailboxResource.Create (fun s => s) sampleClientAccepting
        { Plan := { data := samplePasswordPlanModel, diags := [] } } sampleMailboxResponse =
      ({ State := sampleMailboxResponse.State,
         Diagnostics := Diagnostics.Append sampleMailboxResponse.Diagnostics [] ++
           [⟨Severity.Error, "Missing Password",
             "When password_method is 'password', the password field must be provided."⟩] },
        []) :=
  (C11_create_requires_password (fun s => s) sampleClientAccepting
    { Plan := { data := samplePasswordPlanModel, diags := [] } } sampleMailboxResponse
    (by decide) (by decide) rfl).1 rfl

theorem MailboxResource.Create_password_method (quote : String → String)
    (client : migadu.Client) (req : CreateRequest MailboxResourceModel) (resp : CreateResponse) :
    (∀ dom mb, ApiCall.NewMailbox dom mb ∈ (MailboxResource.Create quote client req resp).2 →
      mb.PasswordMethod =
        (if (!req.Plan.data.PasswordMethod.IsNull && !req.Plan.data.PasswordMethod.IsUnknown)
            = true then req.Plan.data.PasswordMethod.ValueString else "invitation")) ∧
    ((MailboxResource.Create quote client req resp).1.Diagnostics.HasError = false →
      getStateStringAttribute (MailboxResource.Create quote client req resp).1.State
        "password_method" =
        some (if (!req.Plan.data.PasswordMethod.IsNull &&
            !req.Plan.data.PasswordMethod.IsUnknown) = true
          then req.Plan.data.PasswordMethod.ValueString else "invitation")) := by
  cases hds : Diagnostics.HasError (Diagnostics.Append resp.Diagnostics req.Plan.diags) with
  | true =>
    rw [MailboxResource.Create_decode_error quote client req resp hds]
    refine ⟨fun dom mb hm => by simp at hm, fun h => ?_⟩
    rw [hds] at h
    exact absurd h (by decide)
  | false =>
    obtain ⟨h0, hp⟩ := Diagnostics.no_error_of_Append _ _ hds
    by_cases hg : req.Plan.data.PasswordMethod = basetypes.StringValue.Known "password" ∧
        req.Plan.data.Password = basetypes.StringValue.Null
    · rw [MailboxResource.Create_missing_password quote client req resp hds hg.1 hg.2]
      refine ⟨fun dom mb hm => by simp at hm, fun h => ?_⟩
      rw [Diagnostics.HasError_append_list] at h
      simp [Diagnostics.HasError] at h
    · cases hv : validateMailboxSpam quote req.Plan.data.SpamAggressiveness.ValueString with
      | some err =>
        rw [MailboxResource.Create_invalid_spam quote client req resp err h0 hp hg hv]
        refine ⟨fun dom mb hm => by simp at hm, fun h => ?_⟩
        rw [Diagnostics.HasError_append_list] at h
        simp [Diagnostics.HasError] at h
      | none =>
        cases hc : client.NewMailbox req.Plan.data.DomainName.ValueString
            (MailboxResource.requestBody req.Plan.data
              (if (!req.Plan.data.PasswordMethod.IsNull &&
                  !req.Plan.data.PasswordMethod.IsUnknown) = true
                then req.Plan.data.PasswordMethod.ValueString else "invitation")) with
        | error err =>
          rw [MailboxResource.Create_client_error quote client req resp err hds hg hv hc]
          refine ⟨fun dom mb hm => ?_, fun h => ?_⟩
          · simp only [List.mem_singleton, ApiCall.NewMailbox.injEq] at hm
            rw [hm.2]
            rfl
          · rw [Diagnostics.HasError_append_list] at h
            simp [Diagnostics.HasError] at h
        | ok created =>
          rw [MailboxResource.Create_success quote client req resp created hds hg hv hc]
          refine ⟨fun dom mb hm => ?_, fun _ => ?_⟩
          · simp only [List.mem_singleton, ApiCall.NewMailbox.injEq] at hm
            rw [hm.2]
            rfl
          · simp [getStateStringAttribute, State.GetAttribute, MailboxResourceModel.toObject,
              List.lookup, types.StringValue, basetypes.StringValue.toValue]

/-- C13: `MailboxResource.Create` defaults `password_method` to "invitation"
when the plan value is null or unknown: every `NewMailbox` call carries the
method "invitation" and, when Create ends without error, the state holds
`password_method = "invitation"`; when the plan value is a known `v`, both are
`v`. -/
theorem C13_create_password_method_default (quote : String → String) (client : migadu.Client)
    (req : CreateRequest MailboxResourceModel) (resp : CreateResponse) :
    ((req.Plan.data.PasswordMethod = basetypes.StringValue.Null ∨
        req.Plan.data.PasswordMethod = basetypes.StringValue.Unknown) →
      (∀ dom mb, ApiCall.NewMailbox dom mb ∈ (MailboxResource.Create quote client req resp).2 →
        mb.PasswordMethod = "invitation") ∧
      ((MailboxResource.Create quote client req resp).1.Diagnostics.HasError = false →
        getStateStringAttribute (MailboxResource.Create quote client req resp).1.State
          "password_method" = some "invitation")) ∧
    (∀ v : String, req.Plan.data.PasswordMethod = basetypes.StringValue.Known v →
      (∀ dom mb, ApiCall.NewMailbox dom mb ∈ (MailboxResource.Create quote client req resp).2 →
        mb.PasswordMethod = v) ∧
      ((MailboxResource.Create quote client req resp).1.Diagnostics.HasError = false →
        getStateStringAttribute (MailboxResource.Create quote client req resp).1.State
          "password_method" = some v)) := by
  have key := MailboxResource.Create_password_method quote client req resp
  refine ⟨fun h => ?_, fun v h => ?_⟩
  · rcases h with h | h <;>
      simpa [h, basetypes.StringValue.IsNull, basetypes.StringValue.IsUnknown,
        basetypes.StringValue.ValueString] using key
  · simpa [h, basetypes.StringValue.IsNull, basetypes.StringValue.IsUnknown,
      basetypes.StringValue.ValueString] using key

/-- C13 at a sample plan without password method: the mailbox is created with
method "invitation", which is also what the state records. -/
theorem C13_create_password_method_default_witness :
    (MailboxResource.Create (fun s => s) sampleClientAccepting
        { Plan := { data := sampleMailboxModel "default", diags := [] } }
        sampleMailboxResponse).2 =
      [ApiCall.NewMailbox "example.com"
        (MailboxResource.requestBody (sampleMailboxModel "default") "invitation")] ∧
    getStateStringAttribute (MailboxResource.Create (fun s => s) sampleClientAccepting
        { Plan := { data := sampleMailboxModel "default", diags := [] } }
        sampleMailboxResponse).1.State "password_method" = some "invitation" :=
  ⟨by decide,
    ((C13_create_password_method_default (fun s => s) sampleClientAccepting
      { Plan := { data := sampleMailboxModel "default", diags := [] } }
      sampleMailboxResponse).1 (Or.inr rfl)).2 (by decide)⟩

theorem MailboxResource.Update_missing_password (quote : String → String)
    (client : migadu.Client) (req : UpdateRequest MailboxResourceModel) (resp : UpdateResponse)
    (hne : Diagnostics.HasError (Diagnostics.Append resp.Diagnostics req.Plan.diags) = false)
    (hpm : req.Plan.data.PasswordMethod = basetypes.StringValue.Known "password")
    (hpw : req.Plan.data.Password = basetypes.StringValue.Null) :
    MailboxResource.Update quote client req resp =
      ({ State := resp.State,
         Diagnostics := Diagnostics.Append resp.Diagnostics req.Plan.diags ++
           [⟨Severity.Error, "Missing Password",
             "When password_method is 'password', the password field must be provided."⟩] },
        []) := by
  simp only [MailboxResource.Update, hne, hpm, hpw, basetypes.StringValue.IsNull,
    basetypes.StringValue.IsUnknown, basetypes.StringValue.ValueString, Bool.false_eq_true,
    if_false, Bool.not_false, Bool.and_self, if_true, decide_True]
  rw [Diagnostics.AddError_of_no_error _ _ _ hne]

theorem MailboxResource.Update_client_error (quote : String → String) (client : migadu.Client)
    (req : UpdateRequest MailboxResourceModel) (resp : UpdateResponse) (err : String)
    (hne : Diagnostics.HasError (Diagnostics.Append resp.Diagnostics req.Plan.diags) = false)
    (hg : ¬ (req.Plan.data.PasswordMethod = basetypes.StringValue.Known "password" ∧
      req.Plan.data.Password = basetypes.StringValue.Null))
    (hv : validateMailboxSpam quote req.Plan.data.SpamAggressiveness.ValueString = none)
    (hc : client.UpdateMailbox req.Plan.data.DomainName.ValueString
      (MailboxResource.requestBody req.Plan.data
        (if (!req.Plan.data.PasswordMethod.IsNull && !req.Plan.data.PasswordMethod.IsUnknown)
            = true then req.Plan.data.PasswordMethod.ValueString else ""))
      = Except.error err) :
    MailboxResource.Update quote client req resp =
      ({ State := resp.State,
         Diagnostics := Diagnostics.Append resp.Diagnostics req.Plan.diags ++
           [⟨Severity.Error, "Client Error", "Unable to update mailbox, got error: " ++ err⟩] },
        [ApiCall.UpdateMailbox req.Plan.data.DomainName.ValueString
          (MailboxResource.requestBody req.Plan.data
            (if (!req.Plan.data.PasswordMethod.IsNull &&
                !req.Plan.data.PasswordMethod.IsUnknown) = true
              then req.Plan.data.PasswordMethod.ValueString else ""))]) := by
  simp only [MailboxResource.Update, hne, MailboxResource.update_guard_passes _ _ hg, hv, hc,
    Bool.false_eq_true, if_false]
  rw [Diagnostics.AddError_of_no_error _ _ _ hne]

theorem MailboxResource.Update_success (quote : String → String) (client : migadu.Client)
    (req : UpdateRequest MailboxResourceModel) (resp : UpdateResponse)
    (updated : migadu.Mailbox)
    (hne : Diagnostics.HasError (Diagnostics.Append resp.Diagnostics req.Plan.diags) = false)
    (hg : ¬ (req.Plan.data.PasswordMethod = basetypes.StringValue.Known "password" ∧
      req.Plan.data.Password = basetypes.StringValue.Null))
    (hv : validateMailboxSpam quote req.Plan.data.SpamAggressiveness.ValueString = none)
    (hc : client.UpdateMailbox req.Plan.data.DomainName.ValueString
      (MailboxResource.requestBody req.Plan.data
        (if (!req.Plan.data.PasswordMethod.IsNull && !req.Plan.data.PasswordMethod.IsUnknown)
            = true then req.Plan.data.PasswordMethod.ValueString else ""))
      = Except.ok updated) :
    MailboxResource.Update quote client req resp =
      ({ State :=
           { Schema := resp.State.Schema,
             Raw := some (MailboxResourceModel.toObject
               { req.Plan.data with
                 Address := types.StringValue updated.Address
                 IsInternal := types.BoolValue updated.IsInternal
                 StorageUsage := types.Int64Value updated.StorageUsage }) },
         Diagnostics := Diagnostics.Append resp.Diagnostics req.Plan.diags },
        [ApiCall.UpdateMailbox req.Plan.data.DomainName.ValueString
          (MailboxResource.requestBody req.Plan.data
            (if (!req.Plan.data.PasswordMethod.IsNull &&
                !req.Plan.data.PasswordMethod.IsUnknown) = true
              then req.Plan.data.PasswordMethod.ValueString else ""))]) := by
  simp only [MailboxResource.Update, hne, MailboxResource.update_guard_passes _ _ hg, hv, hc,
    Bool.false_eq_true, if_false, State.Set, Diagnostics.Append_nil]

theorem MailboxResource.Update_method_not_set (quote : String → String)
    (client : migadu.Client) (req : UpdateRequest MailboxResourceModel) (resp : UpdateResponse)
    (h0 : resp.Diagnostics.HasError = false) (hp : req.Plan.diags.HasError = false)
    (hpm : (!req.Plan.data.PasswordMethod.IsNull && !req.Plan.data.PasswordMethod.IsUnknown)
      = false) :
    (∀ d ∈ (MailboxResource.Update quote client req resp).1.Diagnostics,
      d.Severity = Severity.Error → d.Summary ≠ "Missing Password") ∧
    (∀ dom mb, ApiCall.UpdateMailbox dom mb ∈ (MailboxResource.Update quote client req resp).2 →
      mb.PasswordMethod = "") ∧
    (validateMailboxSpam quote req.Plan.data.SpamAggressiveness.ValueString = none →
      (MailboxResource.Update quote client req resp).2 =
        [ApiCall.UpdateMailbox req.Plan.data.DomainName.ValueString
          (MailboxResource.requestBody req.Plan.data "")]) := by
  have hne : Diagnostics.HasError (Diagnostics.Append resp.Diagnostics req.Plan.diags) = false := by
    rw [Diagnostics.HasError_Append, h0, hp]
    rfl
  have hg : ¬ (req.Plan.data.PasswordMethod = basetypes.StringValue.Known "password" ∧
      req.Plan.data.Password = basetypes.StringValue.Null) := by
    rintro ⟨h, _⟩
    rw [h] at hpm
    exact absurd hpm (by decide)
  cases hv : validateMailboxSpam quote req.Plan.data.SpamAggressiveness.ValueString with
  | some err =>
    rw [MailboxResource.Update_invalid_spam quote client req resp err h0 hp hg hv]
    refine ⟨fun d hm hsev hsum => ?_, fun dom mb hm => by simp at hm,
      fun h => Option.noConfusion h⟩
    rcases List.mem_append.mp hm with hm | hm
    · exact Diagnostics.severity_of_no_error _ hne d hm hsev
    · rw [List.mem_singleton.mp hm] at hsum
      have h2 : "Invalid spam_aggressiveness" = "Missing Password" := hsum
      exact absurd h2 (by decide)
  | none =>
    cases hc : client.UpdateMailbox req.Plan.data.DomainName.ValueString
        (MailboxResource.requestBody req.Plan.data
          (if (!req.Plan.data.PasswordMethod.IsNull && !req.Plan.data.PasswordMethod.IsUnknown)
              = true then req.Plan.data.PasswordMethod.ValueString else "")) with
    | error err =>
      rw [MailboxResource.Update_client_error quote client req resp err hne hg hv hc]
      simp only [hpm, Bool.false_eq_true, if_false]
      refine ⟨fun d hm hsev hsum => ?_, fun dom mb hm => ?_, fun _ => trivial⟩
      · rcases List.mem_append.mp hm with hm | hm
        · exact Diagnostics.severity_of_no_error _ hne d hm hsev
        · rw [List.mem_singleton.mp hm] at hsum
          have h2 : "Client Error" = "Missing Password" := hsum
          exact absurd h2 (by decide)
      · simp only [List.mem_singleton, ApiCall.UpdateMailbox.injEq] at hm
        rw [hm.2]
        rfl
    | ok updated =>
      rw [MailboxResource.Update_success quote client req resp updated hne hg hv hc]
      simp only [hpm, Bool.false_eq_true, if_false]
      refine ⟨fun d hm hsev _ => Diagnostics.severity_of_no_error _ hne d hm hsev,
        fun dom mb hm => ?_, fun _ => trivial⟩
      simp only [List.mem_singleton, ApiCall.UpdateMailbox.injEq] at hm
      rw [hm.2]
      rfl

/-- C12: for an update plan that decodes: when `password_method` is the known
value "password" and `password` is null, `MailboxResource.Update` stops with
the error "Missing Password", makes no API call (so no `UpdateMailbox`) and
leaves the state as it was; when `password_method` is null or unknown the
guard is skipped (no "Missing Password" error, whatever the password) and the
request sent to `UpdateMailbox` carries no password method. -/
theorem C12_update_password_guard (quote : String → String) (client : migadu.Client)
    (req : UpdateRequest MailboxResourceModel) (resp : UpdateResponse)
    (h0 : resp.Diagnostics.HasError = false) (hp : req.Plan.diags.HasError = false) :
    (req.Plan.data.PasswordMethod = basetypes.StringValue.Known "password" →
      req.Plan.data.Password = basetypes.StringValue.Null →
      MailboxResource.Update quote client req resp =
        ({ State := resp.State,
           Diagnostics := Diagnostics.Append resp.Diagnostics req.Plan.diags ++
             [⟨Severity.Error, "Missing Password",
               "When password_method is 'password', the password field must be provided."⟩] },
          [])) ∧
    ((req.Plan.data.PasswordMethod = basetypes.StringValue.Null ∨
        req.Plan.data.PasswordMethod = basetypes.StringValue.Unknown) →
      (∀ d ∈ (MailboxResource.Update quote client req resp).1.Diagnostics,
        d.Severity = Severity.Error → d.Summary ≠ "Missing Password") ∧
      (∀ dom mb,
        ApiCall.UpdateMailbox dom mb ∈ (MailboxResource.Update quote client req resp).2 →
        mb.PasswordMethod = "") ∧
      (validateMailboxSpam quote req.Plan.data.SpamAggressiveness.ValueString = none →
        (MailboxResource.Update quote client req resp).2 =
          [ApiCall.UpdateMailbox req.Plan.data.DomainName.ValueString
            (MailboxResource.requestBody req.Plan.data "")])) := by
  have hne : Diagnostics.HasError (Diagnostics.Append resp.Diagnostics req.Plan.diags) = false := by
    rw [Diagnostics.HasError_Append, h0, hp]
    rfl
  refine ⟨fun hpm hpw =>
    MailboxResource.Update_missing_password quote client req resp hne hpm hpw, fun h => ?_⟩
  apply MailboxResource.Update_method_not_set quote client req resp h0 hp
  rcases h with h | h <;> rw [h] <;> rfl

/-- C12 at the plan of the repository's password validation test, and at a
plan without password method, whose update request carries no method. -/
theorem C12_update_password_guard_witness :
    MailboxResource.Update (fun s => s) sampleClientAccepting
        { Plan := { data := samplePasswordPlanModel, diags := [] } }
        sampleMailboxUpdateResponse =
      ({ State := sampleMailboxUpdateResponse.State,
         Diagnostics := Diagnostics.Append sampleMailboxUpdateResponse.Diagnostics [] ++
           [⟨Severity.Error, "Missing Password",
             "When password_method is 'password', the password field must be provided."⟩] },
        []) ∧
    (MailboxResource.Update (fun s => s) sampleClientAccepting
        { Plan := { data := sampleMailboxModel "default", diags := [] } }
        sampleMailboxUpdateResponse).2 =
      [ApiCall.UpdateMailbox "example.com"
        (MailboxResource.requestBody (sampleMailboxModel "default") "")] :=
  ⟨(C12_update_password_guard (fun s => s) sampleClientAccepting
      { Plan := { data := samplePasswordPlanModel, diags := [] } } sampleMailboxUpdateResponse
      (by decide) (by decide)).1 rfl rfl,
    ((C12_update_password_guard (fun s => s) sampleClientAccepting
      { Plan := { data := sampleMailboxModel "default", diags := [] } }
      sampleMailboxUpdateResponse (by decide) (by decide)).2 (Or.inr rfl)).2.2 (by decide)⟩

/-! ## Method "invitation": no local check -/

/-- C14, the claim refuted: with method "invitation" and an empty
recovery email, or with method "invitation" and a password set,
`MailboxResource.Create` adds no error and calls `NewMailbox`, sending the
empty recovery email or the password; with an accepting API the mailbox is
created and the state written, and with a rejecting API the call is made all
the same. -/
theorem C14_invitation_plan_reaches_api :
    (MailboxResource.Create (fun s => s) sampleClientAccepting
        { Plan := { data := sampleInvitationNoRecovery, diags := [] } }
        sampleMailboxResponse).1.Diagnostics = [] ∧
    (MailboxResource.Create (fun s => s) sampleClientAccepting
        { Plan := { data := sampleInvitationNoRecovery, diags := [] } }
        sampleMailboxResponse).2 =
      [ApiCall.NewMailbox "example.com"
        (MailboxResource.requestBody sampleInvitationNoRecovery "invitation")] ∧
    (MailboxResource.requestBody sampleInvitationNoRecovery "invitation").PasswordRecoveryEmail
      = "" ∧
    getStateStringAttribute (MailboxResource.Create (fun s => s) sampleClientAccepting
        { Plan := { data := sampleInvitationNoRecovery, diags := [] } }
        sampleMailboxResponse).1.State "address" = some "admin@example.com" ∧
    (MailboxResource.Create (fun s => s) sampleClientAccepting
        { Plan := { data := sampleInvitationWithPassword, diags := [] } }
        sampleMailboxResponse).1.Diagnostics = [] ∧
    (MailboxResource.Create (fun s => s) sampleClientAccepting
        { Plan := { data := sampleInvitationWithPassword, diags := [] } }
        sampleMailboxResponse).2 =
      [ApiCall.NewMailbox "example.com"
        (MailboxResource.requestBody sampleInvitationWithPassword "invitation")] ∧
    (MailboxResource.requestBody sampleInvitationWithPassword "invitation").Password
      = "secret" ∧
    (MailboxResource.Create (fun s => s) sampleClientWithIssues
        { Plan := { data := sampleInvitationNoRecovery, diags := [] } }
        sampleMailboxResponse).2 =
      [ApiCall.NewMailbox "example.com"
        (MailboxResource.requestBody sampleInvitationNoRecovery "invitation")] := by
  decide

/-- C14 as amended: `MailboxResource.Create` makes no check of its own for method
"invitation".  For a plan that decodes without error, whose method is unset or
"invitation" and whose spam aggressiveness is valid, it calls `NewMailbox`
exactly once with method "invitation", the planned recovery email (empty
included) and the planned password; when the call succeeds no diagnostic is
added and the state is written, and when it fails the one error added is
"Client Error" and the state is left as it was. -/
theorem C14_invitation_create_calls_api (quote : String → String) (client : migadu.Client)
    (req : CreateRequest MailboxResourceModel) (resp : CreateResponse)
    (h0 : resp.Diagnostics.HasError = false) (hp : req.Plan.diags.HasError = false)
    (hm : req.Plan.data.PasswordMethod = basetypes.StringValue.Null ∨
      req.Plan.data.PasswordMethod = basetypes.StringValue.Unknown ∨
      req.Plan.data.PasswordMethod = basetypes.StringValue.Known "invitation")
    (hv : validateMailboxSpam quote req.Plan.data.SpamAggressiveness.ValueString = none) :
    (MailboxResource.Create quote client req resp).2 =
      [ApiCall.NewMailbox req.Plan.data.DomainName.ValueString
        (MailboxResource.requestBody req.Plan.data "invitation")] ∧
    (MailboxResource.requestBody req.Plan.data "invitation").PasswordMethod = "invitation" ∧
    (MailboxResource.requestBody req.Plan.data "invitation").PasswordRecoveryEmail =
      req.Plan.data.PasswordRecoveryEmail.ValueString ∧
    (MailboxResource.requestBody req.Plan.data "invitation").Password =
      req.Plan.data.Password.ValueString ∧
    (∀ created : migadu.Mailbox,
      client.NewMailbox req.Plan.data.DomainName.ValueString
          (MailboxResource.requestBody req.Plan.data "invitation") = Except.ok created →
        (MailboxResource.Create quote client req resp).1.Diagnostics =
          Diagnostics.Append resp.Diagnostics req.Plan.diags ∧
        (MailboxResource.Create quote client req resp).1.Diagnostics.HasError = false ∧
        (MailboxResource.Create quote client req resp).1.State.Raw =
          some (MailboxResourceModel.toObject
            { req.Plan.data with
              PasswordMethod := types.StringValue "invitation"
              Address := types.StringValue created.Address
              IsInternal := types.BoolValue created.IsInternal
              StorageUsage := types.Int64Value created.StorageUsage
              ChangedAt := types.StringValue created.ChangedAt
              LastLoginAt := types.StringValue created.LastLoginAt })) ∧
    (∀ err : String,
      client.NewMailbox req.Plan.data.DomainName.ValueString
          (MailboxResource.requestBody req.Plan.data "invitation") = Except.error err →
        (MailboxResource.Create quote client req resp).1 =
          { State := resp.State,
            Diagnostics := Diagnostics.Append resp.Diagnostics req.Plan.diags ++
              [⟨Severity.Error, "Client Error",
                "Unable to create mailbox, got error: " ++ err⟩] }) := by
  have hne : Diagnostics.HasError (Diagnostics.Append resp.Diagnostics req.Plan.diags) = false := by
    rw [Diagnostics.HasError_Append, h0, hp]; rfl
  have hg : ¬ (req.Plan.data.PasswordMethod = basetypes.StringValue.Known "password" ∧
      req.Plan.data.Password = basetypes.StringValue.Null) := by
    rintro ⟨h1, _⟩
    rcases hm with h | h | h
    · rw [h] at h1; exact basetypes.StringValue.noConfusion h1
    · rw [h] at h1; exact basetypes.StringValue.noConfusion h1
    · rw [h] at h1
      have h2 : "invitation" = "password" := basetypes.StringValue.Known.inj h1
      exact absurd h2 (by decide)
  have hm2 : (if (!req.Plan.data.PasswordMethod.IsNull &&
      !req.Plan.data.PasswordMethod.IsUnknown) = true
      then req.Plan.data.PasswordMethod.ValueString else "invitation") = "invitation" := by
    rcases hm with h | h | h <;> rw [h] <;> rfl
  have hpw : (MailboxResource.requestBody req.Plan.data "invitation").Password =
      req.Plan.data.Password.ValueString := by
    unfold MailboxResource.requestBody
    cases req.Plan.data.Password <;> rfl
  have htrace : (MailboxResource.Create quote client req resp).2 =
      [ApiCall.NewMailbox req.Plan.data.DomainName.ValueString
        (MailboxResource.requestBody req.Plan.data "invitation")] := by
    cases hc : client.NewMailbox req.Plan.data.DomainName.ValueString
        (MailboxResource.requestBody req.Plan.data "invitation") with
    | error err =>
      rw [← hm2] at hc
      rw [MailboxResource.Create_client_error quote client req resp err hne hg hv hc, hm2]
    | ok created =>
      rw [← hm2] at hc
      rw [MailboxResource.Create_success quote client req resp created hne hg hv hc, hm2]
  refine ⟨htrace, rfl, rfl, hpw, fun created hc => ?_, fun err hc => ?_⟩
  · rw [← hm2] at hc
    rw [MailboxResource.Create_success quote client req resp created hne hg hv hc]
    refine ⟨rfl, hne, ?_⟩
    simp only [hm2]
  · rw [← hm2] at hc
    rw [MailboxResource.Create_client_error quote client req resp err hne hg hv hc]

/-- C14 as amended at the plan with method unset and an empty recovery email,
with an API that accepts the mailbox. -/
theorem C14_invitation_create_calls_api_witness :
    sampleMailboxResponse.Diagnostics.HasError = false ∧
    Diagnostics.HasError ([] : Diagnostics) = false ∧
    sampleInvitationNoRecovery.PasswordMethod = basetypes.StringValue.Unknown ∧
    validateMailboxSpam (fun s => s) sampleInvitationNoRecovery.SpamAggressiveness.ValueString
      = none ∧
    (MailboxResource.Create (fun s => s) sampleClientAccepting
        { Plan := { data := sampleInvitationNoRecovery, diags := [] } }
        sampleMailboxResponse).2 =
      [ApiCall.NewMailbox "example.com"
        (MailboxResource.requestBody sampleInvitationNoRecovery "invitation")] ∧
    (MailboxResource.requestBody sampleInvitationNoRecovery "invitation").PasswordRecoveryEmail
      = "" :=
  ⟨by decide, by decide, rfl, by decide,
    (C14_invitation_create_calls_api (fun s => s) sampleClientAccepting
      { Plan := { data := sampleInvitationNoRecovery, diags := [] } } sampleMailboxResponse
      (by decide) (by decide) (Or.inr (Or.inl rfl)) (by decide)).1,
    (C14_invitation_create_calls_api (fun s => s) sampleClientAccepting
      { Plan := { data := sampleInvitationNoRecovery, diags := [] } } sampleMailboxResponse
      (by decide) (by decide) (Or.inr (Or.inl rfl)) (by decide)).2.2.1⟩

/-! ## Provider configuration -/

theorem MigaduProvider.Configure_decode_error (getenv : String → String)
    (migaduNew : String → String → Except String migadu.Client)
    (req : ConfigureRequest) (resp : ConfigureResponse)
    (h : Diagnostics.HasError (Diagnostics.Append resp.Diagnostics req.Config.diags) = true) :
    MigaduProvider.Configure getenv migaduNew req resp =
      ({ resp with Diagnostics := Diagnostics.Append resp.Diagnostics req.Config.diags }, []) := by
  simp only [MigaduProvider.Configure, h, if_true]

theorem MigaduProvider.Configure_unknown (getenv : String → String)
    (migaduNew : String → String → Except String migadu.Client)
    (req : ConfigureRequest) (resp : ConfigureResponse)
    (hne : Diagnostics.HasError (Diagnostics.Append resp.Diagnostics req.Config.diags) = false)
    (hunk : req.Config.data.Username.IsUnknown = true ∨
      req.Config.data.APIKey.IsUnknown = true) :
    MigaduProvider.Configure getenv migaduNew req resp =
      ({ resp with
          Diagnostics := Diagnostics.Append resp.Diagnostics req.Config.diags ++
            (if req.Config.data.Username.IsUnknown = true then
              [⟨Severity.Error, "Unknown Migadu Username",
                MigaduProvider.unknownUsernameDetail⟩] else []) ++
            (if req.Config.data.APIKey.IsUnknown = true then
              [⟨Severity.Error, "Unknown Migadu API Key",
                MigaduProvider.unknownAPIKeyDetail⟩] else []) }, []) := by
  have e1 := Diagnostics.AddError_of_no_error _ "Unknown Migadu Username"
    MigaduProvider.unknownUsernameDetail hne
  have e2 := Diagnostics.AddError_of_no_error _ "Unknown Migadu API Key"
    MigaduProvider.unknownAPIKeyDetail hne
  have hnm : (⟨Severity.Error, "Unknown Migadu API Key",
      MigaduProvider.unknownAPIKeyDetail⟩ : Diagnostic) ∉
      Diagnostics.Append resp.Diagnostics req.Config.diags ++
        [⟨Severity.Error, "Unknown Migadu Username", MigaduProvider.unknownUsernameDetail⟩] := by
    intro hm
    rcases List.mem_append.mp hm with hm | hm
    · exact Diagnostics.not_mem_of_no_error _ _ _ hne hm
    · exact absurd (List.mem_singleton.mp hm) (by decide)
  have e3 : Diagnostics.AddError (Diagnostics.Append resp.Diagnostics req.Config.diags ++
        [⟨Severity.Error, "Unknown Migadu Username", MigaduProvider.unknownUsernameDetail⟩])
        "Unknown Migadu API Key" MigaduProvider.unknownAPIKeyDetail =
      Diagnostics.Append resp.Diagnostics req.Config.diags ++
        [⟨Severity.Error, "Unknown Migadu Username", MigaduProvider.unknownUsernameDetail⟩] ++
        [⟨Severity.Error, "Unknown Migadu API Key", MigaduProvider.unknownAPIKeyDetail⟩] :=
    Diagnostics.Append_singleton_of_not_mem _ _ hnm
  have hall : ∀ x ∈ Diagnostics.Append resp.Diagnostics req.Config.diags,
      ¬ x.Severity = Severity.Error :=
    fun x hx => Diagnostics.severity_of_no_error _ hne x hx
  cases hu : req.Config.data.Username.IsUnknown <;>
    cases hk : req.Config.data.APIKey.IsUnknown
  · rw [hu, hk] at hunk
    simp at hunk
  · simp [MigaduProvider.Configure, hne, hu, hk, e2, Diagnostics.HasError_append_list,
      Diagnostics.HasError]
    exact hall
  · simp [MigaduProvider.Configure, hne, hu, hk, e1, Diagnostics.HasError_append_list,
      Diagnostics.HasError]
    exact hall
  · simp [MigaduProvider.Configure, hne, hu, hk, e1, e3, Diagnostics.HasError_append_list,
      Diagnostics.HasError]
    exact hall

theorem MigaduProvider.Configure_missing (getenv : String → String)
    (migaduNew : String → String → Except String migadu.Client)
    (req : ConfigureRequest) (resp : ConfigureResponse)
    (hne : Diagnostics.HasError (Diagnostics.Append resp.Diagnostics req.Config.diags) = false)
    (hu : req.Config.data.Username.IsUnknown = false)
    (hk : req.Config.data.APIKey.IsUnknown = false)
    (hmiss : effectiveCredential getenv req.Config.data.Username "MIGADU_USERNAME" = "" ∨
      effectiveCredential getenv req.Config.data.APIKey "MIGADU_API_KEY" = "") :
    MigaduProvider.Configure getenv migaduNew req resp =
      ({ resp with
          Diagnostics := Diagnostics.Append resp.Diagnostics req.Config.diags ++
            (if effectiveCredential getenv req.Config.data.Username "MIGADU_USERNAME" = "" then
              [⟨Severity.Error, "Missing Migadu Username",
                MigaduProvider.missingUsernameDetail⟩] else []) ++
            (if effectiveCredential getenv req.Config.data.APIKey "MIGADU_API_KEY" = "" then
              [⟨Severity.Error, "Missing Migadu API Key",
                MigaduProvider.missingAPIKeyDetail⟩] else []) },
        (if req.Config.data.Username.ValueString = "" then
          [ProviderCall.Getenv "MIGADU_USERNAME"] else []) ++
        (if req.Config.data.APIKey.ValueString = "" then
          [ProviderCall.Getenv "MIGADU_API_KEY"] else [])) := by
  have e1 := Diagnostics.AddError_of_no_error _ "Missing Migadu Username"
    MigaduProvider.missingUsernameDetail hne
  have e2 := Diagnostics.AddError_of_no_error _ "Missing Migadu API Key"
    MigaduProvider.missingAPIKeyDetail hne
  have hnm : (⟨Severity.Error, "Missing Migadu API Key",
      MigaduProvider.missingAPIKeyDetail⟩ : Diagnostic) ∉
      Diagnostics.Append resp.Diagnostics req.Config.diags ++
        [⟨Severity.Error, "Missing Migadu Username", MigaduProvider.missingUsernameDetail⟩] := by
    intro hm
    rcases List.mem_append.mp hm with hm | hm
    · exact Diagnostics.not_mem_of_no_error _ _ _ hne hm
    · exact absurd (List.mem_singleton.mp hm) (by decide)
  have e3 : Diagnostics.AddError (Diagnostics.Append resp.Diagnostics req.Config.diags ++
        [⟨Severity.Error, "Missing Migadu Username", MigaduProvider.missingUsernameDetail⟩])
        "Missing Migadu API Key" MigaduProvider.missingAPIKeyDetail =
      Diagnostics.Append resp.Diagnostics req.Config.diags ++
        [⟨Severity.Error, "Missing Migadu Username", MigaduProvider.missingUsernameDetail⟩] ++
        [⟨Severity.Error, "Missing Migadu API Key", MigaduProvider.missingAPIKeyDetail⟩] :=
    Diagnostics.Append_singleton_of_not_mem _ _ hnm
  have hall : ∀ x ∈ Diagnostics.Append resp.Diagnostics req.Config.diags,
      ¬ x.Severity = Severity.Error :=
    fun x hx => Diagnostics.severity_of_no_error _ hne x hx
  have hex : ¬ ∃ x ∈ Diagnostics.Append resp.Diagnostics req.Config.diags,
      x.Severity = Severity.Error := fun ⟨x, hx, he⟩ => hall x hx he
  unfold effectiveCredential at hmiss ⊢
  by_cases hu0 : (if req.Config.data.Username.ValueString = "" then getenv "MIGADU_USERNAME"
      else req.Config.data.Username.ValueString) = "" <;>
    by_cases hk0 : (if req.Config.data.APIKey.ValueString = "" then getenv "MIGADU_API_KEY"
      else req.Config.data.APIKey.ValueString) = ""
  · simp [MigaduProvider.Configure, hu, hk, hu0, hk0, e1, e3,
      Diagnostics.HasError_append_list, Diagnostics.HasError, hex]
  · simp [MigaduProvider.Configure, hu, hk, hu0, hk0, e1,
      Diagnostics.HasError_append_list, Diagnostics.HasError, hex]
  · simp [MigaduProvider.Configure, hu, hk, hu0, hk0, e2,
      Diagnostics.HasError_append_list, Diagnostics.HasError, hex]
  · rcases hmiss with h | h
    · exact absurd h hu0
    · exact absurd h hk0

theorem MigaduProvider.Configure_new_error (getenv : String → String)
    (migaduNew : String → String → Except String migadu.Client)
    (req : ConfigureRequest) (resp : ConfigureResponse) (err : String)
    (hne : Diagnostics.HasError (Diagnostics.Append resp.Diagnostics req.Config.diags) = false)
    (hu : req.Config.data.Username.IsUnknown = false)
    (hk : req.Config.data.APIKey.IsUnknown = false)
    (hu0 : effectiveCredential getenv req.Config.data.Username "MIGADU_USERNAME" ≠ "")
    (hk0 : effectiveCredential getenv req.Config.data.APIKey "MIGADU_API_KEY" ≠ "")
    (hc : migaduNew (effectiveCredential getenv req.Config.data.Username "MIGADU_USERNAME")
      (effectiveCredential getenv req.Config.data.APIKey "MIGADU_API_KEY") = Except.error err) :
    MigaduProvider.Configure getenv migaduNew req resp =
      ({ resp with
          Diagnostics := Diagnostics.Append resp.Diagnostics req.Config.diags ++
            [⟨Severity.Error, "Unable to Create Migadu API Client",
              "An unexpected error occurred when creating the Migadu API client. " ++
              "If the error is not clear, please contact the provider developers.\n\n" ++
              "Migadu Client Error: " ++ err⟩] },
        (if req.Config.data.Username.ValueString = "" then
          [ProviderCall.Getenv "MIGADU_USERNAME"] else []) ++
        (if req.Config.data.APIKey.ValueString = "" then
          [ProviderCall.Getenv "MIGADU_API_KEY"] else []) ++
        [ProviderCall.New
          (effectiveCredential getenv req.Config.data.Username "MIGADU_USERNAME")
          (effectiveCredential getenv req.Config.data.APIKey "MIGADU_API_KEY")]) := by
  have hall : ∀ x ∈ Diagnostics.Append resp.Diagnostics req.Config.diags,
      ¬ x.Severity = Severity.Error :=
    fun x hx => Diagnostics.severity_of_no_error _ hne x hx
  unfold effectiveCredential at hu0 hk0 hc ⊢
  simp only [MigaduProvider.Configure, hne, hu, hk, hu0, hk0, hc, Bool.false_eq_true, if_false]
  rw [Diagnostics.AddError_of_no_error _ _ _ hne]

theorem MigaduProvider.Configure_success (getenv : String → String)
    (migaduNew : String → String → Except String migadu.Client)
    (req : ConfigureRequest) (resp : ConfigureResponse) (client : migadu.Client)
    (hne : Diagnostics.HasError (Diagnostics.Append resp.Diagnostics req.Config.diags) = false)
    (hu : req.Config.data.Username.IsUnknown = false)
    (hk : req.Config.data.APIKey.IsUnknown = false)
    (hu0 : effectiveCredential getenv req.Config.data.Username "MIGADU_USERNAME" ≠ "")
    (hk0 : effectiveCredential getenv req.Config.data.APIKey "MIGADU_API_KEY" ≠ "")
    (hc : migaduNew (effectiveCredential getenv req.Config.data.Username "MIGADU_USERNAME")
      (effectiveCredential getenv req.Config.data.APIKey "MIGADU_API_KEY") = Except.ok client) :
    MigaduProvider.Configure getenv migaduNew req resp =
      ({ Diagnostics := Diagnostics.Append resp.Diagnostics req.Config.diags,
         DataSourceData := some client, ResourceData := some client },
        (if req.Config.data.Username.ValueString = "" then
          [ProviderCall.Getenv "MIGADU_USERNAME"] else []) ++
        (if req.Config.data.APIKey.ValueString = "" then
          [ProviderCall.Getenv "MIGADU_API_KEY"] else []) ++
        [ProviderCall.New
          (effectiveCredential getenv req.Config.data.Username "MIGADU_USERNAME")
          (effectiveCredential getenv req.Config.data.APIKey "MIGADU_API_KEY")]) := by
  unfold effectiveCredential at hu0 hk0 hc ⊢
  simp only [MigaduProvider.Configure, hne, hu, hk, hu0, hk0, hc, Bool.false_eq_true, if_false]

theorem basetypes.StringValue.IsUnknown_eq_false (v : basetypes.StringValue)
    (h : v ≠ basetypes.StringValue.Unknown) : v.IsUnknown = false := by
  cases v <;> simp_all [basetypes.StringValue.IsUnknown]

theorem basetypes.StringValue.IsUnknown_eq_true (v : basetypes.StringValue)
    (h : v = basetypes.StringValue.Unknown) : v.IsUnknown = true := by
  rw [h]
  rfl

theorem effectiveCredential_eq_empty_iff (getenv : String → String)
    (v : basetypes.StringValue) (name : String) (h : v ≠ basetypes.StringValue.Unknown) :
    effectiveCredential getenv v name = "" ↔
      ((v = basetypes.StringValue.Null ∨ v = basetypes.StringValue.Known "") ∧
        getenv name = "") := by
  cases v with
  | Null => simp [effectiveCredential, basetypes.StringValue.ValueString]
  | Unknown => exact absurd rfl h
  | Known s =>
    by_cases hs : s = ""
    · simp [effectiveCredential, basetypes.StringValue.ValueString, hs]
    · simp [effectiveCredential, basetypes.StringValue.ValueString, hs]

/-- C15: when the configuration decodes and neither value is unknown,
`MigaduProvider.Configure` adds the error "Missing Migadu Username" exactly
when the configured username is null or empty and MIGADU_USERNAME is empty,
and the error "Missing Migadu API Key" exactly when the configured api_key is
null or empty and MIGADU_API_KEY is empty; when both credentials are missing
both errors are added, in that order. -/
theorem C15_missing_credentials (getenv : String → String)
    (migaduNew : String → String → Except String migadu.Client)
    (req : ConfigureRequest) (resp : ConfigureResponse)
    (h0 : resp.Diagnostics.HasError = false) (hp : req.Config.diags.HasError = false)
    (hu : req.Config.data.Username ≠ basetypes.StringValue.Unknown)
    (hk : req.Config.data.APIKey ≠ basetypes.StringValue.Unknown) :
    ((∃ d ∈ (MigaduProvider.Configure getenv migaduNew req resp).1.Diagnostics,
        d.Severity = Severity.Error ∧ d.Summary = "Missing Migadu Username") ↔
      ((req.Config.data.Username = basetypes.StringValue.Null ∨
          req.Config.data.Username = basetypes.StringValue.Known "") ∧
        getenv "MIGADU_USERNAME" = "")) ∧
    ((∃ d ∈ (MigaduProvider.Configure getenv migaduNew req resp).1.Diagnostics,
        d.Severity = Severity.Error ∧ d.Summary = "Missing Migadu API Key") ↔
      ((req.Config.data.APIKey = basetypes.StringValue.Null ∨
          req.Config.data.APIKey = basetypes.StringValue.Known "") ∧
        getenv "MIGADU_API_KEY" = "")) ∧
    (((req.Config.data.Username = basetypes.StringValue.Null ∨
          req.Config.data.Username = basetypes.StringValue.Known "") ∧
        getenv "MIGADU_USERNAME" = "") →
      ((req.Config.data.APIKey = basetypes.StringValue.Null ∨
          req.Config.data.APIKey = basetypes.StringValue.Known "") ∧
        getenv "MIGADU_API_KEY" = "") →
      (MigaduProvider.Configure getenv migaduNew req resp).1.Diagnostics =
        Diagnostics.Append resp.Diagnostics req.Config.diags ++
          [⟨Severity.Error, "Missing Migadu Username", MigaduProvider.missingUsernameDetail⟩,
           ⟨Severity.Error, "Missing Migadu API Key", MigaduProvider.missingAPIKeyDetail⟩]) := by
  have hne : Diagnostics.HasError (Diagnostics.Append resp.Diagnostics req.Config.diags) = false := by
    rw [Diagnostics.HasError_Append, h0, hp]
    rfl
  have hall : ∀ x ∈ Diagnostics.Append resp.Diagnostics req.Config.diags,
      ¬ x.Severity = Severity.Error :=
    fun x hx => Diagnostics.severity_of_no_error _ hne x hx
  have hu' := basetypes.StringValue.IsUnknown_eq_false _ hu
  have hk' := basetypes.StringValue.IsUnknown_eq_false _ hk
  rw [← effectiveCredential_eq_empty_iff getenv _ "MIGADU_USERNAME" hu,
    ← effectiveCredential_eq_empty_iff getenv _ "MIGADU_API_KEY" hk]
  by_cases hmiss : effectiveCredential getenv req.Config.data.Username "MIGADU_USERNAME" = "" ∨
      effectiveCredential getenv req.Config.data.APIKey "MIGADU_API_KEY" = ""
  · rw [MigaduProvider.Configure_missing getenv migaduNew req resp hne hu' hk' hmiss]
    by_cases hu0 : effectiveCredential getenv req.Config.data.Username "MIGADU_USERNAME" = "" <;>
      by_cases hk0 : effectiveCredential getenv req.Config.data.APIKey "MIGADU_API_KEY" = ""
    · simp only [hu0, hk0, if_true, List.append_assoc, List.singleton_append, iff_true,
        forall_const, and_true]
      refine ⟨⟨⟨Severity.Error, "Missing Migadu Username", MigaduProvider.missingUsernameDetail⟩,
        by simp, rfl, rfl⟩, ⟨⟨Severity.Error, "Missing Migadu API Key", MigaduProvider.missingAPIKeyDetail⟩,
        by simp, rfl, rfl⟩⟩
    · simp only [hu0, hk0, if_true, if_false, List.append_nil, iff_true, iff_false,
        false_implies, implies_true, and_true]
      refine ⟨⟨⟨Severity.Error, "Missing Migadu Username", MigaduProvider.missingUsernameDetail⟩,
        by simp, rfl, rfl⟩, ?_⟩
      rintro ⟨d, hd, hsev, hsum⟩
      rcases List.mem_append.mp hd with hd | hd
      · exact hall d hd hsev
      · rw [List.mem_singleton.mp hd] at hsum
        have h2 : "Missing Migadu Username" = "Missing Migadu API Key" := hsum
        exact absurd h2 (by decide)
    · simp only [hu0, hk0, if_true, if_false, List.append_nil, iff_true, iff_false,
        false_implies, implies_true, and_true]
      refine ⟨?_, ⟨⟨Severity.Error, "Missing Migadu API Key", MigaduProvider.missingAPIKeyDetail⟩,
        by simp, rfl, rfl⟩⟩
      rintro ⟨d, hd, hsev, hsum⟩
      rcases List.mem_append.mp hd with hd | hd
      · exact hall d hd hsev
      · rw [List.mem_singleton.mp hd] at hsum
        have h2 : "Missing Migadu API Key" = "Missing Migadu Username" := hsum
        exact absurd h2 (by decide)
    · rcases hmiss with h | h
      · exact absurd h hu0
      · exact absurd h hk0
  · have hu0 : effectiveCredential getenv req.Config.data.Username "MIGADU_USERNAME" ≠ "" :=
      fun h => hmiss (Or.inl h)
    have hk0 : effectiveCredential getenv req.Config.data.APIKey "MIGADU_API_KEY" ≠ "" :=
      fun h => hmiss (Or.inr h)
    simp only [hu0, hk0, iff_false, false_implies, and_true]
    cases hc : migaduNew (effectiveCredential getenv req.Config.data.Username "MIGADU_USERNAME")
        (effectiveCredential getenv req.Config.data.APIKey "MIGADU_API_KEY") with
    | error err =>
      rw [MigaduProvider.Configure_new_error getenv migaduNew req resp err hne hu' hk' hu0 hk0 hc]
      constructor <;>
      · rintro ⟨d, hd, hsev, hsum⟩
        rcases List.mem_append.mp hd with hd | hd
        · exact hall d hd hsev
        · rw [List.mem_singleton.mp hd] at hsum
          revert hsum
          simp
    | ok client =>
      rw [MigaduProvider.Configure_success getenv migaduNew req resp client hne hu' hk' hu0 hk0
        hc]
      constructor <;>
      · rintro ⟨d, hd, hsev, _⟩
        exact hall d hd hsev

/-- C15 at the provider test "missing username": a null username, a set API
key and an empty environment give the error "Missing Migadu Username" and not
"Missing Migadu API Key". -/
theorem C15_missing_credentials_witness :
    (∃ d ∈ (MigaduProvider.Configure emptyGetenv sampleNew
        (sampleConfigureRequest basetypes.StringValue.Null
          (basetypes.StringValue.Known "api-key")) sampleConfigureResponse).1.Diagnostics,
      d.Severity = Severity.Error ∧ d.Summary = "Missing Migadu Username") ∧
    ¬ (∃ d ∈ (MigaduProvider.Configure emptyGetenv sampleNew
        (sampleConfigureRequest basetypes.StringValue.Null
          (basetypes.StringValue.Known "api-key")) sampleConfigureResponse).1.Diagnostics,
      d.Severity = Severity.Error ∧ d.Summary = "Missing Migadu API Key") :=
  have h := C15_missing_credentials emptyGetenv sampleNew
    (sampleConfigureRequest basetypes.StringValue.Null (basetypes.StringValue.Known "api-key"))
    sampleConfigureResponse (by decide) (by decide) (by decide) (by decide)
  ⟨h.1.mpr ⟨Or.inl rfl, rfl⟩, fun hex => by
    have h2 := (h.2.1.mp hex).1
    revert h2
    decide⟩

theorem MigaduProvider.Configure_new_calls (getenv : String → String)
    (migaduNew : String → String → Except String migadu.Client)
    (req : ConfigureRequest) (resp : ConfigureResponse) (u k : String)
    (hm : ProviderCall.New u k ∈ (MigaduProvider.Configure getenv migaduNew req resp).2) :
    u = effectiveCredential getenv req.Config.data.Username "MIGADU_USERNAME" ∧
    k = effectiveCredential getenv req.Config.data.APIKey "MIGADU_API_KEY" := by
  cases hds : Diagnostics.HasError (Diagnostics.Append resp.Diagnostics req.Config.diags) with
  | true =>
    rw [MigaduProvider.Configure_decode_error getenv migaduNew req resp hds] at hm
    simp at hm
  | false =>
    by_cases hunk : req.Config.data.Username.IsUnknown = true ∨
        req.Config.data.APIKey.IsUnknown = true
    · rw [MigaduProvider.Configure_unknown getenv migaduNew req resp hds hunk] at hm
      simp at hm
    · have hu : req.Config.data.Username.IsUnknown = false := by
        cases h : req.Config.data.Username.IsUnknown
        · rfl
        · exact absurd (Or.inl h) hunk
      have hk : req.Config.data.APIKey.IsUnknown = false := by
        cases h : req.Config.data.APIKey.IsUnknown
        · rfl
        · exact absurd (Or.inr h) hunk
      by_cases hmiss :
          effectiveCredential getenv req.Config.data.Username "MIGADU_USERNAME" = "" ∨
          effectiveCredential getenv req.Config.data.APIKey "MIGADU_API_KEY" = ""
      · rw [MigaduProvider.Configure_missing getenv migaduNew req resp hds hu hk hmiss] at hm
        exfalso
        split_ifs at hm <;> simp at hm
      · have hu0 : effectiveCredential getenv req.Config.data.Username "MIGADU_USERNAME" ≠ "" :=
          fun h => hmiss (Or.inl h)
        have hk0 : effectiveCredential getenv req.Config.data.APIKey "MIGADU_API_KEY" ≠ "" :=
          fun h => hmiss (Or.inr h)
        cases hc : migaduNew
            (effectiveCredential getenv req.Config.data.Username "MIGADU_USERNAME")
            (effectiveCredential getenv req.Config.data.APIKey "MIGADU_API_KEY") with
        | error err =>
          rw [MigaduProvider.Configure_new_error getenv migaduNew req resp err hds hu hk hu0 hk0
            hc] at hm
          split_ifs at hm <;> simpa using hm
        | ok client =>
          rw [MigaduProvider.Configure_success getenv migaduNew req resp client hds hu hk hu0
            hk0 hc] at hm
          split_ifs at hm <;> simpa using hm

/-- C16: the credentials `MigaduProvider.Configure` hands to `migadu.New` are,
for username and api_key each on its own, the configuration value when that is
non-empty (whatever the environment holds) and otherwise the value of
MIGADU_USERNAME or MIGADU_API_KEY; and when the configuration decodes, no value
is unknown and both credentials are non-empty, `migadu.New` is called with
them. -/
theorem C16_credentials_config_then_env (getenv : String → String)
    (migaduNew : String → String → Except String migadu.Client)
    (req : ConfigureRequest) (resp : ConfigureResponse) :
    (∀ u k, ProviderCall.New u k ∈ (MigaduProvider.Configure getenv migaduNew req resp).2 →
      (∀ v, req.Config.data.Username = basetypes.StringValue.Known v → v ≠ "" → u = v) ∧
      (req.Config.data.Username = basetypes.StringValue.Null ∨
          req.Config.data.Username = basetypes.StringValue.Known "" →
        u = getenv "MIGADU_USERNAME") ∧
      (∀ v, req.Config.data.APIKey = basetypes.StringValue.Known v → v ≠ "" → k = v) ∧
      (req.Config.data.APIKey = basetypes.StringValue.Null ∨
          req.Config.data.APIKey = basetypes.StringValue.Known "" →
        k = getenv "MIGADU_API_KEY") ∧
      u = effectiveCredential getenv req.Config.data.Username "MIGADU_USERNAME" ∧
      k = effectiveCredential getenv req.Config.data.APIKey "MIGADU_API_KEY") ∧
    (resp.Diagnostics.HasError = false → req.Config.diags.HasError = false →
      req.Config.data.Username ≠ basetypes.StringValue.Unknown →
      req.Config.data.APIKey ≠ basetypes.StringValue.Unknown →
      effectiveCredential getenv req.Config.data.Username "MIGADU_USERNAME" ≠ "" →
      effectiveCredential getenv req.Config.data.APIKey "MIGADU_API_KEY" ≠ "" →
      ProviderCall.New (effectiveCredential getenv req.Config.data.Username "MIGADU_USERNAME")
          (effectiveCredential getenv req.Config.data.APIKey "MIGADU_API_KEY") ∈
        (MigaduProvider.Configure getenv migaduNew req resp).2) := by
  constructor
  · intro u k hm
    obtain ⟨eu, ek⟩ := MigaduProvider.Configure_new_calls getenv migaduNew req resp u k hm
    refine ⟨fun v hv hne => ?_, fun h => ?_, fun v hv hne => ?_, fun h => ?_, eu, ek⟩
    · rw [eu, hv]
      simp [effectiveCredential, basetypes.StringValue.ValueString, hne]
    · rw [eu]
      rcases h with h | h <;> rw [h] <;>
        simp [effectiveCredential, basetypes.StringValue.ValueString]
    · rw [ek, hv]
      simp [effectiveCredential, basetypes.StringValue.ValueString, hne]
    · rw [ek]
      rcases h with h | h <;> rw [h] <;>
        simp [effectiveCredential, basetypes.StringValue.ValueString]
  · intro h0 hp hu hk hu0 hk0
    have hne : Diagnostics.HasError (Diagnostics.Append resp.Diagnostics req.Config.diags)
        = false := by
      rw [Diagnostics.HasError_Append, h0, hp]
      rfl
    have hu' := basetypes.StringValue.IsUnknown_eq_false _ hu
    have hk' := basetypes.StringValue.IsUnknown_eq_false _ hk
    cases hc : migaduNew
        (effectiveCredential getenv req.Config.data.Username "MIGADU_USERNAME")
        (effectiveCredential getenv req.Config.data.APIKey "MIGADU_API_KEY") with
    | error err =>
      rw [MigaduProvider.Configure_new_error getenv migaduNew req resp err hne hu' hk' hu0 hk0
        hc]
      simp
    | ok client =>
      rw [MigaduProvider.Configure_success getenv migaduNew req resp client hne hu' hk' hu0
        hk0 hc]
      simp

/-- C16 at the provider test "env fallback": both values null, so both
environment variables are read and their values go to `migadu.New`. -/
theorem C16_credentials_config_then_env_witness :
    (MigaduProvider.Configure sampleGetenv sampleNew
        (sampleConfigureRequest basetypes.StringValue.Null basetypes.StringValue.Null)
        sampleConfigureResponse).2 =
      [ProviderCall.Getenv "MIGADU_USERNAME", ProviderCall.Getenv "MIGADU_API_KEY",
       ProviderCall.New "admin@example.com" "env-api-key"] ∧
    "admin@example.com" = sampleGetenv "MIGADU_USERNAME" :=
  ⟨by decide,
    ((C16_credentials_config_then_env sampleGetenv sampleNew
      (sampleConfigureRequest basetypes.StringValue.Null basetypes.StringValue.Null)
      sampleConfigureResponse).1 "admin@example.com" "env-api-key" (by decide)).2.1
      (Or.inl rfl)⟩

/-- C17: when the configuration decodes and the username or the api_key is
unknown, `MigaduProvider.Configure` adds "Unknown Migadu Username" for an
unknown username and "Unknown Migadu API Key" for an unknown api_key (both, in
that order, when both are unknown) and returns at once: it reads no
environment variable, creates no client, leaves the response data as it was,
adds no "Missing ..." error, and its result does not depend on the
environment. -/
theorem C17_unknown_credentials (getenv : String → String)
    (migaduNew : String → String → Except String migadu.Client)
    (req : ConfigureRequest) (resp : ConfigureResponse)
    (h0 : resp.Diagnostics.HasError = false) (hp : req.Config.diags.HasError = false)
    (hunk : req.Config.data.Username = basetypes.StringValue.Unknown ∨
      req.Config.data.APIKey = basetypes.StringValue.Unknown) :
    (req.Config.data.Username = basetypes.StringValue.Unknown →
      (⟨Severity.Error, "Unknown Migadu Username", MigaduProvider.unknownUsernameDetail⟩ :
        Diagnostic) ∈ (MigaduProvider.Configure getenv migaduNew req resp).1.Diagnostics) ∧
    (req.Config.data.APIKey = basetypes.StringValue.Unknown →
      (⟨Severity.Error, "Unknown Migadu API Key", MigaduProvider.unknownAPIKeyDetail⟩ :
        Diagnostic) ∈ (MigaduProvider.Configure getenv migaduNew req resp).1.Diagnostics) ∧
    (req.Config.data.Username = basetypes.StringValue.Unknown →
      req.Config.data.APIKey = basetypes.StringValue.Unknown →
      (MigaduProvider.Configure getenv migaduNew req resp).1.Diagnostics =
        Diagnostics.Append resp.Diagnostics req.Config.diags ++
          [⟨Severity.Error, "Unknown Migadu Username", MigaduProvider.unknownUsernameDetail⟩,
           ⟨Severity.Error, "Unknown Migadu API Key", MigaduProvider.unknownAPIKeyDetail⟩]) ∧
    (MigaduProvider.Configure getenv migaduNew req resp).2 = [] ∧
    (MigaduProvider.Configure getenv migaduNew req resp).1.ResourceData = resp.ResourceData ∧
    (MigaduProvider.Configure getenv migaduNew req resp).1.DataSourceData =
      resp.DataSourceData ∧
    (∀ d ∈ (MigaduProvider.Configure getenv migaduNew req resp).1.Diagnostics,
      d.Severity = Severity.Error →
        d.Summary ≠ "Missing Migadu Username" ∧ d.Summary ≠ "Missing Migadu API Key") ∧
    (∀ getenv2 : String → String,
      MigaduProvider.Configure getenv2 migaduNew req resp =
        MigaduProvider.Configure getenv migaduNew req resp) := by
  have hne : Diagnostics.HasError (Diagnostics.Append resp.Diagnostics req.Config.diags) = false := by
    rw [Diagnostics.HasError_Append, h0, hp]
    rfl
  have hall : ∀ x ∈ Diagnostics.Append resp.Diagnostics req.Config.diags,
      ¬ x.Severity = Severity.Error :=
    fun x hx => Diagnostics.severity_of_no_error _ hne x hx
  have hunk' : req.Config.data.Username.IsUnknown = true ∨
      req.Config.data.APIKey.IsUnknown = true := by
    rcases hunk with h | h
    · exact Or.inl (basetypes.StringValue.IsUnknown_eq_true _ h)
    · exact Or.inr (basetypes.StringValue.IsUnknown_eq_true _ h)
  have hindep : ∀ getenv2 : String → String,
      MigaduProvider.Configure getenv2 migaduNew req resp =
        MigaduProvider.Configure getenv migaduNew req resp := by
    intro getenv2
    rw [MigaduProvider.Configure_unknown getenv2 migaduNew req resp hne hunk',
      MigaduProvider.Configure_unknown getenv migaduNew req resp hne hunk']
  rw [MigaduProvider.Configure_unknown getenv migaduNew req resp hne hunk'] at hindep ⊢
  refine ⟨fun h => ?_, fun h => ?_, fun h1 h2 => ?_, rfl, rfl, rfl, fun d hd hsev => ?_, hindep⟩
  · simp [basetypes.StringValue.IsUnknown_eq_true _ h]
  · simp [basetypes.StringValue.IsUnknown_eq_true _ h]
  · simp [basetypes.StringValue.IsUnknown_eq_true _ h1,
      basetypes.StringValue.IsUnknown_eq_true _ h2]
  · simp only [List.mem_append] at hd
    rcases hd with (hd | hd) | hd
    · exact absurd hsev (hall d hd)
    · split_ifs at hd
      · rw [List.mem_singleton.mp hd]
        exact ⟨by decide, by decide⟩
      · simp at hd
    · split_ifs at hd
      · rw [List.mem_singleton.mp hd]
        exact ⟨by decide, by decide⟩
      · simp at hd

/-- C17 at the provider test "unknown config values": both values unknown, in
the environment of the "env fallback" test. -/
theorem C17_unknown_credentials_witness :
    (MigaduProvider.Configure sampleGetenv sampleNew
        (sampleConfigureRequest basetypes.StringValue.Unknown basetypes.StringValue.Unknown)
        sampleConfigureResponse).1.Diagnostics =
      Diagnostics.Append sampleConfigureResponse.Diagnostics [] ++
        [⟨Severity.Error, "Unknown Migadu Username", MigaduProvider.unknownUsernameDetail⟩,
         ⟨Severity.Error, "Unknown Migadu API Key", MigaduProvider.unknownAPIKeyDetail⟩] ∧
    (MigaduProvider.Configure sampleGetenv sampleNew
        (sampleConfigureRequest basetypes.StringValue.Unknown basetypes.StringValue.Unknown)
        sampleConfigureResponse).2 = [] :=
  have h := C17_unknown_credentials sampleGetenv sampleNew
    (sampleConfigureRequest basetypes.StringValue.Unknown basetypes.StringValue.Unknown)
    sampleConfigureResponse (by decide) (by decide) (Or.inl rfl)
  ⟨h.2.2.1 rfl rfl, h.2.2.2.1⟩

/-- C18: on a response whose data are unset, whenever `MigaduProvider.Configure`
ends with an error diagnostic both `ResourceData` and `DataSourceData` are
still unset, and whenever it ends without error both hold one and the same
client. -/
theorem C18_client_set_iff_no_error (getenv : String → String)
    (migaduNew : String → String → Except String migadu.Client)
    (req : ConfigureRequest) (resp : ConfigureResponse)
    (hr : resp.ResourceData = none) (hd : resp.DataSourceData = none) :
    ((MigaduProvider.Configure getenv migaduNew req resp).1.Diagnostics.HasError = true →
      (MigaduProvider.Configure getenv migaduNew req resp).1.ResourceData = none ∧
      (MigaduProvider.Configure getenv migaduNew req resp).1.DataSourceData = none) ∧
    ((MigaduProvider.Configure getenv migaduNew req resp).1.Diagnostics.HasError = false →
      ∃ client,
        (MigaduProvider.Configure getenv migaduNew req resp).1.ResourceData = some client ∧
        (MigaduProvider.Configure getenv migaduNew req resp).1.DataSourceData = some client) := by
  cases hds : Diagnostics.HasError (Diagnostics.Append resp.Diagnostics req.Config.diags) with
  | true =>
    rw [MigaduProvider.Configure_decode_error getenv migaduNew req resp hds]
    refine ⟨fun _ => ⟨hr, hd⟩, fun h => ?_⟩
    rw [hds] at h
    exact absurd h (by decide)
  | false =>
    by_cases hunk : req.Config.data.Username.IsUnknown = true ∨
        req.Config.data.APIKey.IsUnknown = true
    · rw [MigaduProvider.Configure_unknown getenv migaduNew req resp hds hunk]
      refine ⟨fun _ => ⟨hr, hd⟩, fun h => ?_⟩
      exfalso
      rcases hunk with hu | hk
      · simp [hu, Diagnostics.HasError_append_list, Diagnostics.HasError] at h
      · simp [hk, Diagnostics.HasError_append_list, Diagnostics.HasError] at h
    · have hu : req.Config.data.Username.IsUnknown = false := by
        cases h : req.Config.data.Username.IsUnknown
        · rfl
        · exact absurd (Or.inl h) hunk
      have hk : req.Config.data.APIKey.IsUnknown = false := by
        cases h : req.Config.data.APIKey.IsUnknown
        · rfl
        · exact absurd (Or.inr h) hunk
      by_cases hmiss :
          effectiveCredential getenv req.Config.data.Username "MIGADU_USERNAME" = "" ∨
          effectiveCredential getenv req.Config.data.APIKey "MIGADU_API_KEY" = ""
      · rw [MigaduProvider.Configure_missing getenv migaduNew req resp hds hu hk hmiss]
        refine ⟨fun _ => ⟨hr, hd⟩, fun h => ?_⟩
        exfalso
        rcases hmiss with hm | hm
        · simp [hm, Diagnostics.HasError_append_list, Diagnostics.HasError] at h
        · simp [hm, Diagnostics.HasError_append_list, Diagnostics.HasError] at h
      · have hu0 : effectiveCredential getenv req.Config.data.Username "MIGADU_USERNAME" ≠ "" :=
          fun h => hmiss (Or.inl h)
        have hk0 : effectiveCredential getenv req.Config.data.APIKey "MIGADU_API_KEY" ≠ "" :=
          fun h => hmiss (Or.inr h)
        cases hc : migaduNew
            (effectiveCredential getenv req.Config.data.Username "MIGADU_USERNAME")
            (effectiveCredential getenv req.Config.data.APIKey "MIGADU_API_KEY") with
        | error err =>
          rw [MigaduProvider.Configure_new_error getenv migaduNew req resp err hds hu hk hu0 hk0
            hc]
          refine ⟨fun _ => ⟨hr, hd⟩, fun h => ?_⟩
          exfalso
          simp [Diagnostics.HasError_append_list, Diagnostics.HasError] at h
        | ok client =>
          rw [MigaduProvider.Configure_success getenv migaduNew req resp client hds hu hk hu0
            hk0 hc]
          refine ⟨fun h => ?_, fun _ => ⟨client, rfl, rfl⟩⟩
          rw [hds] at h
          exact absurd h (by decide)

/-- C18 at the provider tests "env fallback" (a client is set) and "missing
api key" (no client is set). -/
theorem C18_client_set_iff_no_error_witness :
    (∃ client,
      (MigaduProvider.Configure sampleGetenv sampleNew
        (sampleConfigureRequest basetypes.StringValue.Null basetypes.StringValue.Null)
        sampleConfigureResponse).1.ResourceData = some client ∧
      (MigaduProvider.Configure sampleGetenv sampleNew
        (sampleConfigureRequest basetypes.StringValue.Null basetypes.StringValue.Null)
        sampleConfigureResponse).1.DataSourceData = some client) ∧
    ((MigaduProvider.Configure emptyGetenv sampleNew
        (sampleConfigureRequest (basetypes.StringValue.Known "admin@example.com")
          basetypes.StringValue.Null)
        sampleConfigureResponse).1.ResourceData = none ∧
      (MigaduProvider.Configure emptyGetenv sampleNew
        (sampleConfigureRequest (basetypes.StringValue.Known "admin@example.com")
          basetypes.StringValue.Null)
        sampleConfigureResponse).1.DataSourceData = none) :=
  ⟨(C18_client_set_iff_no_error sampleGetenv sampleNew
      (sampleConfigureRequest basetypes.StringValue.Null basetypes.StringValue.Null)
      sampleConfigureResponse rfl rfl).2 (by decide),
    (C18_client_set_iff_no_error emptyGetenv sampleNew
      (sampleConfigureRequest (basetypes.StringValue.Known "admin@example.com")
        basetypes.StringValue.Null)
      sampleConfigureResponse rfl rfl).1 (by decide)⟩

/-! ## Lists read from the API -/

theorem DomainResource.Read_success (client : migadu.Client)
    (req : ReadRequest DomainResourceModel) (resp : ReadResponse) (retrieved : migadu.Domain)
    (hne : Diagnostics.HasError (Diagnostics.Append resp.Diagnostics req.State.diags) = false)
    (hc : client.GetDomain req.State.data.Name.ValueString = Except.ok retrieved) :
    DomainResource.Read client req resp =
      ({ State :=
           { Schema := resp.State.Schema,
             Raw := some (DomainResourceModel.toObject
               { req.State.data with
                 State := types.StringValue retrieved.State
                 Description := types.StringValue retrieved.Description
                 SpamAggressiveness := types.Int64Value retrieved.SpamAggressiveness
                 GreylistingEnabled := types.BoolValue retrieved.GreylistingEnabled
                 MXProxyEnabled := types.BoolValue retrieved.MXProxyEnabled
                 HostedDNS := types.BoolValue retrieved.HostedDNS
                 Tags := (types.ListValueFrom (normalizeStringSlice retrieved.Tags)).1
                 SenderDenylist :=
                   (types.ListValueFrom (normalizeStringSlice retrieved.SenderDenylist)).1
                 RecipientDenylist :=
                   (types.ListValueFrom (normalizeStringSlice retrieved.RecipientDenylist)).1
                 CatchallDestinations :=
                   (types.ListValueFrom
                     (normalizeStringSlice retrieved.CatchallDestinations)).1 }) },
         Diagnostics := Diagnostics.Append resp.Diagnostics req.State.diags },
        [ApiCall.GetDomain req.State.data.Name.ValueString]) := by
  have hl : ∀ v : Option (List String),
      (types.ListValueFrom (normalizeStringSlice v)).2 = [] := by
    intro v
    cases v <;> rfl
  simp only [DomainResource.Read, hne, hc, Bool.false_eq_true, if_false, State.Set, hl,
    Diagnostics.Append_nil]

theorem ListValueFrom_normalize (v : Option (List String)) :
    (types.ListValueFrom (normalizeStringSlice v)).1 = basetypes.ListValue.Known (v.getD []) := by
  cases v <;> rfl

/-- C21: `normalizeStringSlice` maps the nil slice to the empty, non-nil slice
and returns every other slice unchanged, so it is idempotent, never nil and
length-preserving; and after a successful `DomainResource.Read` the attributes
`tags`, `sender_denylist`, `recipient_denylist` and `catchall_destinations`
hold known lists, the elements the API returned, the empty list when it
returned none. -/
theorem C21_domain_read_lists_never_null (client : migadu.Client)
    (req : ReadRequest DomainResourceModel) (resp : ReadResponse) :
    normalizeStringSlice none = some [] ∧
    (∀ l : List String, normalizeStringSlice (some l) = some l) ∧
    (∀ v, normalizeStringSlice (normalizeStringSlice v) = normalizeStringSlice v) ∧
    (∀ v, normalizeStringSlice v ≠ none) ∧
    (∀ v, ((normalizeStringSlice v).getD []).length = (v.getD []).length) ∧
    (∀ retrieved : migadu.Domain,
      resp.Diagnostics.HasError = false → req.State.diags.HasError = false →
      client.GetDomain req.State.data.Name.ValueString = Except.ok retrieved →
      (DomainResource.Read client req resp).1.Diagnostics.HasError = false ∧
      (DomainResource.Read client req resp).1.State.GetAttribute "tags" =
        Value.StringList (retrieved.Tags.getD []) ∧
      (DomainResource.Read client req resp).1.State.GetAttribute "sender_denylist" =
        Value.StringList (retrieved.SenderDenylist.getD []) ∧
      (DomainResource.Read client req resp).1.State.GetAttribute "recipient_denylist" =
        Value.StringList (retrieved.RecipientDenylist.getD []) ∧
      (DomainResource.Read client req resp).1.State.GetAttribute "catchall_destinations" =
        Value.StringList (retrieved.CatchallDestinations.getD [])) := by
  refine ⟨rfl, fun _ => rfl, ?_, ?_, ?_, ?_⟩
  · intro v
    cases v <;> rfl
  · intro v
    cases v <;> simp [normalizeStringSlice]
  · intro v
    cases v <;> rfl
  · intro retrieved h0 hp hc
    have hne : Diagnostics.HasError (Diagnostics.Append resp.Diagnostics req.State.diags)
        = false := by
      rw [Diagnostics.HasError_Append, h0, hp]
      rfl
    rw [DomainResource.Read_success client req resp retrieved hne hc]
    simp only [ListValueFrom_normalize]
    refine ⟨hne, ?_, ?_, ?_, ?_⟩ <;>
      simp [State.GetAttribute, DomainResourceModel.toObject, List.lookup,
        basetypes.ListValue.toValue]

/-- C21 at a sample read: the API returns "example.com" with nil lists, and the
state holds four empty lists. -/
theorem C21_domain_read_lists_never_null_witness :
    (DomainResource.Read sampleClientAccepting
        { State := { data := sampleDomainModel, diags := [] } }
        { State := newStateForSchema DomainResource.Schema,
          Diagnostics := [] }).1.State.GetAttribute "tags" = Value.StringList [] ∧
    (DomainResource.Read sampleClientAccepting
        { State := { data := sampleDomainModel, diags := [] } }
        { State := newStateForSchema DomainResource.Schema,
          Diagnostics := [] }).1.State.GetAttribute "catchall_destinations" =
      Value.StringList [] :=
  have h := (C21_domain_read_lists_never_null sampleClientAccepting
    { State := { data := sampleDomainModel, diags := [] } }
    { State := newStateForSchema DomainResource.Schema, Diagnostics := [] }).2.2.2.2.2
    { Name := "example.com", State := "active" } (by decide) (by decide) rfl
  ⟨h.2.1, h.2.2.2.2⟩

/-- C22, the code at the failing input: the API returns an alias, and a rewrite
rule, whose `Destinations` slice is nil; `AliasResource.Read` and
`RewriteResource.Read` end without error and store null, not the empty list,
in `destinations`; a nil list read by `DomainResource.Read` is stored as the
empty list. -/
theorem C22_nil_destinations_stored_as_null :
    (AliasResource.Read sampleClientAccepting
        { State := { data := sampleAliasModel, diags := [] } }
        { State := newStateForSchema AliasResource.Schema, Diagnostics := [] }).1.Diagnostics
      = [] ∧
    (AliasResource.Read sampleClientAccepting
        { State := { data := sampleAliasModel, diags := [] } }
        { State := newStateForSchema AliasResource.Schema,
          Diagnostics := [] }).1.State.GetAttribute "destinations" = Value.Null ∧
    (RewriteResource.Read sampleClientAccepting
        { State := { data := sampleRewriteModel, diags := [] } }
        { State := newStateForSchema RewriteResource.Schema, Diagnostics := [] }).1.Diagnostics
      = [] ∧
    (RewriteResource.Read sampleClientAccepting
        { State := { data := sampleRewriteModel, diags := [] } }
        { State := newStateForSchema RewriteResource.Schema,
          Diagnostics := [] }).1.State.GetAttribute "destinations" = Value.Null ∧
    (AliasResource.Read sampleClientAccepting
        { State := { data := sampleAliasModel, diags := [] } }
        { State := newStateForSchema AliasResource.Schema,
          Diagnostics := [] }).1.State.GetAttribute "address" =
      Value.String "info@example.com" ∧
    (DomainResource.Read sampleClientAccepting
        { State := { data := sampleDomainModel, diags := [] } }
        { State := newStateForSchema DomainResource.Schema,
          Diagnostics := [] }).1.State.GetAttribute "tags" = Value.StringList [] := by
  decide

/-! ## Type names and data source schemas -/

theorem string_append_left_cancel (p a b : String) (h : p ++ a = p ++ b) : a = b := by
  have hd := congrArg String.data h
  rw [String.data_append, String.data_append] at hd
  exact String.ext (List.append_cancel_left hd)

theorem nodup_map_prepend (p : String) (l : List String) (h : l.Nodup) :
    (l.map (fun s => p ++ s)).Nodup :=
  List.Nodup.map (fun a b hab => string_append_left_cancel p a b hab) h

/-- C23: for every provider type name `p`, the `Metadata` of each of the six
resources and thirteen data sources sets `TypeName` to `p` followed by its
fixed suffix; with `p = "migadu"` the mailbox resource is "migadu_mailbox"; and
the six resource type names, and the thirteen data source type names, are
pairwise distinct. -/
theorem C23_type_names (p : String) (resp : MetadataResponse) :
    MigaduProvider.Resources.map (fun md => (md ⟨p⟩ resp).TypeName) =
      [p ++ "_domain", p ++ "_domain_activation", p ++ "_mailbox", p ++ "_alias",
       p ++ "_identity", p ++ "_rewrite"] ∧
    MigaduProvider.DataSources.map (fun md => (md ⟨p⟩ resp).TypeName) =
      [p ++ "_domain", p ++ "_domains", p ++ "_mailbox", p ++ "_mailboxes", p ++ "_alias",
       p ++ "_aliases", p ++ "_identity", p ++ "_identities", p ++ "_rewrite",
       p ++ "_rewrites", p ++ "_forwardings", p ++ "_domain_diagnostics",
       p ++ "_domain_dns_records"] ∧
    (MailboxResource.Metadata ⟨"migadu"⟩ resp).TypeName = "migadu_mailbox" ∧
    (DomainActivationResource.Metadata ⟨p⟩ resp).TypeName = p ++ "_domain_activation" ∧
    (MigaduProvider.Resources.map (fun md => (md ⟨p⟩ resp).TypeName)).Nodup ∧
    (MigaduProvider.DataSources.map (fun md => (md ⟨p⟩ resp).TypeName)).Nodup := by
  have hr : MigaduProvider.Resources.map (fun md => (md ⟨p⟩ resp).TypeName) =
      ["_domain", "_domain_activation", "_mailbox", "_alias", "_identity", "_rewrite"].map
        (fun s => p ++ s) := rfl
  have hd : MigaduProvider.DataSources.map (fun md => (md ⟨p⟩ resp).TypeName) =
      ["_domain", "_domains", "_mailbox", "_mailboxes", "_alias", "_aliases", "_identity",
       "_identities", "_rewrite", "_rewrites", "_forwardings", "_domain_diagnostics",
       "_domain_dns_records"].map (fun s => p ++ s) := rfl
  have hm : "migadu" ++ "_mailbox" = "migadu_mailbox" := by decide
  refine ⟨rfl, rfl, hm, rfl, ?_, ?_⟩
  · rw [hr]
    exact nodup_map_prepend p _ (by decide)
  · rw [hd]
    exact nodup_map_prepend p _ (by decide)

/-- C24: in each of the thirteen data source schemas every top-level attribute
is never optional and is exactly one of required or computed; it is required
exactly when it is one of the data source's lookup keys, which all bear one of
the names domain_name, local_part, mailbox, name and are attributes of the
schema; and every attribute nested in a computed list is computed, not
required and not optional. -/
theorem C24_data_source_attributes :
    dataSourceSchemas.length = 13 ∧
    (∀ ds ∈ dataSourceSchemas, ∀ a ∈ ds.2.2,
      a.Optional = false ∧ (a.Required = true ↔ a.Computed = false) ∧
      (a.Required = true ↔ a.Name ∈ ds.2.1) ∧
      (a.NestedAttributes ≠ [] → a.Computed = true) ∧
      ∀ n ∈ a.NestedAttributes,
        n.Computed = true ∧ n.Required = false ∧ n.Optional = false) ∧
    (∀ ds ∈ dataSourceSchemas, ∀ k ∈ ds.2.1,
      k ∈ lookupKeyNames ∧ ∃ a ∈ ds.2.2, a.Name = k) := by
  refine ⟨rfl, ?_, ?_⟩
  · decide
  · decide

/-! ## Alias resource: API errors -/

theorem ElementsAs_no_error (l : basetypes.ListValue) (h : l ≠ basetypes.ListValue.Unknown) :
    l.ElementsAs.2 = [] := by
  cases l with
  | Null => rfl
  | Unknown => exact absurd rfl h
  | Known elements => rfl

theorem alias_Create_client_error (client : migadu.Client)
    (req : CreateRequest AliasResourceModel) (resp : CreateResponse) (e : String)
    (hne : Diagnostics.HasError (Diagnostics.Append resp.Diagnostics req.Plan.diags) = false)
    (hl : req.Plan.data.Destinations ≠ basetypes.ListValue.Unknown)
    (hc : client.NewAlias req.Plan.data.DomainName.ValueString
      { LocalPart := req.Plan.data.LocalPart.ValueString,
        Destinations := req.Plan.data.Destinations.ElementsAs.1,
        Address := "", IsInternal := false } = Except.error e) :
    AliasResource.Create client req resp =
      ({ State := resp.State,
         Diagnostics := Diagnostics.Append resp.Diagnostics req.Plan.diags ++
           [⟨Severity.Error, "Client Error", "Unable to create alias, got error: " ++ e⟩] },
        [ApiCall.NewAlias req.Plan.data.DomainName.ValueString
          { LocalPart := req.Plan.data.LocalPart.ValueString,
            Destinations := req.Plan.data.Destinations.ElementsAs.1,
            Address := "", IsInternal := false }]) := by
  simp only [AliasResource.Create, hne, ElementsAs_no_error _ hl, Diagnostics.Append_nil, hc,
    Bool.false_eq_true, if_false]
  rw [Diagnostics.AddError_of_no_error _ _ _ hne]

theorem alias_Update_client_error (client : migadu.Client)
    (req : UpdateRequest AliasResourceModel) (resp : UpdateResponse) (e : String)
    (hne : Diagnostics.HasError (Diagnostics.Append resp.Diagnostics req.Plan.diags) = false)
    (hl : req.Plan.data.Destinations ≠ basetypes.ListValue.Unknown)
    (hc : client.UpdateAlias req.Plan.data.DomainName.ValueString
      { LocalPart := req.Plan.data.LocalPart.ValueString,
        Destinations := req.Plan.data.Destinations.ElementsAs.1,
        Address := "", IsInternal := false } = Except.error e) :
    AliasResource.Update client req resp =
      ({ State := resp.State,
         Diagnostics := Diagnostics.Append resp.Diagnostics req.Plan.diags ++
           [⟨Severity.Error, "Client Error", "Unable to update alias, got error: " ++ e⟩] },
        [ApiCall.UpdateAlias req.Plan.data.DomainName.ValueString
          { LocalPart := req.Plan.data.LocalPart.ValueString,
            Destinations := req.Plan.data.Destinations.ElementsAs.1,
            Address := "", IsInternal := false }]) := by
  simp only [AliasResource.Update, hne, ElementsAs_no_error _ hl, Diagnostics.Append_nil, hc,
    Bool.false_eq_true, if_false]
  rw [Diagnostics.AddError_of_no_error _ _ _ hne]

theorem alias_Read_client_error (client : migadu.Client)
    (req : ReadRequest AliasResourceModel) (resp : ReadResponse) (e : String)
    (hne : Diagnostics.HasError (Diagnostics.Append resp.Diagnostics req.State.diags) = false)
    (hc : client.GetAlias req.State.data.DomainName.ValueString
      req.State.data.LocalPart.ValueString = Except.error e) :
    AliasResource.Read client req resp =
      ({ State := resp.State,
         Diagnostics := Diagnostics.Append resp.Diagnostics req.State.diags ++
           [⟨Severity.Error, "Client Error", "Unable to read alias, got error: " ++ e⟩] },
        [ApiCall.GetAlias req.State.data.DomainName.ValueString
          req.State.data.LocalPart.ValueString]) := by
  simp only [AliasResource.Read, hne, hc, Bool.false_eq_true, if_false]
  rw [Diagnostics.AddError_of_no_error _ _ _ hne]

theorem alias_Delete_client_error (client : migadu.Client)
    (req : DeleteRequest AliasResourceModel) (resp : DeleteResponse) (e : String)
    (hne : Diagnostics.HasError (Diagnostics.Append resp.Diagnostics req.State.diags) = false)
    (hc : client.DeleteAlias req.State.data.DomainName.ValueString
      req.State.data.LocalPart.ValueString = Except.error e) :
    AliasResource.Delete client req resp =
      ({ State := resp.State,
         Diagnostics := Diagnostics.Append resp.Diagnostics req.State.diags ++
           [⟨Severity.Error, "Client Error", "Unable to delete alias, got error: " ++ e⟩] },
        [ApiCall.DeleteAlias req.State.data.DomainName.ValueString
          req.State.data.LocalPart.ValueString]) := by
  simp only [AliasResource.Delete, hne, hc, Bool.false_eq_true, if_false]
  rw [Diagnostics.AddError_of_no_error _ _ _ hne]

/-- C25: for each of `AliasResource.Create`, `Read`, `Update` and `Delete`, when
the request decodes and the API client call returns an error with message `e`,
the operation appends exactly one diagnostic, the error "Client Error" whose
detail is a fixed text followed by `e`, makes no further call and leaves the
state as it was. -/
theorem C25_alias_client_errors (client : migadu.Client) (e : String) :
    (∀ (req : CreateRequest AliasResourceModel) (resp : CreateResponse),
      resp.Diagnostics.HasError = false → req.Plan.diags.HasError = false →
      req.Plan.data.Destinations ≠ basetypes.ListValue.Unknown →
      client.NewAlias req.Plan.data.DomainName.ValueString
        { LocalPart := req.Plan.data.LocalPart.ValueString,
          Destinations := req.Plan.data.Destinations.ElementsAs.1,
          Address := "", IsInternal := false } = Except.error e →
      AliasResource.Create client req resp =
        ({ State := resp.State,
           Diagnostics := Diagnostics.Append resp.Diagnostics req.Plan.diags ++
             [⟨Severity.Error, "Client Error", "Unable to create alias, got error: " ++ e⟩] },
          [ApiCall.NewAlias req.Plan.data.DomainName.ValueString
            { LocalPart := req.Plan.data.LocalPart.ValueString,
              Destinations := req.Plan.data.Destinations.ElementsAs.1,
              Address := "", IsInternal := false }])) ∧
    (∀ (req : ReadRequest AliasResourceModel) (resp : ReadResponse),
      resp.Diagnostics.HasError = false → req.State.diags.HasError = false →
      client.GetAlias req.State.data.DomainName.ValueString
        req.State.data.LocalPart.ValueString = Except.error e →
      AliasResource.Read client req resp =
        ({ State := resp.State,
           Diagnostics := Diagnostics.Append resp.Diagnostics req.State.diags ++
             [⟨Severity.Error, "Client Error", "Unable to read alias, got error: " ++ e⟩] },
          [ApiCall.GetAlias req.State.data.DomainName.ValueString
            req.State.data.LocalPart.ValueString])) ∧
    (∀ (req : UpdateRequest AliasResourceModel) (resp : UpdateResponse),
      resp.Diagnostics.HasError = false → req.Plan.diags.HasError = false →
      req.Plan.data.Destinations ≠ basetypes.ListValue.Unknown →
      client.UpdateAlias req.Plan.data.DomainName.ValueString
        { LocalPart := req.Plan.data.LocalPart.ValueString,
          Destinations := req.Plan.data.Destinations.ElementsAs.1,
          Address := "", IsInternal := false } = Except.error e →
      AliasResource.Update client req resp =
        ({ State := resp.State,
           Diagnostics := Diagnostics.Append resp.Diagnostics req.Plan.diags ++
             [⟨Severity.Error, "Client Error", "Unable to update alias, got error: " ++ e⟩] },
          [ApiCall.UpdateAlias req.Plan.data.DomainName.ValueString
            { LocalPart := req.Plan.data.LocalPart.ValueString,
              Destinations := req.Plan.data.Destinations.ElementsAs.1,
              Address := "", IsInternal := false }])) ∧
    (∀ (req : DeleteRequest AliasResourceModel) (resp : DeleteResponse),
      resp.Diagnostics.HasError = false → req.State.diags.HasError = false →
      client.DeleteAlias req.State.data.DomainName.ValueString
        req.State.data.LocalPart.ValueString = Except.error e →
      AliasResource.Delete client req resp =
        ({ State := resp.State,
           Diagnostics := Diagnostics.Append resp.Diagnostics req.State.diags ++
             [⟨Severity.Error, "Client Error", "Unable to delete alias, got error: " ++ e⟩] },
          [ApiCall.DeleteAlias req.State.data.DomainName.ValueString
            req.State.data.LocalPart.ValueString])) := by
  refine ⟨fun req resp h0 hp hl hc => ?_, fun req resp h0 hp hc => ?_,
    fun req resp h0 hp hl hc => ?_, fun req resp h0 hp hc => ?_⟩
  · exact alias_Create_client_error client req resp e
      (by rw [Diagnostics.HasError_Append, h0, hp]; rfl) hl hc
  · exact alias_Read_client_error client req resp e
      (by rw [Diagnostics.HasError_Append, h0, hp]; rfl) hc
  · exact alias_Update_client_error client req resp e
      (by rw [Diagnostics.HasError_Append, h0, hp]; rfl) hl hc
  · exact alias_Delete_client_error client req resp e
      (by rw [Diagnostics.HasError_Append, h0, hp]; rfl) hc

/-- C25 at a sample input: with an API that answers every call with the error
"boom", reading and creating the alias "info" at "example.com" each add the one
error "Client Error" and write no state. -/
theorem C25_alias_client_errors_witness :
    AliasResource.Read sampleClientFailing
        { State := { data := sampleAliasModel, diags := [] } }
        { State := newStateForSchema AliasResource.Schema, Diagnostics := [] } =
      ({ State := newStateForSchema AliasResource.Schema,
         Diagnostics := Diagnostics.Append [] [] ++
           [⟨Severity.Error, "Client Error", "Unable to read alias, got error: " ++ "boom"⟩] },
        [ApiCall.GetAlias "example.com" "info"]) ∧
    (AliasResource.Create sampleClientFailing
        { Plan := { data := sampleAliasModel, diags := [] } }
        { State := newStateForSchema AliasResource.Schema, Diagnostics := [] }).1.Diagnostics =
      [⟨Severity.Error, "Client Error", "Unable to create alias, got error: boom"⟩] :=
  ⟨(C25_alias_client_errors sampleClientFailing "boom").2.1
      { State := { data := sampleAliasModel, diags := [] } }
      { State := newStateForSchema AliasResource.Schema, Diagnostics := [] }
      (by decide) (by decide) rfl,
    by decide⟩

/-! ## Guard order, activation outcome and update frame -/

theorem Diagnostics.filter_errors_of_no_error (diags : Diagnostics)
    (h : Diagnostics.HasError diags = false) :
    diags.filter (fun d => d.Severity = Severity.Error) = [] := by
  rw [List.filter_eq_nil_iff]
  intro d hd
  simpa using Diagnostics.severity_of_no_error diags h d hd

/-- C26: in `MailboxResource.Create` and `MailboxResource.Update` the password
guard comes before the spam validation: for every plan that decodes with
`password_method = "password"` and a null password, whatever its
`spam_aggressiveness`, the response has exactly one error diagnostic,
"Missing Password", no error "Invalid spam_aggressiveness", and no API call is
made. -/
theorem C26_password_guard_before_spam (quote : String → String) (client : migadu.Client) :
    (∀ (req : CreateRequest MailboxResourceModel) (resp : CreateResponse),
      resp.Diagnostics.HasError = false → req.Plan.diags.HasError = false →
      req.Plan.data.PasswordMethod = basetypes.StringValue.Known "password" →
      req.Plan.data.Password = basetypes.StringValue.Null →
      (MailboxResource.Create quote client req resp).1.Diagnostics.filter
          (fun d => d.Severity = Severity.Error) =
        [⟨Severity.Error, "Missing Password",
          "When password_method is 'password', the password field must be provided."⟩] ∧
      (∀ d ∈ (MailboxResource.Create quote client req resp).1.Diagnostics,
        d.Severity = Severity.Error → d.Summary ≠ "Invalid spam_aggressiveness") ∧
      (MailboxResource.Create quote client req resp).2 = []) ∧
    (∀ (req : UpdateRequest MailboxResourceModel) (resp : UpdateResponse),
      resp.Diagnostics.HasError = false → req.Plan.diags.HasError = false →
      req.Plan.data.PasswordMethod = basetypes.StringValue.Known "password" →
      req.Plan.data.Password = basetypes.StringValue.Null →
      (MailboxResource.Update quote client req resp).1.Diagnostics.filter
          (fun d => d.Severity = Severity.Error) =
        [⟨Severity.Error, "Missing Password",
          "When password_method is 'password', the password field must be provided."⟩] ∧
      (∀ d ∈ (MailboxResource.Update quote client req resp).1.Diagnostics,
        d.Severity = Severity.Error → d.Summary ≠ "Invalid spam_aggressiveness") ∧
      (MailboxResource.Update quote client req resp).2 = []) := by
  constructor
  · intro req resp h0 hp hpm hpw
    have hne : Diagnostics.HasError (Diagnostics.Append resp.Diagnostics req.Plan.diags)
        = false := by
      rw [Diagnostics.HasError_Append, h0, hp]
      rfl
    rw [MailboxResource.Create_missing_password quote client req resp hne hpm hpw]
    refine ⟨?_, fun d hd hsev hsum => ?_, rfl⟩
    · rw [List.filter_append, Diagnostics.filter_errors_of_no_error _ hne]
      simp
    · rcases List.mem_append.mp hd with hd | hd
      · exact Diagnostics.severity_of_no_error _ hne d hd hsev
      · rw [List.mem_singleton.mp hd] at hsum
        have h2 : "Missing Password" = "Invalid spam_aggressiveness" := hsum
        exact absurd h2 (by decide)
  · intro req resp h0 hp hpm hpw
    have hne : Diagnostics.HasError (Diagnostics.Append resp.Diagnostics req.Plan.diags)
        = false := by
      rw [Diagnostics.HasError_Append, h0, hp]
      rfl
    rw [MailboxResource.Update_missing_password quote client req resp hne hpm hpw]
    refine ⟨?_, fun d hd hsev hsum => ?_, rfl⟩
    · rw [List.filter_append, Diagnostics.filter_errors_of_no_error _ hne]
      simp
    · rcases List.mem_append.mp hd with hd | hd
      · exact Diagnostics.severity_of_no_error _ hne d hd hsev
      · rw [List.mem_singleton.mp hd] at hsum
        have h2 : "Missing Password" = "Invalid spam_aggressiveness" := hsum
        exact absurd h2 (by decide)

/-- C26 at the plan of the repository's password validation test, whose spam
aggressiveness "moderate" is not a valid level. -/
theorem C26_password_guard_before_spam_witness :
    validateMailboxSpam (fun s => s) "moderate" ≠ none ∧
    (MailboxResource.Create (fun s => s) sampleClientAccepting
        { Plan := { data := samplePasswordPlanModel, diags := [] } }
        sampleMailboxResponse).1.Diagnostics.filter (fun d => d.Severity = Severity.Error) =
      [⟨Severity.Error, "Missing Password",
        "When password_method is 'password', the password field must be provided."⟩] ∧
    (MailboxResource.Update (fun s => s) sampleClientAccepting
        { Plan := { data := samplePasswordPlanModel, diags := [] } }
        sampleMailboxUpdateResponse).1.Diagnostics.filter
        (fun d => d.Severity = Severity.Error) =
      [⟨Severity.Error, "Missing Password",
        "When password_method is 'password', the password field must be provided."⟩] :=
  ⟨by decide,
    ((C26_password_guard_before_spam (fun s => s) sampleClientAccepting).1
      { Plan := { data := samplePasswordPlanModel, diags := [] } } sampleMailboxResponse
      (by decide) (by decide) rfl rfl).1,
    ((C26_password_guard_before_spam (fun s => s) sampleClientAccepting).2
      { Plan := { data := samplePasswordPlanModel, diags := [] } } sampleMailboxUpdateResponse
      (by decide) (by decide) rfl rfl).1⟩

theorem issues_nil_of_empty (diag : migadu.DomainDiagnostics)
    (h1 : diag.MX = []) (h2 : diag.SPF = []) (h3 : diag.DKIM = []) (h4 : diag.DMARC = []) :
    DomainActivationResource.issues diag = [] := by
  simp [DomainActivationResource.issues, h1, h2, h3, h4]

/-- C27: for a plan that decodes: when all four diagnostics lists are empty and
`ActivateDomain` succeeds, `DomainActivationResource.Create` adds no diagnostic
and writes a state whose `state` is the returned domain's `State` and whose
`domain_name` is the planned value; when `GetDomainDiagnostics` or
`ActivateDomain` returns an error it adds exactly the error "Client Error"
with that error's message and leaves the state as it was. -/
theorem C27_activation_outcome (client : migadu.Client)
    (req : CreateRequest DomainActivationResourceModel) (resp : CreateResponse)
    (h0 : resp.Diagnostics.HasError = false) (hp : req.Plan.diags.HasError = false) :
    (∀ (diag : migadu.DomainDiagnostics) (domain : migadu.Domain),
      client.GetDomainDiagnostics req.Plan.data.DomainName.ValueString = Except.ok diag →
      diag.MX = [] → diag.SPF = [] → diag.DKIM = [] → diag.DMARC = [] →
      client.ActivateDomain req.Plan.data.DomainName.ValueString = Except.ok domain →
      (DomainActivationResource.Create client req resp).1.Diagnostics =
        Diagnostics.Append resp.Diagnostics req.Plan.diags ∧
      (DomainActivationResource.Create client req resp).1.State.GetAttribute "state" =
        Value.String domain.State ∧
      (DomainActivationResource.Create client req resp).1.State.GetAttribute "domain_name" =
        req.Plan.data.DomainName.toValue) ∧
    (∀ e : String,
      client.GetDomainDiagnostics req.Plan.data.DomainName.ValueString = Except.error e →
      DomainActivationResource.Create client req resp =
        ({ State := resp.State,
           Diagnostics := Diagnostics.Append resp.Diagnostics req.Plan.diags ++
             [⟨Severity.Error, "Client Error",
               "Unable to get domain diagnostics, got error: " ++ e⟩] },
          [ApiCall.GetDomainDiagnostics req.Plan.data.DomainName.ValueString])) ∧
    (∀ (diag : migadu.DomainDiagnostics) (e : String),
      client.GetDomainDiagnostics req.Plan.data.DomainName.ValueString = Except.ok diag →
      diag.MX = [] → diag.SPF = [] → diag.DKIM = [] → diag.DMARC = [] →
      client.ActivateDomain req.Plan.data.DomainName.ValueString = Except.error e →
      DomainActivationResource.Create client req resp =
        ({ State := resp.State,
           Diagnostics := Diagnostics.Append resp.Diagnostics req.Plan.diags ++
             [⟨Severity.Error, "Client Error", "Unable to activate domain, got error: " ++ e⟩] },
          [ApiCall.GetDomainDiagnostics req.Plan.data.DomainName.ValueString,
           ApiCall.ActivateDomain req.Plan.data.DomainName.ValueString])) := by
  have hne : Diagnostics.HasError (Diagnostics.Append resp.Diagnostics req.Plan.diags) = false := by
    rw [Diagnostics.HasError_Append, h0, hp]
    rfl
  refine ⟨fun diag domain hd h1 h2 h3 h4 ha => ?_, fun e hd => ?_,
    fun diag e hd h1 h2 h3 h4 ha => ?_⟩
  · have hi := issues_nil_of_empty diag h1 h2 h3 h4
    simp only [DomainActivationResource.Create, hne, hd, hi, ha, Bool.false_eq_true, if_false,
      List.length_nil, gt_iff_lt, Nat.lt_irrefl, State.Set, Diagnostics.Append_nil]
    refine ⟨trivial, ?_, ?_⟩ <;>
      simp [State.GetAttribute, DomainActivationResourceModel.toObject, List.lookup,
        types.StringValue, basetypes.StringValue.toValue]
  · simp only [DomainActivationResource.Create, hne, hd, Bool.false_eq_true, if_false]
    rw [Diagnostics.AddError_of_no_error _ _ _ hne]
  · have hi := issues_nil_of_empty diag h1 h2 h3 h4
    simp only [DomainActivationResource.Create, hne, hd, hi, ha, Bool.false_eq_true, if_false,
      List.length_nil, gt_iff_lt, Nat.lt_irrefl]
    rw [Diagnostics.AddError_of_no_error _ _ _ hne]

/-- C27 at a sample input: clean diagnostics and a successful activation of
"example.com" give the state "active" for the planned domain name. -/
theorem C27_activation_outcome_witness :
    (DomainActivationResource.Create sampleClientAccepting sampleActivationRequest
        sampleActivationResponse).1.State.GetAttribute "state" = Value.String "active" ∧
    (DomainActivationResource.Create sampleClientAccepting sampleActivationRequest
        sampleActivationResponse).1.State.GetAttribute "domain_name" =
      Value.String "example.com" :=
  have h := (C27_activation_outcome sampleClientAccepting sampleActivationRequest
    sampleActivationResponse (by decide) (by decide)).1
    { MX := [], SPF := [], DKIM := [], DMARC := [] } { Name := "example.com", State := "active" }
    rfl rfl rfl rfl rfl rfl
  ⟨h.2.1, h.2.2⟩

/-- C28: a successful `MailboxResource.Update` writes a state in which
`address`, `is_internal` and `storage_usage` come from the API's response and
every other attribute is the plan's value, `changed_at` and `last_login_at`
included, whatever the API returned for them. -/
theorem C28_update_keeps_plan_values (quote : String → String) (client : migadu.Client)
    (req : UpdateRequest MailboxResourceModel) (resp : UpdateResponse)
    (updated : migadu.Mailbox)
    (h0 : resp.Diagnostics.HasError = false) (hp : req.Plan.diags.HasError = false)
    (hg : ¬ (req.Plan.data.PasswordMethod = basetypes.StringValue.Known "password" ∧
      req.Plan.data.Password = basetypes.StringValue.Null))
    (hv : validateMailboxSpam quote req.Plan.data.SpamAggressiveness.ValueString = none)
    (hc : client.UpdateMailbox req.Plan.data.DomainName.ValueString
      (MailboxResource.requestBody req.Plan.data
        (if (!req.Plan.data.PasswordMethod.IsNull && !req.Plan.data.PasswordMethod.IsUnknown)
            = true then req.Plan.data.PasswordMethod.ValueString else ""))
      = Except.ok updated) :
    (MailboxResource.Update quote client req resp).1.State.GetAttribute "address" =
      Value.String updated.Address ∧
    (MailboxResource.Update quote client req resp).1.State.GetAttribute "is_internal" =
      Value.Bool updated.IsInternal ∧
    (MailboxResource.Update quote client req resp).1.State.GetAttribute "storage_usage" =
      Value.Int64 updated.StorageUsage ∧
    (MailboxResource.Update quote client req resp).1.State.GetAttribute "changed_at" =
      req.Plan.data.ChangedAt.toValue ∧
    (MailboxResource.Update quote client req resp).1.State.GetAttribute "last_login_at" =
      req.Plan.data.LastLoginAt.toValue ∧
    (∀ a : String, a ≠ "address" → a ≠ "is_internal" → a ≠ "storage_usage" →
      (MailboxResource.Update quote client req resp).1.State.GetAttribute a =
        ((MailboxResourceModel.toObject req.Plan.data).lookup a).getD Value.Null) := by
  have hne : Diagnostics.HasError (Diagnostics.Append resp.Diagnostics req.Plan.diags) = false := by
    rw [Diagnostics.HasError_Append, h0, hp]
    rfl
  rw [MailboxResource.Update_success quote client req resp updated hne hg hv hc]
  refine ⟨?_, ?_, ?_, ?_, ?_, fun a h1 h2 h3 => ?_⟩
  · simp [State.GetAttribute, MailboxResourceModel.toObject, List.lookup, types.StringValue,
      basetypes.StringValue.toValue]
  · simp [State.GetAttribute, MailboxResourceModel.toObject, List.lookup, types.BoolValue,
      basetypes.BoolValue.toValue]
  · simp [State.GetAttribute, MailboxResourceModel.toObject, List.lookup, types.Int64Value,
      basetypes.Int64Value.toValue]
  · simp [State.GetAttribute, MailboxResourceModel.toObject, List.lookup]
  · simp [State.GetAttribute, MailboxResourceModel.toObject, List.lookup]
  · have b1 : (a == "address") = false := by simpa using h1
    have b2 : (a == "is_internal") = false := by simpa using h2
    have b3 : (a == "storage_usage") = false := by simpa using h3
    simp only [State.GetAttribute, MailboxResourceModel.toObject, List.lookup, b1, b2, b3]

/-- C28 at a sample update: the API answers with a mailbox whose `ChangedAt` and
`LastLoginAt` are empty, and the state keeps the plan's unknown values. -/
theorem C28_update_keeps_plan_values_witness :
    (MailboxResource.Update (fun s => s) sampleClientAccepting
        { Plan := { data := sampleMailboxModel "default", diags := [] } }
        sampleMailboxUpdateResponse).1.State.GetAttribute "address" =
      Value.String "admin@example.com" ∧
    (MailboxResource.Update (fun s => s) sampleClientAccepting
        { Plan := { data := sampleMailboxModel "default", diags := [] } }
        sampleMailboxUpdateResponse).1.State.GetAttribute "changed_at" = Value.Unknown :=
  have h := C28_update_keeps_plan_values (fun s => s) sampleClientAccepting
    { Plan := { data := sampleMailboxModel "default", diags := [] } }
    sampleMailboxUpdateResponse
    { MailboxResource.requestBody (sampleMailboxModel "default") "" with
      Address := "admin@example.com" }
    (by decide) (by decide) (by decide) (by decide) rfl
  ⟨h.1, h.2.2.2.1⟩

/-! ## Import identifiers: empty segments and separators inside a segment -/

theorem mailbox_ImportState_error (s : String) (h : (strings_Split s '/').length ≠ 2) :
    MailboxResource.ImportState ⟨s⟩ (newImportStateResponse MailboxResource.Schema) =
      { State := newStateForSchema MailboxResource.Schema,
        Diagnostics := [⟨Severity.Error, "Invalid Import ID",
          "Import ID must be in format: domain_name/local_part"⟩] } := by
  simp [MailboxResource.ImportState, h, newImportStateResponse, Diagnostics.AddError_nil]

theorem alias_ImportState_error (s : String) (h : (strings_Split s '/').length ≠ 2) :
    AliasResource.ImportState ⟨s⟩ (newImportStateResponse AliasResource.Schema) =
      { State := newStateForSchema AliasResource.Schema,
        Diagnostics := [⟨Severity.Error, "Invalid Import ID",
          "Import ID must be in format: domain_name/local_part"⟩] } := by
  simp [AliasResource.ImportState, h, newImportStateResponse, Diagnostics.AddError_nil]

theorem rewrite_ImportState_error (s : String) (h : (strings_Split s '/').length ≠ 2) :
    RewriteResource.ImportState ⟨s⟩ (newImportStateResponse RewriteResource.Schema) =
      { State := newStateForSchema RewriteResource.Schema,
        Diagnostics := [⟨Severity.Error, "Invalid Import ID",
          "Import ID must be in format: domain_name/name"⟩] } := by
  simp [RewriteResource.ImportState, h, newImportStateResponse, Diagnostics.AddError_nil]

theorem identity_ImportState_error (s : String) (h : (strings_Split s '/').length ≠ 3) :
    IdentityResource.ImportState ⟨s⟩ (newImportStateResponse IdentityResource.Schema) =
      { State := newStateForSchema IdentityResource.Schema,
        Diagnostics := [⟨Severity.Error, "Invalid Import ID",
          "Import ID must be in format: domain_name/mailbox/local_part"⟩] } := by
  simp [IdentityResource.ImportState, h, newImportStateResponse, Diagnostics.AddError_nil]

theorem rewrite_ImportState_of_split (s a b : String)
    (h : strings_Split s '/' = [a, b]) :
    RewriteResource.ImportState ⟨s⟩ (newImportStateResponse RewriteResource.Schema) =
      { State := { Schema := RewriteResource.Schema,
                   Raw := some [("domain_name", Value.String a), ("name", Value.String b)] },
        Diagnostics := [] } := by
  simp only [RewriteResource.ImportState, h]
  simpa using import_two_attributes RewriteResource.Schema "domain_name" "name" a b
    (by decide) (by decide) (by decide)

theorem count_slash_two (d l : String) :
    (d ++ "/" ++ l).data.count '/' = d.data.count '/' + 1 + l.data.count '/' := by
  have e : (d ++ "/" ++ l).data = d.data ++ '/' :: l.data := by
    simp [String.data_append]
  rw [e, List.count_append, List.count_cons_self]
  omega

theorem count_slash_three (d m l : String) :
    (d ++ "/" ++ m ++ "/" ++ l).data.count '/' =
      d.data.count '/' + 1 + m.data.count '/' + 1 + l.data.count '/' := by
  have e : (d ++ "/" ++ m ++ "/" ++ l).data = d.data ++ '/' :: (m.data ++ '/' :: l.data) := by
    simp [String.data_append]
  rw [e, List.count_append, List.count_cons_self, List.count_append, List.count_cons_self]
  omega

/-- C29: the composite import parsers do not check segments for emptiness: "/"
imports as a mailbox, an alias and a rewrite, and "//" as an identity, with no
diagnostic and the empty string in each attribute; every ID with exactly one
"/" (two for an identity) is accepted; and an ID built from segments one of
which contains "/" is always rejected with "Invalid Import ID", the segment
count being too large. -/
theorem C29_import_segments_unchecked :
    MailboxResource.ImportState ⟨"/"⟩ (newImportStateResponse MailboxResource.Schema) =
      { State := { Schema := MailboxResource.Schema,
                   Raw := some [("domain_name", Value.String ""),
                     ("local_part", Value.String "")] },
        Diagnostics := [] } ∧
    AliasResource.ImportState ⟨"/"⟩ (newImportStateResponse AliasResource.Schema) =
      { State := { Schema := AliasResource.Schema,
                   Raw := some [("domain_name", Value.String ""),
                     ("local_part", Value.String "")] },
        Diagnostics := [] } ∧
    RewriteResource.ImportState ⟨"/"⟩ (newImportStateResponse RewriteResource.Schema) =
      { State := { Schema := RewriteResource.Schema,
                   Raw := some [("domain_name", Value.String ""), ("name", Value.String "")] },
        Diagnostics := [] } ∧
    IdentityResource.ImportState ⟨"//"⟩ (newImportStateResponse IdentityResource.Schema) =
      { State := { Schema := IdentityResource.Schema,
                   Raw := some [("domain_name", Value.String ""), ("mailbox", Value.String ""),
                     ("local_part", Value.String "")] },
        Diagnostics := [] } ∧
    (∀ s : String, s.data.count '/' = 1 →
      (MailboxResource.ImportState ⟨s⟩
        (newImportStateResponse MailboxResource.Schema)).Diagnostics = [] ∧
      (AliasResource.ImportState ⟨s⟩
        (newImportStateResponse AliasResource.Schema)).Diagnostics = [] ∧
      (RewriteResource.ImportState ⟨s⟩
        (newImportStateResponse RewriteResource.Schema)).Diagnostics = []) ∧
    (∀ s : String, s.data.count '/' = 2 →
      (IdentityResource.ImportState ⟨s⟩
        (newImportStateResponse IdentityResource.Schema)).Diagnostics = []) ∧
    (∀ d l : String, '/' ∈ d.data ∨ '/' ∈ l.data →
      MailboxResource.ImportState ⟨d ++ "/" ++ l⟩
          (newImportStateResponse MailboxResource.Schema) =
        { State := newStateForSchema MailboxResource.Schema,
          Diagnostics := [⟨Severity.Error, "Invalid Import ID",
            "Import ID must be in format: domain_name/local_part"⟩] } ∧
      AliasResource.ImportState ⟨d ++ "/" ++ l⟩
          (newImportStateResponse AliasResource.Schema) =
        { State := newStateForSchema AliasResource.Schema,
          Diagnostics := [⟨Severity.Error, "Invalid Import ID",
            "Import ID must be in format: domain_name/local_part"⟩] } ∧
      RewriteResource.ImportState ⟨d ++ "/" ++ l⟩
          (newImportStateResponse RewriteResource.Schema) =
        { State := newStateForSchema RewriteResource.Schema,
          Diagnostics := [⟨Severity.Error, "Invalid Import ID",
            "Import ID must be in format: domain_name/name"⟩] }) ∧
    (∀ d m l : String, '/' ∈ d.data ∨ '/' ∈ m.data ∨ '/' ∈ l.data →
      IdentityResource.ImportState ⟨d ++ "/" ++ m ++ "/" ++ l⟩
          (newImportStateResponse IdentityResource.Schema) =
        { State := newStateForSchema IdentityResource.Schema,
          Diagnostics := [⟨Severity.Error, "Invalid Import ID",
            "Import ID must be in format: domain_name/mailbox/local_part"⟩] }) := by
  refine ⟨by decide, by decide, by decide, by decide, fun s hs => ?_, fun s hs => ?_,
    fun d l h => ?_, fun d m l h => ?_⟩
  · have hlen : (strings_Split s '/').length = 2 := by
      rw [strings_Split_length, hs]
    obtain ⟨a, b, hab⟩ := List.length_eq_two.mp hlen
    rw [mailbox_ImportState_of_split s a b hab, alias_ImportState_of_split s a b hab,
      rewrite_ImportState_of_split s a b hab]
    exact ⟨rfl, rfl, rfl⟩
  · have hlen : (strings_Split s '/').length = 3 := by
      rw [strings_Split_length, hs]
    obtain ⟨a, b, c, habc⟩ := List.length_eq_three.mp hlen
    rw [identity_ImportState_of_split s a b c habc]
  · have hlen : (strings_Split (d ++ "/" ++ l) '/').length ≠ 2 := by
      rw [strings_Split_length, count_slash_two]
      rcases h with h | h
      · have := List.count_pos_iff.mpr h
        omega
      · have := List.count_pos_iff.mpr h
        omega
    exact ⟨mailbox_ImportState_error _ hlen, alias_ImportState_error _ hlen,
      rewrite_ImportState_error _ hlen⟩
  · have hlen : (strings_Split (d ++ "/" ++ m ++ "/" ++ l) '/').length ≠ 3 := by
      rw [strings_Split_length, count_slash_three]
      rcases h with h | h | h
      · have := List.count_pos_iff.mpr h
        omega
      · have := List.count_pos_iff.mpr h
        omega
      · have := List.count_pos_iff.mpr h
        omega
    exact identity_ImportState_error _ hlen

/-! ## Spam aggressiveness: the default and the unset value -/

/-- C30: the schema default "default" passes `validateMailboxSpam`, so a plan
holding it is never rejected with "Invalid spam_aggressiveness"; a null or
unknown `spam_aggressiveness` reads as "" through `ValueString`, which fails
the validation, so `MailboxResource.Create` and `Update` (once past the
password guard) stop with "Invalid spam_aggressiveness", make no API call and
leave the state as it was. -/
theorem C30_spam_default_and_unset (quote : String → String) (client : migadu.Client) :
    validateMailboxSpam quote "default" = none ∧
    basetypes.StringValue.Null.ValueString = "" ∧
    basetypes.StringValue.Unknown.ValueString = "" ∧
    validateMailboxSpam quote "" =
      some ("invalid mailbox spam_aggressiveness " ++ quote "" ++
        ": must be one of strictest, stricter, strict, default, permissive, " ++
        "\"more permissive\", \"most permissive\"") ∧
    (∀ (req : CreateRequest MailboxResourceModel) (resp : CreateResponse),
      resp.Diagnostics.HasError = false → req.Plan.diags.HasError = false →
      ¬ (req.Plan.data.PasswordMethod = basetypes.StringValue.Known "password" ∧
        req.Plan.data.Password = basetypes.StringValue.Null) →
      (req.Plan.data.SpamAggressiveness = basetypes.StringValue.Known "default" →
        ∀ d ∈ (MailboxResource.Create quote client req resp).1.Diagnostics,
          d.Severity = Severity.Error → d.Summary ≠ "Invalid spam_aggressiveness") ∧
      (req.Plan.data.SpamAggressiveness = basetypes.StringValue.Null ∨
          req.Plan.data.SpamAggressiveness = basetypes.StringValue.Unknown →
        MailboxResource.Create quote client req resp =
          ({ State := resp.State,
             Diagnostics := Diagnostics.Append resp.Diagnostics req.Plan.diags ++
               [⟨Severity.Error, "Invalid spam_aggressiveness",
                 "invalid mailbox spam_aggressiveness " ++ quote "" ++
                 ": must be one of strictest, stricter, strict, default, permissive, " ++
                 "\"more permissive\", \"most permissive\""⟩] }, []))) ∧
    (∀ (req : UpdateRequest MailboxResourceModel) (resp : UpdateResponse),
      resp.Diagnostics.HasError = false → req.Plan.diags.HasError = false →
      ¬ (req.Plan.data.PasswordMethod = basetypes.StringValue.Known "password" ∧
        req.Plan.data.Password = basetypes.StringValue.Null) →
      (req.Plan.data.SpamAggressiveness = basetypes.StringValue.Known "default" →
        ∀ d ∈ (MailboxResource.Update quote client req resp).1.Diagnostics,
          d.Severity = Severity.Error → d.Summary ≠ "Invalid spam_aggressiveness") ∧
      (req.Plan.data.SpamAggressiveness = basetypes.StringValue.Null ∨
          req.Plan.data.SpamAggressiveness = basetypes.StringValue.Unknown →
        MailboxResource.Update quote client req resp =
          ({ State := resp.State,
             Diagnostics := Diagnostics.Append resp.Diagnostics req.Plan.diags ++
               [⟨Severity.Error, "Invalid spam_aggressiveness",
                 "invalid mailbox spam_aggressiveness " ++ quote "" ++
                 ": must be one of strictest, stricter, strict, default, permissive, " ++
                 "\"more permissive\", \"most permissive\""⟩] }, []))) := by
  have hdef : validateMailboxSpam quote "default" = none := by
    simp [validateMailboxSpam, validMailboxSpamLevels]
  have hemp : validateMailboxSpam quote "" =
      some ("invalid mailbox spam_aggressiveness " ++ quote "" ++
        ": must be one of strictest, stricter, strict, default, permissive, " ++
        "\"more permissive\", \"most permissive\"") := by
    simp [validateMailboxSpam, validMailboxSpamLevels]
  refine ⟨hdef, rfl, rfl, hemp, fun req resp h0 hp hg => ⟨fun hs d hd hsev hsum => ?_,
    fun hs => ?_⟩, fun req resp h0 hp hg => ⟨fun hs d hd hsev hsum => ?_, fun hs => ?_⟩⟩
  · have hne : Diagnostics.HasError (Diagnostics.Append resp.Diagnostics req.Plan.diags)
        = false := by
      rw [Diagnostics.HasError_Append, h0, hp]
      rfl
    have hv : validateMailboxSpam quote req.Plan.data.SpamAggressiveness.ValueString = none := by
      rw [hs]
      exact hdef
    cases hc : client.NewMailbox req.Plan.data.DomainName.ValueString
        (MailboxResource.requestBody req.Plan.data
          (if (!req.Plan.data.PasswordMethod.IsNull && !req.Plan.data.PasswordMethod.IsUnknown)
              = true then req.Plan.data.PasswordMethod.ValueString else "invitation")) with
    | error err =>
      rw [MailboxResource.Create_client_error quote client req resp err hne hg hv hc] at hd
      rcases List.mem_append.mp hd with hd | hd
      · exact Diagnostics.severity_of_no_error _ hne d hd hsev
      · rw [List.mem_singleton.mp hd] at hsum
        have h2 : "Client Error" = "Invalid spam_aggressiveness" := hsum
        exact absurd h2 (by decide)
    | ok created =>
      rw [MailboxResource.Create_success quote client req resp created hne hg hv hc] at hd
      exact Diagnostics.severity_of_no_error _ hne d hd hsev
  · apply MailboxResource.Create_invalid_spam quote client req resp _ h0 hp hg
    rcases hs with hs | hs <;> rw [hs] <;> exact hemp
  · have hne : Diagnostics.HasError (Diagnostics.Append resp.Diagnostics req.Plan.diags)
        = false := by
      rw [Diagnostics.HasError_Append, h0, hp]
      rfl
    have hv : validateMailboxSpam quote req.Plan.data.SpamAggressiveness.ValueString = none := by
      rw [hs]
      exact hdef
    cases hc : client.UpdateMailbox req.Plan.data.DomainName.ValueString
        (MailboxResource.requestBody req.Plan.data
          (if (!req.Plan.data.PasswordMethod.IsNull && !req.Plan.data.PasswordMethod.IsUnknown)
              = true then req.Plan.data.PasswordMethod.ValueString else "")) with
    | error err =>
      rw [MailboxResource.Update_client_error quote client req resp err hne hg hv hc] at hd
      rcases List.mem_append.mp hd with hd | hd
      · exact Diagnostics.severity_of_no_error _ hne d hd hsev
      · rw [List.mem_singleton.mp hd] at hsum
        have h2 : "Client Error" = "Invalid spam_aggressiveness" := hsum
        exact absurd h2 (by decide)
    | ok updated =>
      rw [MailboxResource.Update_success quote client req resp updated hne hg hv hc] at hd
      exact Diagnostics.severity_of_no_error _ hne d hd hsev
  · apply MailboxResource.Update_invalid_spam quote client req resp _ h0 hp hg
    rcases hs with hs | hs <;> rw [hs] <;> exact hemp

/-- C30 at a sample plan whose `spam_aggressiveness` is null: `Create` rejects
it before any API call. -/
theorem C30_spam_default_and_unset_witness :
    MailboxResource.Create (fun s => s) sampleClientAccepting
        { Plan := { data := sampleNullSpamModel, diags := [] } } sampleMailboxResponse =
      ({ State := sampleMailboxResponse.State,
         Diagnostics := Diagnostics.Append sampleMailboxResponse.Diagnostics [] ++
           [⟨Severity.Error, "Invalid spam_aggressiveness",
             "invalid mailbox spam_aggressiveness " ++ "" ++
             ": must be one of strictest, stricter, strict, default, permissive, " ++
             "\"more permissive\", \"most permissive\""⟩] }, []) :=
  (((C30_spam_default_and_unset (fun s => s) sampleClientAccepting).2.2.2.2.1
    { Plan := { data := sampleNullSpamModel, diags := [] } } sampleMailboxResponse
    (by decide) (by decide) (by decide)).2) (Or.inl rfl)
